import Mathlib

/-!
Verification model of the MythTV OpenGL video compositing engine
(mythtv/libs/libmythtv/openglvideo.cpp).

The C++ class OpenGLVideo is shallowly embedded: the mutable object becomes
an explicit state record, the OpenGL context becomes a pure resource ledger
(fresh handle counter plus lists of live handles), and each member function
becomes a state-transforming Lean function translated line by line from the
source.  Machine integers (Qt int, GLuint) are modelled as Int/Nat: none of
the modelled paths exercises overflow.  C float arithmetic appearing in the
destination-rectangle shift is modelled with exact rationals; the facts
proved about it (sign and scan-independence) do not depend on rounding.
-/

namespace OpenGLVideoModel

/-- The filter stage types of the pipeline.  Modelled from the spec: the
enum OpenGLFilterType lives in the openglvideo.h header (not part of src/);
the pipeline order convert -> resize-or-bicubic given in the spec fixes the
enumerator order, which is also the std::map key order of the filter map. -/
inductive OpenGLFilterType where
  | kGLFilterNone
  | kGLFilterYUV2RGB
  | kGLFilterResize
  | kGLFilterBicubic
deriving DecidableEq

open OpenGLFilterType

/-- Numeric position of a filter type in the enum (= std::map key order). -/
def OpenGLFilterType.idx : OpenGLFilterType → Nat
  | kGLFilterNone => 0
  | kGLFilterYUV2RGB => 1
  | kGLFilterResize => 2
  | kGLFilterBicubic => 3

/-- The std::map iteration order over filter keys (ascending key order). -/
def keyOrder : List OpenGLFilterType :=
  [kGLFilterNone, kGLFilterYUV2RGB, kGLFilterResize, kGLFilterBicubic]

/-- Output target of a filter stage (openglvideo.h, modelled from the spec:
an intermediate framebuffer object versus the default display buffer). -/
inductive DisplayBuffer where
  | kDefaultBuffer
  | kFrameBufferObject
deriving DecidableEq

open DisplayBuffer

/-- One filter stage; the class OpenGLFilter of openglvideo.cpp. -/
@[ext]
structure OpenGLFilter where
  fragmentPrograms : List Nat
  numInputs : Nat
  frameBuffers : List Nat
  frameBufferTextures : List Nat
  outputBuffer : DisplayBuffer
deriving DecidableEq

/-- Modelled from the spec: the GLFeatures bitmask constants declared in the
mythrender_opengl.h header (not part of src/).  Each feature is a distinct
power-of-two bit and kGLMaxFeat is one past the last bit, so that
kGLMaxFeat - 1 is the full feature set ParseOptions starts from. -/
def kGLFeatNone : Nat := 0x0000

def kGLMultiTex : Nat := 0x0001

def kGLExtRect : Nat := 0x0002

def kGLExtFragProg : Nat := 0x0004

def kGLExtFBufObj : Nat := 0x0008

def kGLExtPBufObj : Nat := 0x0010

def kGLNVFence : Nat := 0x0020

def kGLAppleFence : Nat := 0x0040

def kGLMesaYCbCr : Nat := 0x0080

def kGLAppleYCbCr : Nat := 0x0100

def kGLMaxFeat : Nat := 0x0200

/-- Frame scan type.  Modelled from the spec: the scan-mode enum of the
missing videoouttypes.h header, with the upstream enumerator codes
(kScan_Ignore = -1, kScan_Detect = 0, kScan_Interlaced = 1,
kScan_Intr2ndField = 2, kScan_Progressive = 3). -/
inductive FrameScanType where
  | kScan_Ignore
  | kScan_Detect
  | kScan_Interlaced
  | kScan_Intr2ndField
  | kScan_Progressive
deriving DecidableEq

/-- Numeric enumerator value of a FrameScanType constant. -/
def FrameScanType.code : FrameScanType → Int
  | .kScan_Ignore => -1
  | .kScan_Detect => 0
  | .kScan_Interlaced => 1
  | .kScan_Intr2ndField => 2
  | .kScan_Progressive => 3

/-- Pixel formats relevant to UpdateInputFrame (frame->codec). -/
inductive VideoCodec where
  | FMT_NONE
  | FMT_YV12
  | FMT_RGB24
  | FMT_BGRA
deriving DecidableEq

/-- QSize with Qt int components. -/
structure QSizeI where
  w : Int
  h : Int
deriving DecidableEq

/-- QRect with Qt int components (only position and extent are needed). -/
structure QRectI where
  x : Int
  y : Int
  w : Int
  h : Int
deriving DecidableEq

/-- The OpenGL context as a pure resource ledger.  CreateTexture /
CreateFrameBuffer / CreateFragmentProgram hand out fresh handles from
nextId and record them live; the Delete calls remove a live handle, and
deleting a handle that is not live records a double-free in freeError.
texData records, per texture handle, the identifier of the video frame
last uploaded into it (none for a texture no frame was uploaded to). -/
@[ext]
structure GLContext where
  nextId : Nat
  liveTextures : List Nat
  liveFrameBuffers : List Nat
  livePrograms : List Nat
  texData : Nat → Option Nat
  freeError : Bool

def GLContext.createTexture (c : GLContext) : Nat × GLContext :=
  (c.nextId,
   { c with nextId := c.nextId + 1, liveTextures := c.liveTextures ++ [c.nextId] })

def GLContext.deleteTexture (c : GLContext) (h : Nat) : GLContext :=
  if h ∈ c.liveTextures then { c with liveTextures := c.liveTextures.erase h }
  else { c with freeError := true }

def GLContext.createFrameBuffer (c : GLContext) : Nat × GLContext :=
  (c.nextId,
   { c with nextId := c.nextId + 1,
            liveFrameBuffers := c.liveFrameBuffers ++ [c.nextId] })

def GLContext.deleteFrameBuffer (c : GLContext) (h : Nat) : GLContext :=
  if h ∈ c.liveFrameBuffers then
    { c with liveFrameBuffers := c.liveFrameBuffers.erase h }
  else { c with freeError := true }

def GLContext.createFragmentProgram (c : GLContext) : Nat × GLContext :=
  (c.nextId,
   { c with nextId := c.nextId + 1, livePrograms := c.livePrograms ++ [c.nextId] })

def GLContext.deleteFragmentProgram (c : GLContext) (h : Nat) : GLContext :=
  if h ∈ c.livePrograms then { c with livePrograms := c.livePrograms.erase h }
  else { c with freeError := true }

/-- Well-formedness of the ledger: every live handle was handed out before
nextId, the live lists have no duplicates, and no frame data is recorded
for handles not yet handed out. -/
def GLContext.WF (c : GLContext) : Prop :=
  0 < c.nextId ∧
  (∀ h ∈ c.liveTextures, h < c.nextId) ∧
  (∀ h ∈ c.liveFrameBuffers, h < c.nextId) ∧
  (∀ h ∈ c.livePrograms, h < c.nextId) ∧
  c.liveTextures.Nodup ∧ c.liveFrameBuffers.Nodup ∧ c.livePrograms.Nodup ∧
  (∀ h, c.nextId ≤ h → c.texData h = none)

/-- The state of one OpenGLVideo instance: the data members of the C++
class that the verified member functions read or write.  The filter map
glfilt_map_t (std::map from type to OpenGLFilter pointer) is a function to
Option (Option OpenGLFilter): the outer layer is entry presence in the map,
the inner layer is the pointer being non-null (RemoveFilter nulls the
pointer and only the caller's subsequent erase drops the entry). -/
@[ext]
structure OpenGLVideo where
  ctx : GLContext
  filters : OpenGLFilterType → Option (Option OpenGLFilter)
  gl_features : Nat
  inputTextures : List Nat
  referenceTextures : List Nat
  refsNeeded : Int
  hardwareDeinterlacing : Bool
  hardwareDeinterlacer : String
  inputUpdated : Bool
  actual_video_dim : QSizeI
  video_dim : QSizeI
  display_video_rect : QRectI
  defaultUpsize : OpenGLFilterType
  helperTexture : Nat
  textureRects : Bool
  inputTextureSize : QSizeI
  currentFrameNum : Int

namespace OpenGLVideo

/-- filters.count(k): the map has an entry for k (live or nulled). -/
def hasKey (st : OpenGLVideo) (k : OpenGLFilterType) : Bool :=
  (st.filters k).isSome

/-- The stage stored for key k, when the entry exists and is non-null. -/
def liveGet (st : OpenGLVideo) (k : OpenGLFilterType) : Option OpenGLFilter :=
  (st.filters k).bind id

/-- The entry for k exists and holds a non-null stage. -/
def isLive (st : OpenGLVideo) (k : OpenGLFilterType) : Bool :=
  (st.liveGet k).isSome

/-- filters.size(): number of map entries (null entries included). -/
def filtersSize (st : OpenGLVideo) : Nat :=
  (keyOrder.filter fun k => st.hasKey k).length

/-- Test a feature bit of gl_features. -/
def hasFeature (st : OpenGLVideo) (f : Nat) : Bool :=
  st.gl_features &&& f ≠ 0

/-- Store a live stage under key k (map insert / value overwrite). -/
def setLive (st : OpenGLVideo) (k : OpenGLFilterType) (f : OpenGLFilter) :
    OpenGLVideo :=
  { st with filters := fun k' => if k' = k then some (some f) else st.filters k' }

/-- Null the pointer stored under key k, keeping the entry
(filters[k] = NULL in RemoveFilter). -/
def nullEntry (st : OpenGLVideo) (k : OpenGLFilterType) : OpenGLVideo :=
  { st with filters := fun k' => if k' = k then some none else st.filters k' }

/-- filters.erase(k): drop the entry altogether. -/
def eraseKey (st : OpenGLVideo) (k : OpenGLFilterType) : OpenGLVideo :=
  { st with filters := fun k' => if k' = k then none else st.filters k' }

/-- OpenGLVideo::RotateTextures (openglvideo.cpp lines 1046-1061): no-op for
a ring of fewer than 2 slots; otherwise count down refsNeeded while
positive and cyclically shift: the last ring slot becomes the new input
texture, every other ring slot moves down one place, and the previous
input texture enters the front of the ring. -/
def rotateTextures (st : OpenGLVideo) : OpenGLVideo :=
  if st.referenceTextures.length < 2 then st
  else
    let refsNeeded' := if st.refsNeeded > 0 then st.refsNeeded - 1 else st.refsNeeded
    match st.inputTextures with
    | [] => { st with refsNeeded := refsNeeded' }
    | i :: rest =>
      -- tmp := referenceTextures[size-1]; the downward loop moves every
      -- slot up by one, which as a list is cons-after-dropLast; then
      -- referenceTextures[0] := inputTextures[0]; inputTextures[0] := tmp.
      { st with
          refsNeeded := refsNeeded',
          referenceTextures := i :: st.referenceTextures.dropLast,
          inputTextures := st.referenceTextures.getLastD 0 :: rest }

end OpenGLVideo

/-! ### String helpers mirroring the QString operations used by ParseOptions -/

/-- QString::contains on character lists: pat occurs as a contiguous
substring of hay. -/
def charsContain (pat : List Char) : List Char → Bool
  | [] => pat.isEmpty
  | c :: cs => pat.isPrefixOf (c :: cs) || charsContain pat cs

/-- QString::contains. -/
def qcontains (s pat : String) : Bool :=
  charsContain pat.toList s.toList

/-- QString::section(sep, 0, 0): the first sep-separated field. -/
def qsectionHead (s sep : String) : String :=
  (s.splitOn sep).headD ""

/-- QString::section(sep, 1): fields from index 1 on, re-joined by sep
(empty when there is no separator). -/
def qsectionTail (s sep : String) : String :=
  String.intercalate sep (s.splitOn sep).tail

/-- The loop body of OpenGLVideo::ParseOptions (openglvideo.cpp lines
1565-1593): scan the comma-separated tokens; at the first token whose
key (before '=') is "opengloptions", clear one feature bit per matching
disable flag in the value and return; otherwise fall through to the full
feature set. -/
def parseOptionsLoop : List String → Nat → Nat
  | [], ret => ret
  | s :: rest, ret =>
    let name := (qsectionHead s "=").toLower
    let opts := (qsectionTail s "=").toLower
    if name = "opengloptions" then
      let r1 := if qcontains opts "nofence" then ret - kGLAppleFence - kGLNVFence else ret
      -- "noswap" is recognised but has no effect (TODO in the source)
      let r2 := if qcontains opts "nopbo" then r1 - kGLExtPBufObj else r1
      let r3 := if qcontains opts "nofbo" then r2 - kGLExtFBufObj else r2
      let r4 := if qcontains opts "nofrag" then r3 - kGLExtFragProg else r3
      let r5 := if qcontains opts "norect" then r4 - kGLExtRect else r4
      let r6 := if qcontains opts "noycbcr" then r5 - kGLMesaYCbCr else r5
      r6
    else parseOptionsLoop rest ret

/-- OpenGLVideo::ParseOptions (openglvideo.cpp lines 1557-1597). -/
def parseOptions (options : String) : Nat :=
  let ret := kGLMaxFeat - 1
  let list := options.splitOn ","
  if list.isEmpty then ret
  else parseOptionsLoop list ret

/-- The feature mask negotiated during Init (openglvideo.cpp line 170):
gl_features = ParseOptions(options) & gl_context->GetFeatures(). -/
def negotiatedFeatures (options : String) (hardware : Nat) : Nat :=
  parseOptions options &&& hardware

/-- The destination-rectangle vertical shift applied by
OpenGLVideo::PrepareFrame for hardware bob-deinterlacing on the final
stage (openglvideo.cpp lines 939-948), in exact rational arithmetic:
bob = (display.height() / video_rect.height()) / 2, then
field = kScan_Interlaced ? -1.0f : 1.0f — note that this C condition
tests the enum constant kScan_Interlaced itself (value 1, always
truthy), not the scan argument — and the shift is
bob * (topfieldfirst ? field : -field). -/
def hardwareBobShift (display_h video_rect_h : ℚ) (topfieldfirst : Bool)
    (scan : FrameScanType) : ℚ :=
  let bob : ℚ := display_h / video_rect_h / 2
  let field : ℚ := if FrameScanType.code .kScan_Interlaced ≠ 0 then -1 else 1
  let _unused := scan
  bob * (if topfieldfirst then field else -field)

/-- The combined collection of the current input texture and the ring
textures, as a list (input texture first, then the ring slots in order). -/
def combinedTextures (st : OpenGLVideo) : List Nat :=
  st.inputTextures.headD 0 :: st.referenceTextures

/-- Concrete state exercising the RotateTextures theorem: one input
texture and a two-slot reference ring. -/
def rotateDemoState : OpenGLVideo where
  ctx :=
    { nextId := 10, liveTextures := [1, 5, 6], liveFrameBuffers := [],
      livePrograms := [], texData := fun _ => none, freeError := false }
  filters := fun _ => none
  gl_features := kGLMaxFeat - 1
  inputTextures := [1]
  referenceTextures := [5, 6]
  refsNeeded := 2
  hardwareDeinterlacing := true
  hardwareDeinterlacer := "opengllinearblend"
  inputUpdated := false
  actual_video_dim := ⟨720, 480⟩
  video_dim := ⟨720, 480⟩
  display_video_rect := ⟨0, 0, 720, 480⟩
  defaultUpsize := kGLFilterResize
  helperTexture := 0
  textureRects := false
  inputTextureSize := ⟨1024, 512⟩
  currentFrameNum := 0

namespace OpenGLVideo

/-- OpenGLVideo::AddFrameBuffer (openglvideo.cpp lines 673-690): fails when
framebuffer objects are unsupported; otherwise creates a texture and then a
framebuffer bound to it, returning (framebuffer, texture). -/
def addFrameBuffer (st : OpenGLVideo) : Option (Nat × Nat) × OpenGLVideo :=
  if st.hasFeature kGLExtFBufObj = false then (none, st)
  else
    let (tex, c1) := st.ctx.createTexture
    let (fb, c2) := c1.createFrameBuffer
    (some (fb, tex), { st with ctx := c2 })

/-- The allocation loop of OptimiseFilters for a positive buffer deficit:
repeatedly AddFrameBuffer and push the (framebuffer, texture) pair onto the
stage's lists, aborting with false as soon as AddFrameBuffer fails. -/
def allocLoop : OpenGLVideo → OpenGLFilterType → Nat → Bool × OpenGLVideo
  | st, _, 0 => (true, st)
  | st, k, n + 1 =>
    match st.addFrameBuffer with
    | (none, st') => (false, st')
    | (some (fb, tex), st') =>
      match st'.liveGet k with
      | none => (false, st')
      | some filt =>
        allocLoop (st'.setLive k
          { filt with frameBuffers := filt.frameBuffers ++ [fb],
                      frameBufferTextures := filt.frameBufferTextures ++ [tex] }) k n

/-- The release loop of OptimiseFilters for a negative buffer deficit:
repeatedly delete the stage's last framebuffer and last framebuffer
texture and pop both lists. -/
def freeLoop : OpenGLVideo → OpenGLFilterType → Nat → OpenGLVideo
  | st, _, 0 => st
  | st, k, n + 1 =>
    match st.liveGet k with
    | none => st
    | some filt =>
      let c1 := st.ctx.deleteFrameBuffer (filt.frameBuffers.getLastD 0)
      let c2 := c1.deleteTexture (filt.frameBufferTextures.getLastD 0)
      freeLoop (({ st with ctx := c2 }).setLive k
        { filt with frameBuffers := filt.frameBuffers.dropLast,
                    frameBufferTextures := filt.frameBufferTextures.dropLast }) k n

/-- The body of the reverse walk of OptimiseFilters for a non-last stage
(openglvideo.cpp lines 333-367): set the output target to the framebuffer
object, then allocate or free (framebuffer, texture) pairs until their
number matches buffers_needed. -/
def adjustStage (st : OpenGLVideo) (k : OpenGLFilterType) (filt : OpenGLFilter)
    (needed : Nat) : Bool × OpenGLVideo :=
  let st1 := st.setLive k { filt with outputBuffer := kFrameBufferObject }
  let buffers_have := filt.frameBuffers.length
  if buffers_have < needed then allocLoop st1 k (needed - buffers_have)
  else (true, freeLoop st1 k (buffers_have - needed))

/-- The reverse iteration of OptimiseFilters over the filter map
(openglvideo.cpp lines 329-374): the first stage visited (the last one in
pipeline order) gets the default output buffer, every later one is
adjusted to buffers_needed intermediate pairs, and after each stage
buffers_needed becomes that stage's numInputs.  Entries whose stored
stage is null are never present when this runs in the modelled call
sequences. -/
def optimiseLoop : OpenGLVideo → List OpenGLFilterType → Nat → Bool →
    Bool × OpenGLVideo
  | st, [], _, _ => (true, st)
  | st, k :: ks, needed, lastf =>
    match st.liveGet k with
    | some filt =>
      if lastf then
        optimiseLoop (st.setLive k { filt with outputBuffer := kDefaultBuffer }) ks
          filt.numInputs false
      else
        match adjustStage st k filt needed with
        | (false, st') => (false, st')
        | (true, st') => optimiseLoop st' ks filt.numInputs false
    | none => optimiseLoop st ks needed lastf

/-- Map keys with an entry, in reverse key order (rbegin -> rend). -/
def presentKeysRev (st : OpenGLVideo) : List OpenGLFilterType :=
  (keyOrder.filter fun k => st.hasKey k).reverse

/-- OpenGLVideo::OptimiseFilters (openglvideo.cpp lines 323-379).  The
trailing SetFiltering() call only issues GL texture-parameter hints and
touches no modelled state. -/
def optimiseFilters (st : OpenGLVideo) : Bool × OpenGLVideo :=
  optimiseLoop st st.presentKeysRev 1 true

/-- OpenGLVideo::AddFragmentProgram (openglvideo.cpp lines 649-665) in the
resource model: handle 0 (failure) without fragment-program support,
otherwise a fresh program handle compiled from the generated source.  The
generated source text is modelled separately by getProgramString; the
resource ledger does not depend on it. -/
def addFragmentProgram (st : OpenGLVideo) : Nat × OpenGLVideo :=
  if st.hasFeature kGLExtFragProg = false then (0, st)
  else
    let (p, c') := st.ctx.createFragmentProgram
    (p, { st with ctx := c' })

/-- OpenGLVideo::RemoveFilter (openglvideo.cpp lines 500-527): destroy the
stage's fragment programs, then its framebuffers, then its framebuffer
textures, delete the stage object and null the map entry.  The entry
itself stays in the map until the caller's subsequent erase.  (The C++
function always returns true; the return value is dropped here.) -/
def removeFilter (st : OpenGLVideo) (f : OpenGLFilterType) : OpenGLVideo :=
  if st.hasKey f = false then st
  else
    match st.liveGet f with
    | none => st
    | some filt =>
      let c1 := filt.fragmentPrograms.foldl GLContext.deleteFragmentProgram st.ctx
      let c2 := filt.frameBuffers.foldl GLContext.deleteFrameBuffer c1
      let c3 := filt.frameBufferTextures.foldl GLContext.deleteTexture c2
      ({ st with ctx := c3 }).nullEntry f

/-- RemoveFilter followed by the caller-side filters.erase, the pairing
used at every RemoveFilter call site of openglvideo.cpp. -/
def removeFilterErase (st : OpenGLVideo) (f : OpenGLFilterType) : OpenGLVideo :=
  (st.removeFilter f).eraseKey f

/-- The helper-texture step of AddFilter (openglvideo.cpp lines 461-469):
for the bicubic stage, delete any existing helper texture and create a
fresh one, failing on a zero handle. -/
def helperStep (st : OpenGLVideo) (f : OpenGLFilterType) : Bool × OpenGLVideo :=
  if f = kGLFilterBicubic then
    let c0 := if st.helperTexture ≠ 0 then st.ctx.deleteTexture st.helperTexture
              else st.ctx
    let (hlp, c1) := c0.createTexture
    (decide (hlp ≠ 0), { st with ctx := c1, helperTexture := hlp })
  else (true, st)

/-- The fragment-program step of AddFilter (openglvideo.cpp lines
471-478): stages other than none/resize get one program; a zero handle
from AddFragmentProgram fails the step. -/
def programStep (st : OpenGLVideo) (f : OpenGLFilterType) (ok : Bool) :
    Bool × List Nat × OpenGLVideo :=
  if ok = true ∧ f ≠ kGLFilterNone ∧ f ≠ kGLFilterResize then
    let (p, st') := st.addFragmentProgram
    (decide (p ≠ 0), if p ≠ 0 then [p] else [], st')
  else (ok, [], st)

/-- OpenGLVideo::AddFilter (openglvideo.cpp lines 422-498): no-op when the
map already has an entry; capability checks for resize (framebuffer
objects when other stages exist) and bicubic (fragment programs and
framebuffer objects); for bicubic the helper texture is recreated; stages
other than none/resize get one fragment program (a missing
fragment-program extension for kGLFilterYUV2RGB is only logged at the
check, and surfaces as AddFragmentProgram returning 0); on success the
stage is inserted and OptimiseFilters runs; any failure after that rolls
back through RemoveFilter and erase. -/
def addFilter (st : OpenGLVideo) (f : OpenGLFilterType) : Bool × OpenGLVideo :=
  if st.hasKey f = true then (true, st)
  else if st.hasFeature kGLExtFBufObj = false ∧ f = kGLFilterResize ∧
      0 < st.filtersSize then (false, st)
  else if (st.hasFeature kGLExtFragProg = false ∨ st.hasFeature kGLExtFBufObj = false) ∧
      f = kGLFilterBicubic then (false, st)
  else
    let (success1, st1) := st.helperStep f
    let (success2, progs, st2) := st1.programStep f success1
    if success2 = true then
      let st3 := st2.setLive f
        { fragmentPrograms := progs, numInputs := 1, frameBuffers := [],
          frameBufferTextures := [], outputBuffer := kDefaultBuffer }
      match st3.optimiseFilters with
      | (true, st4) => (true, st4)
      | (false, st4) => (false, st4.removeFilterErase f)
    else
      (false, st2.removeFilterErase f)

/-- OpenGLVideo::CheckResize (openglvideo.cpp lines 285-315): decide
whether an upscale or downscale stage is needed and create or destroy the
resize/bicubic filter accordingly.  Only the bicubic stage is removed in
the fall-through branch. -/
def checkResize (st : OpenGLVideo) (deinterlacing allow : Bool) : OpenGLVideo :=
  if ((st.video_dim.h < st.display_video_rect.h ∨
       st.video_dim.w < st.display_video_rect.w) ∧ allow = true) ∧
      st.defaultUpsize = kGLFilterBicubic then
    ((st.removeFilterErase kGLFilterResize).addFilter kGLFilterBicubic).2
  else if (((st.video_dim.h < st.display_video_rect.h ∨
             st.video_dim.w < st.display_video_rect.w) ∧ allow = true) ∧
            st.defaultUpsize = kGLFilterResize) ∨
          (st.video_dim.h > st.display_video_rect.h ∧ deinterlacing = true ∧
           allow = true) then
    ((st.removeFilterErase kGLFilterBicubic).addFilter kGLFilterResize).2
  else
    ((st.removeFilterErase kGLFilterBicubic).optimiseFilters).2

end OpenGLVideo

namespace OpenGLVideo

/-- The tail of the reconciliation check along reverse pipeline order:
every listed stage is live, targets an intermediate framebuffer object and
owns exactly needed (framebuffer, texture) pairs, where needed starts as
the numInputs of its immediate downstream neighbour. -/
def checkRevTail (st : OpenGLVideo) : List OpenGLFilterType → Nat → Bool
  | [], _ => true
  | k :: ks, needed =>
    match st.liveGet k with
    | none => false
    | some f =>
      (f.outputBuffer == kFrameBufferObject) && (f.frameBuffers.length == needed) &&
      (f.frameBufferTextures.length == needed) && checkRevTail st ks f.numInputs

/-- The reconciliation check over a reverse-pipeline-ordered key list: the
head (the last stage in pipeline order) targets the default display buffer
and the tail satisfies checkRevTail seeded with the head's numInputs. -/
def checkRev (st : OpenGLVideo) : List OpenGLFilterType → Bool
  | [] => true
  | k :: ks =>
    match st.liveGet k with
    | none => false
    | some f => (f.outputBuffer == kDefaultBuffer) && checkRevTail st ks f.numInputs

/-- Map keys holding a live (non-null) stage, in reverse pipeline order. -/
def liveKeysRev (st : OpenGLVideo) : List OpenGLFilterType :=
  (keyOrder.filter fun k => st.isLive k).reverse

/-- The buffer reconciliation invariant of claim C1: every stage that is
not last in pipeline order owns exactly as many (framebuffer, texture)
pairs as its immediate downstream neighbour declares inputs and targets an
intermediate framebuffer, while the last stage targets the default
display buffer. -/
def reconInvariant (st : OpenGLVideo) : Bool :=
  checkRev st st.liveKeysRev

/-- Every live stage owns equally many framebuffers and framebuffer
textures (the two lists are grown and shrunk strictly in pairs). -/
def pairsWF (st : OpenGLVideo) : Bool :=
  keyOrder.all fun k =>
    match st.liveGet k with
    | none => true
    | some f => f.frameBuffers.length == f.frameBufferTextures.length

/-- Every live stage declares exactly one input: AddFilter creates every
stage with temp->numInputs = 1 and nothing in the source ever changes the
field. -/
def inputsOne (st : OpenGLVideo) : Bool :=
  keyOrder.all fun k =>
    match st.liveGet k with
    | none => true
    | some f => f.numInputs == 1

/-- No map entry holds a null stage pointer.  Such entries exist only
transiently between a RemoveFilter and its paired call-site erase, never
at the call boundaries modelled here. -/
def noNullEntries (st : OpenGLVideo) : Bool :=
  keyOrder.all fun k => !(st.filters k == some none)

end OpenGLVideo

/-- One graph-mutating call of claims C1/C2: AddFilter, or RemoveFilter
followed by the call-site map erase. -/
inductive GraphOp where
  | add (f : OpenGLFilterType)
  | removeErase (f : OpenGLFilterType)

def applyGraphOp (st : OpenGLVideo) : GraphOp → OpenGLVideo
  | .add f => (st.addFilter f).2
  | .removeErase f => st.removeFilterErase f

def applyGraphOps : OpenGLVideo → List GraphOp → OpenGLVideo
  | st, [] => st
  | st, op :: ops => applyGraphOps (applyGraphOp st op) ops

/-- A decoded video frame as UpdateInputFrame sees it: geometry, pixel
format, interlace flag and an abstract content identifier standing for
the pixel data. -/
structure VideoFrame where
  width : Int
  height : Int
  codec : VideoCodec
  interlaced_frame : Bool
  content : Nat
deriving DecidableEq

/-- The power-of-two rounding loop of OpenGLVideo::GetTextureSize
(openglvideo.cpp lines 744-752): keep doubling w until it is at least
target.  (The extra 0 < w guard only rules out the w = 0 start the C++
loop would never terminate on; every call site starts from 64.) -/
def pow2Above (target : Int) (w : Nat) : Nat :=
  if h : (w : Int) < target ∧ 0 < w then pow2Above target (2 * w) else w
termination_by (target - w).toNat
decreasing_by
  obtain ⟨h1, h2⟩ := h
  omega

namespace OpenGLVideo

/-- OpenGLVideo::GetTextureSize (openglvideo.cpp lines 736-755): the
requested size itself under rectangular textures, otherwise each
dimension rounded up to the next power of two that is at least 64. -/
def getTextureSize (st : OpenGLVideo) (size : QSizeI) : QSizeI :=
  if st.textureRects then size
  else ⟨(pow2Above size.w 64 : Nat), (pow2Above size.h 64 : Nat)⟩

/-- OpenGLVideo::UpdateInputFrame (openglvideo.cpp lines 779-825): a frame
whose geometry or pixel format mismatches the configured input is dropped
before any state is touched.  Otherwise the reference ring is rotated
when hardware deinterlacing is active, the frame is converted into the
mapped buffer of the input texture — full software conversion when no
YUV2RGB stage exists, interlaced or progressive repacking otherwise; the
three paths differ only in the pixel encoding, which the model does not
track, so each moves the frame's content into the input texture — and
the input is flagged as updated. -/
def updateInputFrame (st : OpenGLVideo) (frame : VideoFrame) (soft_bob : Bool) :
    OpenGLVideo :=
  if frame.width ≠ st.actual_video_dim.w ∨ frame.height ≠ st.actual_video_dim.h ∨
      frame.width < 1 ∨ frame.height < 1 ∨ frame.codec ≠ VideoCodec.FMT_YV12 then
    st
  else
    let st1 := if st.hardwareDeinterlacing then st.rotateTextures else st
    -- gl_context->GetTextureBuffer does not fail in the model
    match st1.inputTextures with
    | [] => st1    -- inputTextures[0] out of bounds; unreachable in modelled states
    | i :: _ =>
      let converted : Nat :=
        if st1.isLive kGLFilterYUV2RGB = false then
          frame.content      -- myth_sws_img_convert software conversion
        else if frame.interlaced_frame = true ∧ soft_bob = false then
          frame.content      -- pack_yv12interlaced
        else
          frame.content      -- pack_yv12alpha
      { st1 with
          ctx := { st1.ctx with
                     texData := fun t => if t = i then some converted
                                         else st1.ctx.texData t },
          inputUpdated := true }

/-- OpenGLVideo::TearDownDeinterlacer (openglvideo.cpp lines 529-550):
with a YUV2RGB entry present, pop and delete the third and then the
second fragment program when present, delete every reference texture,
clear the ring and reset refsNeeded. -/
def tearDownDeinterlacer (st : OpenGLVideo) : OpenGLVideo :=
  if st.hasKey kGLFilterYUV2RGB = false then st
  else
    match st.liveGet kGLFilterYUV2RGB with
    | none => st   -- null entry: the C++ would dereference NULL; never reached
    | some tmp =>
      let (tmp1, c1) :=
        if tmp.fragmentPrograms.length = 3 then
          ({ tmp with fragmentPrograms := tmp.fragmentPrograms.dropLast },
           st.ctx.deleteFragmentProgram (tmp.fragmentPrograms.getLastD 0))
        else (tmp, st.ctx)
      let (tmp2, c2) :=
        if tmp1.fragmentPrograms.length = 2 then
          ({ tmp1 with fragmentPrograms := tmp1.fragmentPrograms.dropLast },
           c1.deleteFragmentProgram (tmp1.fragmentPrograms.getLastD 0))
        else (tmp1, c1)
      let st1 := ({ st with ctx := c2 }).setLive kGLFilterYUV2RGB tmp2
      let c3 := st1.referenceTextures.foldl GLContext.deleteTexture st1.ctx
      { st1 with ctx := c3, referenceTextures := [], refsNeeded := 0 }

/-- The reference-texture creation loop of AddDeinterlacer (openglvideo.cpp
lines 597-613): ref_size fresh video textures pushed onto the ring.
CreateVideoTexture does not fail in the model; as in the source it also
refreshes inputTextureSize from the context's size policy. -/
def createRefTextures : OpenGLVideo → Nat → OpenGLVideo
  | st, 0 => st
  | st, n + 1 =>
    let (tex, c') := st.ctx.createTexture
    createRefTextures
      { st with ctx := c',
                referenceTextures := st.referenceTextures ++ [tex],
                inputTextureSize := st.getTextureSize st.actual_video_dim } n

/-- OpenGLVideo::AddDeinterlacer (openglvideo.cpp lines 560-641): needs
fragment programs and a YUV2RGB stage; a no-op when the deinterlacer is
already installed; otherwise tears the old one down, sets refsNeeded to
the ring capacity (0 for the field-only deinterlacers, 2 for the temporal
ones), creates that many reference textures and two field-variant
fragment programs, and finishes through CheckResize before recording the
deinterlacer name.  If either program failed the name is cleared and
everything is torn down again. -/
def addDeinterlacer (st : OpenGLVideo) (deinterlacer : String) :
    Bool × OpenGLVideo :=
  if st.hasFeature kGLExtFragProg = false then (false, st)
  else if st.hasKey kGLFilterYUV2RGB = false then (false, st)
  else if st.hardwareDeinterlacer = deinterlacer then (true, st)
  else
    let st1 := st.tearDownDeinterlacer
    let ref_size : Nat :=
      if deinterlacer = "openglbobdeint" ∨ deinterlacer = "openglonefield" ∨
          deinterlacer = "opengldoubleratefieldorder" then 0 else 2
    let st2 := { st1 with refsNeeded := (ref_size : Int) }
    let st3 := createRefTextures st2 ref_size
    let (prog1, st4) := st3.addFragmentProgram
    let (prog2, st5) := st4.addFragmentProgram
    if prog1 ≠ 0 ∧ prog2 ≠ 0 then
      match st5.liveGet kGLFilterYUV2RGB with
      | none => (false, st5)   -- unreachable: the stage was checked above
      | some f =>
        let st6 := st5.setLive kGLFilterYUV2RGB
          { f with fragmentPrograms := f.fragmentPrograms ++ [prog1, prog2] }
        let st7 := st6.checkResize st6.hardwareDeinterlacing true
        (true, { st7 with hardwareDeinterlacer := deinterlacer })
    else
      let st6 := { st5 with hardwareDeinterlacer := "" }
      (false, st6.tearDownDeinterlacer)

/-- OpenGLVideo::SetDeinterlacing (openglvideo.cpp lines 827-836). -/
def setDeinterlacing (st : OpenGLVideo) (deinterlacing : Bool) : OpenGLVideo :=
  if deinterlacing = st.hardwareDeinterlacing then st
  else
    let st1 := { st with hardwareDeinterlacing := deinterlacing }
    st1.checkResize st1.hardwareDeinterlacing true

end OpenGLVideo

/-- The modelled externally callable operations, for stating properties
over arbitrary call sequences. -/
inductive VideoOp where
  | upload (frame : VideoFrame) (soft_bob : Bool)
  | addDeint (deinterlacer : String)
  | setDeint (deinterlacing : Bool)
  | resizeCheck (deinterlacing allow : Bool)
  | addF (f : OpenGLFilterType)
  | removeEraseF (f : OpenGLFilterType)

def applyVideoOp (st : OpenGLVideo) : VideoOp → OpenGLVideo
  | .upload frame soft_bob => st.updateInputFrame frame soft_bob
  | .addDeint d => (st.addDeinterlacer d).2
  | .setDeint b => st.setDeinterlacing b
  | .resizeCheck d a => st.checkResize d a
  | .addF f => (st.addFilter f).2
  | .removeEraseF f => st.removeFilterErase f

def applyVideoOps : OpenGLVideo → List VideoOp → OpenGLVideo
  | st, [] => st
  | st, op :: ops => applyVideoOps (applyVideoOp st op) ops

/-- A well-formed YV12 frame carrying content n for the configured input
geometry of st. -/
def matchingFrame (st : OpenGLVideo) (n : Nat) : VideoFrame :=
  ⟨st.actual_video_dim.w, st.actual_video_dim.h, VideoCodec.FMT_YV12, true, n⟩

/-- N valid uploads of consecutively numbered frames 1..N. -/
def uploadSeq (st : OpenGLVideo) : Nat → OpenGLVideo
  | 0 => st
  | n + 1 =>
    let st' := uploadSeq st n
    st'.updateInputFrame (matchingFrame st' (n + 1)) false

/-- The historical frames held by the reference ring, in ring order
(slot 0 first). -/
def historicalFrames (st : OpenGLVideo) : List Nat :=
  st.referenceTextures.filterMap fun h => st.ctx.texData h


/-! ### Fragment-program template strings (openglvideo.cpp lines 1114-1452)

The file-static QString constants feeding GetProgramString, transcribed
byte for byte (braces written as hex escapes). -/

def attrib_fast : String :=
  "ATTRIB tex   = fragment.texcoord[0];\n" ++
  "PARAM yuv[3] = \x7b program.local[0..2] \x7d;\n"

/-- Declared in the source but referenced by no modelled function. -/
def var_alpha : String :=
  "TEMP alpha;\n"

/-- Declared in the source but referenced by no modelled function. -/
def tex_alpha : String :=
  "TEX alpha, tex, texture[3], %1;\n"

def tex_fast : String :=
  "TEX res, tex, texture[0], %1;\n"

def var_fast : String :=
  "TEMP tmp, res;\n"

def end_fast : String :=
  "DPH tmp.r, res.arbg, yuv[0];\n" ++
  "DPH tmp.g, res.arbg, yuv[1];\n" ++
  "DPH tmp.b, res.arbg, yuv[2];\n" ++
  "MOV tmp.a, res.g;\n" ++
  "MOV result.color, tmp;\n"

def var_deint : String :=
  "TEMP other, current, mov, prev;\n"

def field_calc : String :=
  "MUL prev, tex.yyyy, %2;\n" ++
  "FRC prev, prev;\n" ++
  "SUB prev, prev, 0.5;\n"

def bobdeint : Nat → String
  | 0 =>
    field_calc ++
    "ADD other, tex, \x7b0.0, %3, 0.0, 0.0\x7d;\n" ++
    "TEX other, other, texture[0], %1;\n" ++
    "CMP res, prev, res, other;\n"
  | _ =>
    field_calc ++
    "SUB other, tex, \x7b0.0, %3, 0.0, 0.0\x7d;\n" ++
    "TEX other, other, texture[0], %1;\n" ++
    "CMP res, prev, other, res;\n"

def deint_end_top : String :=
  "CMP res,  prev, current, other;\n"

def deint_end_bot : String :=
  "CMP res,  prev, other, current;\n"

def linearblend : Nat → String
  | 0 =>
    "TEX current, tex, texture[1], %1;\n" ++
    "TEX prev, tex, texture[2], %1;\n" ++
    "ADD other, tex, \x7b0.0, %3, 0.0, 0.0\x7d;\n" ++
    "TEX other, other, texture[1], %1;\n" ++
    "SUB mov, tex, \x7b0.0, %3, 0.0, 0.0\x7d;\n" ++
    "TEX mov, mov, texture[1], %1;\n" ++
    "LRP other, 0.5, other, mov;\n" ++
    field_calc ++ deint_end_top
  | _ =>
    "TEX current, tex, texture[1], %1;\n" ++
    "SUB other, tex, \x7b0.0, %3, 0.0, 0.0\x7d;\n" ++
    "TEX other, other, texture[1], %1;\n" ++
    "ADD mov, tex, \x7b0.0, %3, 0.0, 0.0\x7d;\n" ++
    "TEX mov, mov, texture[1], %1;\n" ++
    "LRP other, 0.5, other, mov;\n" ++
    field_calc ++ deint_end_bot

def kerneldeint : Nat → String
  | 0 =>
    "TEX current, tex, texture[1], %1;\n" ++
    "TEX prev, tex, texture[2], %1;\n" ++
    "MUL other, 0.125, prev;\n" ++
    "MAD other, 0.125, current, other;\n" ++
    "ADD prev, tex, \x7b0.0, %3, 0.0, 0.0\x7d;\n" ++
    "TEX prev, prev, texture[1], %1;\n" ++
    "MAD other, 0.5, prev, other;\n" ++
    "SUB prev, tex, \x7b0.0, %3, 0.0, 0.0\x7d;\n" ++
    "TEX prev, prev, texture[1], %1;\n" ++
    "MAD other, 0.5, prev, other;\n" ++
    "ADD prev, tex, \x7b0.0, %4, 0.0, 0.0\x7d;\n" ++
    "TEX tmp, prev, texture[1], %1;\n" ++
    "MAD other, -0.0625, tmp, other;\n" ++
    "TEX tmp, prev, texture[2], %1;\n" ++
    "MAD other, -0.0625, tmp, other;\n" ++
    "SUB prev, tex, \x7b0.0, %4, 0.0, 0.0\x7d;\n" ++
    "TEX tmp, prev, texture[1], %1;\n" ++
    "MAD other, -0.0625, tmp, other;\n" ++
    "TEX tmp, prev, texture[2], %1;\n" ++
    "MAD other, -0.0625, tmp, other;\n" ++
    field_calc ++ deint_end_top
  | _ =>
    "TEX current, tex, texture[1], %1;\n" ++
    "MUL other, 0.125, res;\n" ++
    "MAD other, 0.125, current, other;\n" ++
    "ADD prev, tex, \x7b0.0, %3, 0.0, 0.0\x7d;\n" ++
    "TEX prev, prev, texture[1], %1;\n" ++
    "MAD other, 0.5, prev, other;\n" ++
    "SUB prev, tex, \x7b0.0, %3, 0.0, 0.0\x7d;\n" ++
    "TEX prev, prev, texture[1], %1;\n" ++
    "MAD other, 0.5, prev, other;\n" ++
    "ADD prev, tex, \x7b0.0, %4, 0.0, 0.0\x7d;\n" ++
    "TEX tmp, prev, texture[1], %1;\n" ++
    "MAD other, -0.0625, tmp, other;\n" ++
    "TEX tmp, prev, texture[0], %1;\n" ++
    "MAD other, -0.0625, tmp, other;\n" ++
    "SUB prev, tex, \x7b0.0, %4, 0.0, 0.0\x7d;\n" ++
    "TEX tmp, prev, texture[1], %1;\n" ++
    "MAD other, -0.0625, tmp, other;\n" ++
    "TEX tmp, prev, texture[0], %1;\n" ++
    "MAD other, -0.0625, tmp, other;\n" ++
    field_calc ++ deint_end_bot

def yadif_setup : String :=
  "TEMP a,b,c,e,f,g,h,j,k,l;\n" ++
  "TEMP a1,b1,f1,g1,h1,i1,j1,l1,m1,n1;\n" ++
  "ALIAS d1 = f;\n" ++
  "ALIAS k1 = g;\n" ++
  "ALIAS c1 = prev;\n" ++
  "ALIAS e1 = mov;\n" ++
  "ALIAS p0 = res;\n" ++
  "ALIAS p1 = c;\n" ++
  "ALIAS p3 = h;\n" ++
  "ALIAS spred1 = a;\n" ++
  "ALIAS spred2 = b;\n" ++
  "ALIAS spred3 = c;\n" ++
  "ALIAS spred4 = e;\n" ++
  "ALIAS spred5 = f;\n" ++
  "ALIAS sscore = g;\n" ++
  "ALIAS score1 = h;\n" ++
  "ALIAS score2 = j;\n" ++
  "ALIAS score3 = k;\n" ++
  "ALIAS score4 = l;\n" ++
  "ALIAS if1 = a1;\n" ++
  "ALIAS if2 = b1;\n" ++
  "TEMP p2, p4;\n" ++
  "ALIAS diff1 = a;\n" ++
  "ALIAS diff2 = b;\n" ++
  "TEMP diff0;\n"

def yadif_spatial_sample : String :=
  "ADD tmp, tex, \x7b%5, %3, 0.0, 0.0\x7d;\n" ++
  "TEX e1, tmp, texture[1], %1;\n" ++
  "ADD tmp, tmp, \x7b%5, 0.0, 0.0, 0.0\x7d;\n" ++
  "TEX f1, tmp, texture[1], %1;\n" ++
  "ADD tmp, tmp, \x7b%5, 0.0, 0.0, 0.0\x7d;\n" ++
  "TEX g1, tmp, texture[1], %1;\n" ++
  "SUB tmp, tmp, \x7b0.0, %4, 0.0, 0.0\x7d;\n" ++
  "TEX n1, tmp, texture[1], %1;\n" ++
  "SUB tmp, tmp, \x7b%5, 0.0, 0.0, 0.0\x7d;\n" ++
  "TEX m1, tmp, texture[1], %1;\n" ++
  "SUB tmp, tmp, \x7b%5, 0.0, 0.0, 0.0\x7d;\n" ++
  "TEX l1, tmp, texture[1], %1;\n" ++
  "SUB tmp, tex, \x7b%5, %3, 0.0, 0.0\x7d;\n" ++
  "TEX j1, tmp, texture[1], %1;\n" ++
  "SUB tmp, tmp, \x7b%5, 0.0, 0.0, 0.0\x7d;\n" ++
  "TEX i1, tmp, texture[1], %1;\n" ++
  "SUB tmp, tmp, \x7b%5, 0.0, 0.0, 0.0\x7d;\n" ++
  "TEX h1, tmp, texture[1], %1;\n" ++
  "ADD tmp, tmp, \x7b0.0, %4, 0.0, 0.0\x7d;\n" ++
  "TEX a1, tmp, texture[1], %1;\n" ++
  "ADD tmp, tmp, \x7b%5, 0.0, 0.0, 0.0\x7d;\n" ++
  "TEX b1, tmp, texture[1], %1;\n" ++
  "ADD tmp, tmp, \x7b%5, 0.0, 0.0, 0.0\x7d;\n" ++
  "TEX c1, tmp, texture[1], %1;\n"

def yadif_calc : String :=
  "LRP p0, 0.5, c, h;\n" ++
  "MOV p1, f;\n" ++
  "LRP p2, 0.5, d, i;\n" ++
  "MOV p3, g;\n" ++
  "LRP p4, 0.5, e, j;\n" ++
  "SUB diff0, d, i;\n" ++
  "ABS diff0, diff0;\n" ++
  "SUB tmp, a, f;\n" ++
  "ABS tmp, tmp;\n" ++
  "SUB diff1, b, g;\n" ++
  "ABS diff1, diff1;\n" ++
  "LRP diff1, 0.5, diff1, tmp;\n" ++
  "SUB tmp, k, f;\n" ++
  "ABS tmp, tmp;\n" ++
  "SUB diff2, g, l;\n" ++
  "ABS diff2, diff2;\n" ++
  "LRP diff2, 0.5, diff2, tmp;\n" ++
  "MAX diff0, diff0, diff1;\n" ++
  "MAX diff0, diff0, diff2;\n" ++
  "SUB tmp, p0, p1;\n" ++
  "SUB other, p4, p3;\n" ++
  "MIN spred1, tmp, other;\n" ++
  "MAX spred2, tmp, other;\n" ++
  "SUB tmp, p2, p1;\n" ++
  "SUB other, p2, p3;\n" ++
  "MAX spred1, spred1, tmp;\n" ++
  "MAX spred1, spred1, other;\n" ++
  "MIN spred2, spred2, tmp;\n" ++
  "MIN spred2, spred2, other;\n" ++
  "MAX spred1, spred2, -spred1;\n" ++
  "MAX diff0, diff0, spred1;\n" ++
  "LRP spred1, 0.5, d1, k1;\n" ++
  "LRP spred2, 0.5, c1, l1;\n" ++
  "LRP spred3, 0.5, b1, m1;\n" ++
  "LRP spred4, 0.5, e1, j1;\n" ++
  "LRP spred5, 0.5, f1, i1;\n" ++
  "SUB sscore, c1, j1;\n" ++
  "ABS sscore, sscore;\n" ++
  "SUB tmp, d1, k1;\n" ++
  "ABS tmp, tmp;\n" ++
  "ADD sscore, sscore, tmp;\n" ++
  "SUB tmp, e1, l1;\n" ++
  "ABS tmp, tmp;\n" ++
  "ADD sscore, sscore, tmp;\n" ++
  "SUB sscore, sscore, 1.0;\n" ++
  "SUB score1, b1, k1;\n" ++
  "ABS score1, score1;\n" ++
  "SUB tmp, c1, l1;\n" ++
  "ABS tmp, tmp;\n" ++
  "ADD score1, score1, tmp;\n" ++
  "SUB tmp, d1, m1;\n" ++
  "ABS tmp, tmp;\n" ++
  "ADD score1, score1, tmp;\n" ++
  "SUB score2, a1, l1;\n" ++
  "ABS score2, score2;\n" ++
  "SUB tmp, b1, m1;\n" ++
  "ABS tmp, tmp;\n" ++
  "ADD score2, score2, tmp;\n" ++
  "SUB tmp, c1, n1;\n" ++
  "ABS tmp, tmp;\n" ++
  "ADD score2, score2, tmp;\n" ++
  "SUB score3, d1, i1;\n" ++
  "ABS score3, score3;\n" ++
  "SUB tmp, e1, j1;\n" ++
  "ABS tmp, tmp;\n" ++
  "ADD score3, score3, tmp;\n" ++
  "SUB tmp, f1, k1;\n" ++
  "ABS tmp, tmp;\n" ++
  "ADD score3, score3, tmp;\n" ++
  "SUB score4, e1, h1;\n" ++
  "ABS score4, score4;\n" ++
  "SUB tmp, f1, i1;\n" ++
  "ABS tmp, tmp;\n" ++
  "ADD score4, score4, tmp;\n" ++
  "SUB tmp, g1, j1;\n" ++
  "ABS tmp, tmp;\n" ++
  "ADD score4, score4, tmp;\n" ++
  "SUB if1, sscore, score1;\n" ++
  "SUB if2, score1, score2;\n" ++
  "CMP if2, if1, -1.0, if2;\n" ++
  "CMP spred1, if1, spred1, spred2;\n" ++
  "CMP spred1, if2, spred1, spred3;\n" ++
  "CMP sscore, if1, sscore, score1;\n" ++
  "CMP sscore, if2, sscore, score2;\n" ++
  "SUB if1, sscore, score3;\n" ++
  "SUB if2, score3, score4;\n" ++
  "CMP if2, if1, -1.0, if2;\n" ++
  "CMP spred1, if1, spred1, spred4;\n" ++
  "CMP spred1, if2, spred1, spred5;\n" ++
  "ADD spred4, p2, diff0;\n" ++
  "SUB spred5, p2, diff0;\n" ++
  "SUB if1, spred4, spred1;\n" ++
  "SUB if2, spred1, spred5;\n" ++
  "CMP spred1, if1, spred4, spred1;\n" ++
  "CMP spred1, if2, spred5, spred1;\n"

def yadif : Nat → String
  | 0 =>
    yadif_setup ++
    "TEMP d;\n" ++
    "ALIAS i = current;\n" ++
    "TEX current, tex, texture[1], %1;\n" ++
    "TEX d, tex, texture[2], %1;\n" ++
    "ADD tmp, tex, \x7b0.0, %3, 0.0, 0.0\x7d;\n" ++
    "TEX a, tmp, texture[2], %1;\n" ++
    "TEX f, tmp, texture[1], %1;\n" ++
    "TEX k, tmp, texture[0], %1;\n" ++
    "ADD tmp, tex, \x7b0.0, %4, 0.0, 0.0\x7d;\n" ++
    "TEX c, tmp, texture[2], %1;\n" ++
    "TEX h, tmp, texture[1], %1;\n" ++
    "SUB tmp, tex, \x7b0.0, %3, 0.0, 0.0\x7d;\n" ++
    "TEX b, tmp, texture[2], %1;\n" ++
    "TEX g, tmp, texture[1], %1;\n" ++
    "TEX l, tmp, texture[0], %1;\n" ++
    "SUB tmp, tex, \x7b0.0, %4, 0.0, 0.0\x7d;\n" ++
    "TEX e, tmp, texture[2], %1;\n" ++
    "TEX j, tmp, texture[1], %1;\n" ++
    yadif_spatial_sample ++
    yadif_calc ++
    field_calc ++
    "CMP res, prev, current, spred1;\n"
  | _ =>
    yadif_setup ++
    "TEMP i;\n" ++
    "ALIAS d = current;\n" ++
    "TEX current, tex, texture[1], %1;\n" ++
    "TEX i, tex, texture[0], %1;\n" ++
    "ADD tmp, tex, \x7b0.0, %3, 0.0, 0.0\x7d;\n" ++
    "TEX a, tmp, texture[2], %1;\n" ++
    "TEX f, tmp, texture[1], %1;\n" ++
    "TEX k, tmp, texture[0], %1;\n" ++
    "ADD tmp, tex, \x7b0.0, %4, 0.0, 0.0\x7d;\n" ++
    "TEX c, tmp, texture[1], %1;\n" ++
    "TEX h, tmp, texture[0], %1;\n" ++
    "SUB tmp, tex, \x7b0.0, %3, 0.0, 0.0\x7d;\n" ++
    "TEX b, tmp, texture[2], %1;\n" ++
    "TEX g, tmp, texture[1], %1;\n" ++
    "TEX l, tmp, texture[0], %1;\n" ++
    "SUB tmp, tex, \x7b0.0, %4, 0.0, 0.0\x7d;\n" ++
    "TEX e, tmp, texture[1], %1;\n" ++
    "TEX j, tmp, texture[0], %1;\n" ++
    yadif_spatial_sample ++
    yadif_calc ++
    field_calc ++
    "CMP res, prev, spred1, current;\n"

def bicubic : String :=
  "TEMP coord, coord2, cdelta, parmx, parmy, a, b, c, d;\n" ++
  "MAD coord.xy, fragment.texcoord[0], \x7b%6, %7\x7d, \x7b0.5, 0.5\x7d;\n" ++
  "TEX parmx, coord.x, texture[1], 1D;\n" ++
  "TEX parmy, coord.y, texture[1], 1D;\n" ++
  "MUL cdelta.xz, parmx.rrgg, \x7b-%5, 0, %5, 0\x7d;\n" ++
  "MUL cdelta.yw, parmy.rrgg, \x7b0, -%3, 0, %3\x7d;\n" ++
  "ADD coord, fragment.texcoord[0].xyxy, cdelta.xyxw;\n" ++
  "ADD coord2, fragment.texcoord[0].xyxy, cdelta.zyzw;\n" ++
  "TEX a, coord.xyxy, texture[0], 2D;\n" ++
  "TEX b, coord.zwzw, texture[0], 2D;\n" ++
  "TEX c, coord2.xyxy, texture[0], 2D;\n" ++
  "TEX d, coord2.zwzw, texture[0], 2D;\n" ++
  "LRP a, parmy.b, a, b;\n" ++
  "LRP c, parmy.b, c, d;\n" ++
  "LRP result.color, parmx.b, a, c;\n"

/-! ### String substitution and number formatting for GetProgramString -/

/-- QString::replace(before, after) over character lists: replace every
occurrence of pat left to right, never rescanning the replacement.  The
second Nat argument counts pattern characters still to skip after a
match (the head of the match was already consumed). -/
def replaceCharsAux (pat rep : List Char) : List Char → Nat → List Char
  | [], _ => []
  | _ :: cs, n + 1 => replaceCharsAux pat rep cs n
  | c :: cs, 0 =>
    if pat.isPrefixOf (c :: cs) then
      rep ++ replaceCharsAux pat rep cs (pat.length - 1)
    else c :: replaceCharsAux pat rep cs 0

/-- QString::replace(before, after); the empty pattern replaces nothing. -/
def qreplace (s pat rep : String) : String :=
  if pat = "" then s
  else String.mk (replaceCharsAux pat.toList rep.toList s.toList 0)

/-- QString::setNum(value, 'f', prec): fixed-point decimal rendering with
prec digits after the point, here of an exact rational (rounding half
up; every value actually formatted by the modelled calls has a
terminating expansion, where the two renderings agree). -/
def formatFixed (prec : Nat) (q : ℚ) : String :=
  let sign := if q < 0 then "-" else ""
  let a : ℚ := |q|
  let den : Nat := 10 ^ prec
  let n : Int := Int.floor (a * den + 1 / 2)
  let ip := n / den
  let fp := (n % den).toNat
  let fs := toString fp
  let pad := String.mk (List.replicate (prec - fs.length) '0')
  sign ++ toString ip ++ "." ++ pad ++ fs

/-- The recognised hardware deinterlacer names of GetProgramString. -/
def recognisedDeinterlacers : List String :=
  ["openglbobdeint", "openglonefield", "opengldoubleratefieldorder",
   "opengllinearblend", "opengldoubleratelinearblend",
   "openglkerneldeint", "opengldoubleratekerneldeint",
   "openglyadif", "opengldoublerateyadif"]

namespace OpenGLVideo

/-- The fixed program header GetProgramString starts from. -/
def programHeader : String :=
  "!!ARBfp1.0\n" ++ "OPTION ARB_precision_hint_fastest;\n"

/-- The substitution tail of GetProgramString (openglvideo.cpp lines
1525-1548): replace the texture-target token %1 and the numeric texel
constants %2-%7 computed from the current texture geometry, then close
with END. -/
def substituteParams (st : OpenGLVideo) (ret1 : String) : String :=
  let temp : String := if st.textureRects then "RECT" else "2D"
  let r1 := qreplace ret1 "%1" temp
  let fb_size := st.getTextureSize st.video_dim
  let lineHeight : ℚ :=
    if st.textureRects = false ∧ 0 < st.inputTextureSize.h then
      1 / (st.inputTextureSize.h : ℚ)
    else 1
  let colWidth : ℚ :=
    if st.textureRects = false ∧ 0 < st.inputTextureSize.h then
      1 / (st.inputTextureSize.w : ℚ)
    else 1
  let fieldSize : ℚ := 1 / (lineHeight * 2)
  let r2 := qreplace r1 "%2" (formatFixed 8 fieldSize)
  let r3 := qreplace r2 "%3" (formatFixed 8 lineHeight)
  let r4 := qreplace r3 "%4" (formatFixed 8 (lineHeight * 2))
  let r5 := qreplace r4 "%5" (formatFixed 8 colWidth)
  let r6 := qreplace r5 "%6" (formatFixed 1 (fb_size.w : ℚ))
  let r7 := qreplace r6 "%7" (formatFixed 1 (fb_size.h : ℚ))
  r7 ++ "END"

/-- OpenGLVideo::GetProgramString (openglvideo.cpp lines 1454-1555):
assemble the fragment-program text for a stage type, deinterlacer name
and field parity, then substitute the texture-target token and the
numeric texel constants through substituteParams.  An unrecognised
deinterlacer name only logs a warning and leaves the deinterlacer
fragment empty. -/
def getProgramString (st : OpenGLVideo) (name : OpenGLFilterType) (deint : String)
    (field : FrameScanType) : String :=
  let ret0 : String := programHeader
  let ret1 : String :=
    match name with
    | kGLFilterYUV2RGB =>
      let tmp_field : Nat := if field = FrameScanType.kScan_Intr2ndField then 1 else 0
      let (need_tex, deint_bit) : Bool × String :=
        if deint = "" then (true, "")
        else if deint = "openglbobdeint" ∨ deint = "openglonefield" ∨
            deint = "opengldoubleratefieldorder" then
          (true, bobdeint tmp_field)
        else if deint = "opengllinearblend" ∨
            deint = "opengldoubleratelinearblend" then
          (decide (tmp_field ≠ 0), linearblend tmp_field)
        else if deint = "openglkerneldeint" ∨
            deint = "opengldoubleratekerneldeint" then
          (decide (tmp_field ≠ 0), kerneldeint tmp_field)
        else if deint = "openglyadif" ∨ deint = "opengldoublerateyadif" then
          (false, yadif tmp_field)
        else
          (true, "")   -- unrecognised: VERBOSE warning only
      ret0 ++ attrib_fast ++ (if deint ≠ "" then var_deint else "") ++
        var_fast ++ (if need_tex then tex_fast else "") ++ deint_bit ++ end_fast
    | kGLFilterNone => ret0
    | kGLFilterResize => ret0
    | kGLFilterBicubic => ret0 ++ bicubic
  st.substituteParams ret1

end OpenGLVideo


/-- The OpenGLVideo fields that none of the filter-graph operations
(AddFilter, RemoveFilter, erase, OptimiseFilters, CheckResize) touch:
everything except the filter map, the resource ledger's handle lists and
the helper texture. -/
def sameVideoCore (st st' : OpenGLVideo) : Prop :=
  st'.gl_features = st.gl_features ∧
  st'.inputTextures = st.inputTextures ∧
  st'.referenceTextures = st.referenceTextures ∧
  st'.refsNeeded = st.refsNeeded ∧
  st'.hardwareDeinterlacing = st.hardwareDeinterlacing ∧
  st'.hardwareDeinterlacer = st.hardwareDeinterlacer ∧
  st'.inputUpdated = st.inputUpdated ∧
  st'.actual_video_dim = st.actual_video_dim ∧
  st'.video_dim = st.video_dim ∧
  st'.display_video_rect = st.display_video_rect ∧
  st'.defaultUpsize = st.defaultUpsize ∧
  st'.textureRects = st.textureRects ∧
  st'.inputTextureSize = st.inputTextureSize ∧
  st'.currentFrameNum = st.currentFrameNum ∧
  st'.ctx.texData = st.ctx.texData

/-- Frame conditions common to the OptimiseFilters-internal steps: entry
presence and liveness are untouched, as is everything in sameVideoCore. -/
def optFrame (st st' : OpenGLVideo) : Prop :=
  (∀ k, st'.isLive k = st.isLive k) ∧ (∀ k, st'.hasKey k = st.hasKey k) ∧
  sameVideoCore st st'

/-- Propositional form of pairsWF, quantified over all keys. -/
def pairsWFP (st : OpenGLVideo) : Prop :=
  ∀ k f, st.liveGet k = some f →
    f.frameBuffers.length = f.frameBufferTextures.length


/-- A single-stage colourspace-conversion filter used by concrete
witness states. -/
def demoFilterYUV : OpenGLFilter :=
  { fragmentPrograms := [3], numInputs := 1, frameBuffers := [],
    frameBufferTextures := [], outputBuffer := kDefaultBuffer }

/-- A concrete post-Init state: full features, one live YUV2RGB stage
rendering straight to the display, one input texture. -/
def graphDemoState : OpenGLVideo where
  ctx := { nextId := 10, liveTextures := [1], liveFrameBuffers := [],
           livePrograms := [3], texData := fun _ => none, freeError := false }
  filters := fun k => if k = kGLFilterYUV2RGB then some (some demoFilterYUV) else none
  gl_features := kGLMaxFeat - 1
  inputTextures := [1]
  referenceTextures := []
  refsNeeded := 0
  hardwareDeinterlacing := false
  hardwareDeinterlacer := ""
  inputUpdated := false
  actual_video_dim := ⟨720, 480⟩
  video_dim := ⟨720, 480⟩
  display_video_rect := ⟨0, 0, 720, 480⟩
  defaultUpsize := kGLFilterResize
  helperTexture := 0
  textureRects := true
  inputTextureSize := ⟨720, 480⟩
  currentFrameNum := 0


/-- A single plain-resize stage (software-converted base pipeline). -/
def demoFilterResize : OpenGLFilter :=
  { fragmentPrograms := [], numInputs := 1, frameBuffers := [],
    frameBufferTextures := [], outputBuffer := kDefaultBuffer }

/-- A concrete fallback-pipeline state: full features, one live resize
stage blitting straight to an equal-sized display. -/
def resizeDemoState : OpenGLVideo where
  ctx := { nextId := 10, liveTextures := [1], liveFrameBuffers := [],
           livePrograms := [], texData := fun _ => none, freeError := false }
  filters := fun k => if k = kGLFilterResize then some (some demoFilterResize) else none
  gl_features := kGLMaxFeat - 1
  inputTextures := [1]
  referenceTextures := []
  refsNeeded := 0
  hardwareDeinterlacing := false
  hardwareDeinterlacer := ""
  inputUpdated := false
  actual_video_dim := ⟨720, 480⟩
  video_dim := ⟨720, 480⟩
  display_video_rect := ⟨0, 0, 720, 480⟩
  defaultUpsize := kGLFilterResize
  helperTexture := 0
  textureRects := true
  inputTextureSize := ⟨720, 480⟩
  currentFrameNum := 0


/-! ## Theorems -/

/-! ### Plumbing lemmas for the filter map and the resource ledger -/

namespace OpenGLVideo

theorem mem_keyOrder (k : OpenGLFilterType) : k ∈ keyOrder := by
  cases k <;> simp [keyOrder]

theorem keyOrder_nodup : keyOrder.Nodup := by decide

theorem filters_setLive (st : OpenGLVideo) (k : OpenGLFilterType) (f : OpenGLFilter)
    (k' : OpenGLFilterType) :
    (st.setLive k f).filters k' = if k' = k then some (some f) else st.filters k' := rfl

theorem liveGet_setLive (st : OpenGLVideo) (k : OpenGLFilterType) (f : OpenGLFilter)
    (k' : OpenGLFilterType) :
    (st.setLive k f).liveGet k' = if k' = k then some f else st.liveGet k' := by
  by_cases h : k' = k <;> simp [liveGet, setLive, h]

theorem isLive_setLive (st : OpenGLVideo) (k : OpenGLFilterType) (f : OpenGLFilter)
    (k' : OpenGLFilterType) :
    (st.setLive k f).isLive k' = if k' = k then true else st.isLive k' := by
  by_cases h : k' = k <;> simp [isLive, liveGet_setLive, h]

theorem hasKey_setLive (st : OpenGLVideo) (k : OpenGLFilterType) (f : OpenGLFilter)
    (k' : OpenGLFilterType) :
    (st.setLive k f).hasKey k' = if k' = k then true else st.hasKey k' := by
  by_cases h : k' = k <;> simp [hasKey, setLive, h]

theorem isLive_of_liveGet {st : OpenGLVideo} {k : OpenGLFilterType} {f : OpenGLFilter}
    (h : st.liveGet k = some f) : st.isLive k = true := by
  simp [isLive, h]

theorem hasKey_of_isLive {st : OpenGLVideo} {k : OpenGLFilterType}
    (h : st.isLive k = true) : st.hasKey k = true := by
  unfold isLive liveGet at h
  unfold hasKey
  cases hx : st.filters k with
  | none => rw [hx] at h; simp at h
  | some v => simp

theorem setLive_self (st : OpenGLVideo) (k : OpenGLFilterType) (f : OpenGLFilter)
    (h : st.filters k = some (some f)) : st.setLive k f = st := by
  have hf : (fun k' => if k' = k then some (some f) else st.filters k') = st.filters := by
    funext k'
    by_cases hk : k' = k
    · rw [if_pos hk, hk, h]
    · rw [if_neg hk]
  show ({ st with filters := _ } : OpenGLVideo) = st
  rw [hf]

theorem sameVideoCore_refl (st : OpenGLVideo) : sameVideoCore st st := by
  simp [sameVideoCore]

theorem sameVideoCore_trans {a b c : OpenGLVideo}
    (h1 : sameVideoCore a b) (h2 : sameVideoCore b c) : sameVideoCore a c := by
  obtain ⟨a1, a2, a3, a4, a5, a6, a7, a8, a9, a10, a11, a12, a13, a14, a15⟩ := h1
  obtain ⟨b1, b2, b3, b4, b5, b6, b7, b8, b9, b10, b11, b12, b13, b14, b15⟩ := h2
  exact ⟨b1.trans a1, b2.trans a2, b3.trans a3, b4.trans a4, b5.trans a5,
         b6.trans a6, b7.trans a7, b8.trans a8, b9.trans a9, b10.trans a10,
         b11.trans a11, b12.trans a12, b13.trans a13, b14.trans a14, b15.trans a15⟩

theorem sameVideoCore_setLive (st : OpenGLVideo) (k : OpenGLFilterType)
    (f : OpenGLFilter) : sameVideoCore st (st.setLive k f) := by
  simp [sameVideoCore, setLive]

theorem hasFeature_of_core {st st' : OpenGLVideo} (h : sameVideoCore st st')
    (b : Nat) : st'.hasFeature b = st.hasFeature b := by
  simp [hasFeature, h.1]

theorem texData_deleteTexture (c : GLContext) (h : Nat) :
    (c.deleteTexture h).texData = c.texData := by
  unfold GLContext.deleteTexture; split <;> rfl

theorem texData_deleteFrameBuffer (c : GLContext) (h : Nat) :
    (c.deleteFrameBuffer h).texData = c.texData := by
  unfold GLContext.deleteFrameBuffer; split <;> rfl

theorem texData_deleteFragmentProgram (c : GLContext) (h : Nat) :
    (c.deleteFragmentProgram h).texData = c.texData := by
  unfold GLContext.deleteFragmentProgram; split <;> rfl

theorem texData_foldl_deleteFragmentProgram (l : List Nat) :
    ∀ c : GLContext, (l.foldl GLContext.deleteFragmentProgram c).texData = c.texData := by
  induction l with
  | nil => intro c; rfl
  | cons a t ih => intro c; rw [List.foldl_cons, ih, texData_deleteFragmentProgram]

theorem texData_foldl_deleteFrameBuffer (l : List Nat) :
    ∀ c : GLContext, (l.foldl GLContext.deleteFrameBuffer c).texData = c.texData := by
  induction l with
  | nil => intro c; rfl
  | cons a t ih => intro c; rw [List.foldl_cons, ih, texData_deleteFrameBuffer]

theorem texData_foldl_deleteTexture (l : List Nat) :
    ∀ c : GLContext, (l.foldl GLContext.deleteTexture c).texData = c.texData := by
  induction l with
  | nil => intro c; rfl
  | cons a t ih => intro c; rw [List.foldl_cons, ih, texData_deleteTexture]

end OpenGLVideo


namespace OpenGLVideo

theorem optFrame_refl (st : OpenGLVideo) : optFrame st st :=
  ⟨fun _ => rfl, fun _ => rfl, sameVideoCore_refl st⟩

theorem optFrame_trans {a b c : OpenGLVideo} (h1 : optFrame a b)
    (h2 : optFrame b c) : optFrame a c :=
  ⟨fun k => (h2.1 k).trans (h1.1 k), fun k => (h2.2.1 k).trans (h1.2.1 k),
   sameVideoCore_trans h1.2.2 h2.2.2⟩

theorem optFrame_setLive {st : OpenGLVideo} {k : OpenGLFilterType}
    {f : OpenGLFilter} (h : st.isLive k = true) : optFrame st (st.setLive k f) := by
  refine ⟨fun k' => ?_, fun k' => ?_, sameVideoCore_setLive st k f⟩
  · rw [isLive_setLive]
    by_cases hk : k' = k
    · rw [if_pos hk, hk, h]
    · rw [if_neg hk]
  · rw [hasKey_setLive]
    by_cases hk : k' = k
    · rw [if_pos hk, hk, hasKey_of_isLive h]
    · rw [if_neg hk]

theorem addFrameBuffer_eq (st : OpenGLVideo)
    (hFBO : st.hasFeature kGLExtFBufObj = true) :
    st.addFrameBuffer = (some (st.ctx.nextId + 1, st.ctx.nextId),
      { st with ctx := { st.ctx with
          nextId := st.ctx.nextId + 2,
          liveTextures := st.ctx.liveTextures ++ [st.ctx.nextId],
          liveFrameBuffers := st.ctx.liveFrameBuffers ++ [st.ctx.nextId + 1] } }) := by
  unfold addFrameBuffer GLContext.createTexture GLContext.createFrameBuffer
  rw [hFBO]
  rfl

/-- The allocation loop succeeds under framebuffer-object support, adds
exactly n (framebuffer, texture) pairs to the stage at k and changes no
other entry. -/
theorem allocLoop_spec :
    ∀ (n : Nat) (st : OpenGLVideo) (k : OpenGLFilterType) (filt : OpenGLFilter),
      st.liveGet k = some filt → st.hasFeature kGLExtFBufObj = true →
      ∃ st' f', allocLoop st k n = (true, st') ∧
        st'.liveGet k = some f' ∧
        f'.outputBuffer = filt.outputBuffer ∧
        f'.numInputs = filt.numInputs ∧
        f'.fragmentPrograms = filt.fragmentPrograms ∧
        f'.frameBuffers.length = filt.frameBuffers.length + n ∧
        f'.frameBufferTextures.length = filt.frameBufferTextures.length + n ∧
        (∀ k', k' ≠ k → st'.filters k' = st.filters k') ∧
        optFrame st st' ∧ st'.helperTexture = st.helperTexture := by
  intro n
  induction n with
  | zero =>
    intro st k filt hlive hFBO
    exact ⟨st, filt, rfl, hlive, rfl, rfl, rfl, rfl, rfl, fun _ _ => rfl,
           optFrame_refl st, rfl⟩
  | succ m ih =>
    intro st k filt hlive hFBO
    have haf := addFrameBuffer_eq st hFBO
    have hAlive : ((st.addFrameBuffer).2).liveGet k = some filt := by
      rw [haf]; exact hlive
    set stA := (st.addFrameBuffer).2 with hstA
    have hstep : allocLoop st k (m + 1) =
        allocLoop (stA.setLive k
          { filt with
              frameBuffers := filt.frameBuffers ++ [st.ctx.nextId + 1],
              frameBufferTextures := filt.frameBufferTextures ++ [st.ctx.nextId] }) k m := by
      have hlit : ({ st with ctx := { st.ctx with
          nextId := st.ctx.nextId + 2,
          liveTextures := st.ctx.liveTextures ++ [st.ctx.nextId],
          liveFrameBuffers := st.ctx.liveFrameBuffers ++ [st.ctx.nextId + 1] } }
            : OpenGLVideo).liveGet k = some filt := hlive
      simp only [allocLoop, haf, hlit]
      rw [hstA, haf]
    set filt2 : OpenGLFilter :=
      { filt with
          frameBuffers := filt.frameBuffers ++ [st.ctx.nextId + 1],
          frameBufferTextures := filt.frameBufferTextures ++ [st.ctx.nextId] } with hfilt2
    set st2 := stA.setLive k filt2 with hst2
    have hlive2 : st2.liveGet k = some filt2 := by
      rw [hst2, liveGet_setLive, if_pos rfl]
    have hframeA : optFrame st stA := by
      rw [hstA, haf]
      exact ⟨fun _ => rfl, fun _ => rfl, by simp [sameVideoCore]⟩
    have hframe2 : optFrame st st2 :=
      optFrame_trans hframeA (optFrame_setLive (isLive_of_liveGet hAlive))
    have hFBO2 : st2.hasFeature kGLExtFBufObj = true :=
      (hasFeature_of_core hframe2.2.2 kGLExtFBufObj).trans hFBO
    obtain ⟨st', f', e1, e2, e3, e4, e5, e6, e7, e8, e9, e10⟩ :=
      ih st2 k filt2 hlive2 hFBO2
    refine ⟨st', f', hstep.trans e1, e2, ?_, ?_, ?_, ?_, ?_, ?_, optFrame_trans hframe2 e9, ?_⟩
    · rw [e3]
    · rw [e4]
    · rw [e5]
    · rw [e6]; simp [hfilt2]; omega
    · rw [e7]; simp [hfilt2]; omega
    · intro k' hk'
      rw [e8 k' hk', hst2, filters_setLive, if_neg hk', hstA, haf]
    · rw [e10, hst2]
      have : (stA.setLive k filt2).helperTexture = stA.helperTexture := rfl
      rw [this, hstA, haf]

theorem liveGet_congr {st st' : OpenGLVideo} {k : OpenGLFilterType}
    (h : st'.filters k = st.filters k) : st'.liveGet k = st.liveGet k := by
  simp [liveGet, h]

/-- The release loop removes exactly n (framebuffer, texture) pairs from
the stage at k and changes no other entry. -/
theorem freeLoop_spec :
    ∀ (n : Nat) (st : OpenGLVideo) (k : OpenGLFilterType) (filt : OpenGLFilter),
      st.liveGet k = some filt →
      ∃ f', (freeLoop st k n).liveGet k = some f' ∧
        f'.outputBuffer = filt.outputBuffer ∧
        f'.numInputs = filt.numInputs ∧
        f'.fragmentPrograms = filt.fragmentPrograms ∧
        f'.frameBuffers.length = filt.frameBuffers.length - n ∧
        f'.frameBufferTextures.length = filt.frameBufferTextures.length - n ∧
        (∀ k', k' ≠ k → (freeLoop st k n).filters k' = st.filters k') ∧
        optFrame st (freeLoop st k n) ∧
        (freeLoop st k n).helperTexture = st.helperTexture := by
  intro n
  induction n with
  | zero =>
    intro st k filt hlive
    exact ⟨filt, hlive, rfl, rfl, rfl, rfl, rfl, fun _ _ => rfl, optFrame_refl st, rfl⟩
  | succ m ih =>
    intro st k filt hlive
    have hstep : freeLoop st k (m + 1) =
        freeLoop (({ st with ctx :=
            ((st.ctx.deleteFrameBuffer (filt.frameBuffers.getLastD 0)).deleteTexture
              (filt.frameBufferTextures.getLastD 0)) }).setLive k
          { filt with frameBuffers := filt.frameBuffers.dropLast,
                      frameBufferTextures := filt.frameBufferTextures.dropLast }) k m := by
      simp only [freeLoop, hlive]
    set stB : OpenGLVideo :=
      { st with ctx :=
          ((st.ctx.deleteFrameBuffer (filt.frameBuffers.getLastD 0)).deleteTexture
            (filt.frameBufferTextures.getLastD 0)) } with hstB
    set filt2 : OpenGLFilter :=
      { filt with frameBuffers := filt.frameBuffers.dropLast,
                  frameBufferTextures := filt.frameBufferTextures.dropLast } with hfilt2
    set st2 := stB.setLive k filt2 with hst2
    have hlive2 : st2.liveGet k = some filt2 := by
      rw [hst2, liveGet_setLive, if_pos rfl]
    obtain ⟨f', e2, e3, e4, e5, e6, e7, e8, e9, e10⟩ := ih st2 k filt2 hlive2
    have hliveB : stB.liveGet k = some filt := hlive
    have hframeB : optFrame st stB := by
      refine ⟨fun _ => rfl, fun _ => rfl, ?_⟩
      rw [hstB]
      refine ⟨rfl, rfl, rfl, rfl, rfl, rfl, rfl, rfl, rfl, rfl, rfl, rfl, rfl, rfl, ?_⟩
      rw [texData_deleteTexture, texData_deleteFrameBuffer]
    have hframe2 : optFrame st st2 :=
      optFrame_trans hframeB (optFrame_setLive (isLive_of_liveGet hliveB))
    rw [hstep]
    refine ⟨f', e2, ?_, ?_, ?_, ?_, ?_, ?_, optFrame_trans hframe2 e9, ?_⟩
    · rw [e3]
    · rw [e4]
    · rw [e5]
    · rw [e6]; simp [hfilt2]; omega
    · rw [e7]; simp [hfilt2]; omega
    · intro k' hk'
      rw [e8 k' hk', hst2, filters_setLive, if_neg hk']
    · rw [e10, hst2]
      exact rfl

/-- OptimiseFilters' per-stage adjustment: under framebuffer support, and
for a stage whose two pair lists have equal length, the adjustment
succeeds and leaves the stage with exactly needed (framebuffer, texture)
pairs, an intermediate output target, and everything else intact. -/
theorem adjustStage_spec (st : OpenGLVideo) (k : OpenGLFilterType)
    (filt : OpenGLFilter) (needed : Nat)
    (hlive : st.liveGet k = some filt)
    (hFBO : st.hasFeature kGLExtFBufObj = true)
    (hpair : filt.frameBuffers.length = filt.frameBufferTextures.length) :
    ∃ st' f', adjustStage st k filt needed = (true, st') ∧
      st'.liveGet k = some f' ∧
      f'.outputBuffer = kFrameBufferObject ∧
      f'.numInputs = filt.numInputs ∧
      f'.fragmentPrograms = filt.fragmentPrograms ∧
      f'.frameBuffers.length = needed ∧
      f'.frameBufferTextures.length = needed ∧
      (∀ k', k' ≠ k → st'.filters k' = st.filters k') ∧
      optFrame st st' ∧ st'.helperTexture = st.helperTexture := by
  set filtF : OpenGLFilter := { filt with outputBuffer := kFrameBufferObject } with hfiltF
  set st1 := st.setLive k filtF with hst1
  have hlive1 : st1.liveGet k = some filtF := by
    rw [hst1, liveGet_setLive, if_pos rfl]
  have hframe1 : optFrame st st1 :=
    optFrame_setLive (isLive_of_liveGet hlive)
  have hFBO1 : st1.hasFeature kGLExtFBufObj = true :=
    (hasFeature_of_core hframe1.2.2 kGLExtFBufObj).trans hFBO
  by_cases hlt : filt.frameBuffers.length < needed
  · have hdef : adjustStage st k filt needed = allocLoop st1 k (needed - filt.frameBuffers.length) := by
      simp only [adjustStage, if_pos hlt, hst1]
    obtain ⟨st', f', e1, e2, e3, e4, e5, e6, e7, e8, e9, e10⟩ :=
      allocLoop_spec (needed - filt.frameBuffers.length) st1 k filtF hlive1 hFBO1
    refine ⟨st', f', hdef.trans e1, e2, ?_, e4, e5, ?_, ?_, ?_, optFrame_trans hframe1 e9, ?_⟩
    · rw [e3]
    · rw [e6]; simp [hfiltF]; omega
    · rw [e7]; simp [hfiltF]; omega
    · intro k' hk'
      rw [e8 k' hk', hst1, filters_setLive, if_neg hk']
    · rw [e10, hst1]
      exact rfl
  · have hdef : adjustStage st k filt needed = (true, freeLoop st1 k (filt.frameBuffers.length - needed)) := by
      simp only [adjustStage, if_neg hlt, hst1]
    obtain ⟨f', e2, e3, e4, e5, e6, e7, e8, e9, e10⟩ :=
      freeLoop_spec (filt.frameBuffers.length - needed) st1 k filtF hlive1
    refine ⟨_, f', hdef, e2, ?_, e4, e5, ?_, ?_, ?_, optFrame_trans hframe1 e9, ?_⟩
    · rw [e3]
    · rw [e6]; simp [hfiltF]; omega
    · rw [e7]; simp [hfiltF]; omega
    · intro k' hk'
      rw [e8 k' hk', hst1, filters_setLive, if_neg hk']
    · rw [e10, hst1]
      exact rfl

theorem pairsWFP_of_pairsWF {st : OpenGLVideo} (h : pairsWF st = true) : pairsWFP st := by
  intro k f hk
  unfold pairsWF at h
  rw [List.all_eq_true] at h
  have hh := h k (mem_keyOrder k)
  rw [hk] at hh
  simpa using hh

theorem pairsWF_of_pairsWFP {st : OpenGLVideo} (h : pairsWFP st) : pairsWF st = true := by
  unfold pairsWF
  rw [List.all_eq_true]
  intro k _
  cases hx : st.liveGet k with
  | none => simp
  | some f => simp [h k f hx]

/-- The reverse walk of OptimiseFilters over a duplicate-free key list
with the last stage already handled: every live listed stage ends up
adjusted to the incoming needed count, threading numInputs downstream to
upstream, and nothing outside the list changes. -/
theorem optimiseLoop_spec :
    ∀ (ks : List OpenGLFilterType) (st : OpenGLVideo) (needed : Nat),
      ks.Nodup → st.hasFeature kGLExtFBufObj = true → pairsWFP st →
      ∃ st', optimiseLoop st ks needed false = (true, st') ∧
        checkRevTail st' (ks.filter fun k => st.isLive k) needed = true ∧
        (∀ k, k ∉ ks → st'.filters k = st.filters k) ∧
        optFrame st st' ∧ pairsWFP st' ∧ st'.helperTexture = st.helperTexture := by
  intro ks
  induction ks with
  | nil =>
    intro st needed _ _ hpairs
    exact ⟨st, rfl, rfl, fun _ _ => rfl, optFrame_refl st, hpairs, rfl⟩
  | cons k ks ih =>
    intro st needed hnd hFBO hpairs
    obtain ⟨hknotin, hnd'⟩ := List.nodup_cons.mp hnd
    cases hlk : st.liveGet k with
    | none =>
      have hred : optimiseLoop st (k :: ks) needed false =
          optimiseLoop st ks needed false := by
        simp only [optimiseLoop, hlk]
      obtain ⟨st', e1, e2, e3, e4, e5, e6⟩ := ih st needed hnd' hFBO hpairs
      have hdead : st.isLive k = false := by simp [isLive, hlk]
      have hfl : (k :: ks).filter (fun k' => st.isLive k') =
          ks.filter (fun k' => st.isLive k') := by
        simp [List.filter_cons, hdead]
      refine ⟨st', hred.trans e1, ?_, ?_, e4, e5, e6⟩
      · rw [hfl]; exact e2
      · intro k' hk'
        exact e3 k' (fun hmem => hk' (List.mem_cons_of_mem _ hmem))
    | some filt =>
      obtain ⟨st1, f1, a1, a2, a3, a4, a5, a6, a7, a8, a9, a10⟩ :=
        adjustStage_spec st k filt needed hlk hFBO (hpairs k filt hlk)
      have hred : optimiseLoop st (k :: ks) needed false =
          optimiseLoop st1 ks filt.numInputs false := by
        simp only [optimiseLoop, hlk, a1]
        rfl
      have hFBO1 : st1.hasFeature kGLExtFBufObj = true :=
        (hasFeature_of_core a9.2.2 kGLExtFBufObj).trans hFBO
      have hpairs1 : pairsWFP st1 := by
        intro k' f'' hk''
        by_cases he : k' = k
        · subst he
          rw [a2] at hk''
          cases hk''
          rw [a6, a7]
        · rw [liveGet_congr (a8 k' he)] at hk''
          exact hpairs k' f'' hk''
      obtain ⟨st', e1, e2, e3, e4, e5, e6⟩ := ih st1 filt.numInputs hnd' hFBO1 hpairs1
      have hlive' : st'.liveGet k = some f1 := by
        rw [liveGet_congr (e3 k hknotin)]
        exact a2
      have hfl : (k :: ks).filter (fun k' => st.isLive k') =
          k :: ks.filter (fun k' => st.isLive k') := by
        simp [List.filter_cons, isLive_of_liveGet hlk]
      have hfl2 : ks.filter (fun k' => st1.isLive k') =
          ks.filter (fun k' => st.isLive k') := by
        apply List.filter_congr
        intro a _
        rw [a9.1 a]
      refine ⟨st', hred.trans e1, ?_, ?_, optFrame_trans a9 e4, e5, e6.trans a10⟩
      · rw [hfl]
        simp only [checkRevTail, hlive', a3, a4]
        rw [← hfl2]
        simp [a6, a7, e2]
      · intro k' hk'
        have hk1 : k' ∉ ks := fun hmem => hk' (List.mem_cons_of_mem _ hmem)
        have hk2 : k' ≠ k := fun he => hk' (he ▸ List.mem_cons_self k ks)
        rw [e3 k' hk1, a8 k' hk2]

/-- The full reverse walk (lastf = true): the first live stage visited is
the last stage in pipeline order and gets the default output buffer; the
remaining live stages satisfy the reconciliation chain. -/
theorem optimiseLoop_last_spec :
    ∀ (ks : List OpenGLFilterType) (st : OpenGLVideo) (needed : Nat),
      ks.Nodup → st.hasFeature kGLExtFBufObj = true → pairsWFP st →
      ∃ st', optimiseLoop st ks needed true = (true, st') ∧
        checkRev st' (ks.filter fun k => st.isLive k) = true ∧
        (∀ k, k ∉ ks → st'.filters k = st.filters k) ∧
        optFrame st st' ∧ pairsWFP st' ∧ st'.helperTexture = st.helperTexture := by
  intro ks
  induction ks with
  | nil =>
    intro st needed _ _ hpairs
    exact ⟨st, rfl, rfl, fun _ _ => rfl, optFrame_refl st, hpairs, rfl⟩
  | cons k ks ih =>
    intro st needed hnd hFBO hpairs
    obtain ⟨hknotin, hnd'⟩ := List.nodup_cons.mp hnd
    cases hlk : st.liveGet k with
    | none =>
      have hred : optimiseLoop st (k :: ks) needed true =
          optimiseLoop st ks needed true := by
        simp only [optimiseLoop, hlk]
      obtain ⟨st', e1, e2, e3, e4, e5, e6⟩ := ih st needed hnd' hFBO hpairs
      have hdead : st.isLive k = false := by simp [isLive, hlk]
      have hfl : (k :: ks).filter (fun k' => st.isLive k') =
          ks.filter (fun k' => st.isLive k') := by
        simp [List.filter_cons, hdead]
      refine ⟨st', hred.trans e1, ?_, ?_, e4, e5, e6⟩
      · rw [hfl]; exact e2
      · intro k' hk'
        exact e3 k' (fun hmem => hk' (List.mem_cons_of_mem _ hmem))
    | some filt =>
      set filtD : OpenGLFilter := { filt with outputBuffer := kDefaultBuffer } with hfiltD
      set st1 := st.setLive k filtD with hst1
      have hred : optimiseLoop st (k :: ks) needed true =
          optimiseLoop st1 ks filt.numInputs false := by
        simp only [optimiseLoop, hlk, hst1]
        rfl
      have hlive1 : st1.liveGet k = some filtD := by
        rw [hst1, liveGet_setLive, if_pos rfl]
      have hframe1 : optFrame st st1 :=
        optFrame_setLive (isLive_of_liveGet hlk)
      have hFBO1 : st1.hasFeature kGLExtFBufObj = true :=
        (hasFeature_of_core hframe1.2.2 kGLExtFBufObj).trans hFBO
      have hpairs1 : pairsWFP st1 := by
        intro k' f'' hk''
        by_cases he : k' = k
        · subst he
          rw [hlive1] at hk''
          cases hk''
          have h2 := hpairs _ filt hlk
          simpa [hfiltD] using h2
        · rw [hst1, liveGet_setLive, if_neg he] at hk''
          exact hpairs k' f'' hk''
      obtain ⟨st', e1, e2, e3, e4, e5, e6⟩ := optimiseLoop_spec ks st1 filt.numInputs hnd' hFBO1 hpairs1
      have hlive' : st'.liveGet k = some filtD := by
        rw [liveGet_congr (e3 k hknotin)]
        exact hlive1
      have hfl : (k :: ks).filter (fun k' => st.isLive k') =
          k :: ks.filter (fun k' => st.isLive k') := by
        simp [List.filter_cons, isLive_of_liveGet hlk]
      have hfl2 : ks.filter (fun k' => st1.isLive k') =
          ks.filter (fun k' => st.isLive k') := by
        apply List.filter_congr
        intro a _
        rw [hframe1.1 a]
      refine ⟨st', hred.trans e1, ?_, ?_, optFrame_trans hframe1 e4, e5, ?_⟩
      · rw [hfl]
        simp only [checkRev, hlive']
        rw [← hfl2]
        simp [hfiltD, e2]
      · intro k' hk'
        have hk1 : k' ∉ ks := fun hmem => hk' (List.mem_cons_of_mem _ hmem)
        have hk2 : k' ≠ k := fun he => hk' (he ▸ List.mem_cons_self k ks)
        rw [e3 k' hk1, hst1, filters_setLive, if_neg hk2]
      · rw [e6, hst1]
        exact rfl

/-- OptimiseFilters succeeds under framebuffer-object support and
establishes the reconciliation invariant. -/
theorem optimiseFilters_spec (st : OpenGLVideo)
    (hFBO : st.hasFeature kGLExtFBufObj = true) (hpairs : pairsWFP st) :
    ∃ st', st.optimiseFilters = (true, st') ∧ reconInvariant st' = true ∧
      (∀ k, st'.isLive k = st.isLive k) ∧ (∀ k, st'.hasKey k = st.hasKey k) ∧
      sameVideoCore st st' ∧ pairsWFP st' ∧ st'.helperTexture = st.helperTexture := by
  have hnd : (st.presentKeysRev).Nodup := by
    unfold presentKeysRev
    exact List.nodup_reverse.mpr (keyOrder_nodup.filter _)
  obtain ⟨st', e1, e2, e3, e4, e5, e6⟩ :=
    optimiseLoop_last_spec st.presentKeysRev st 1 hnd hFBO hpairs
  have hlist : st.presentKeysRev.filter (fun k => st.isLive k) = liveKeysRev st' := by
    unfold presentKeysRev liveKeysRev
    rw [List.filter_reverse]
    congr 1
    rw [List.filter_filter]
    apply List.filter_congr
    intro a _
    rw [e4.1 a]
    cases hx : st.isLive a with
    | false => simp
    | true => simp [hasKey_of_isLive hx]
  refine ⟨st', e1, ?_, e4.1, e4.2.1, e4.2.2, e5, e6⟩
  unfold reconInvariant
  rw [hlist] at e2
  exact e2

theorem liveGet_nullEntry (st : OpenGLVideo) (k k' : OpenGLFilterType) :
    (st.nullEntry k).liveGet k' = if k' = k then none else st.liveGet k' := by
  by_cases h : k' = k <;> simp [liveGet, nullEntry, h]

theorem liveGet_eraseKey (st : OpenGLVideo) (k k' : OpenGLFilterType) :
    (st.eraseKey k).liveGet k' = if k' = k then none else st.liveGet k' := by
  by_cases h : k' = k <;> simp [liveGet, eraseKey, h]

theorem pairsWFP_congr {st st' : OpenGLVideo} (h : st'.filters = st.filters)
    (hp : pairsWFP st) : pairsWFP st' := by
  intro k f hk
  rw [liveGet_congr (congrFun h k)] at hk
  exact hp k f hk

theorem isLive_congr {st st' : OpenGLVideo} (h : st'.filters = st.filters)
    (k : OpenGLFilterType) : st'.isLive k = st.isLive k := by
  unfold isLive
  rw [liveGet_congr (congrFun h k)]

theorem pairsWFP_nullEntry {st : OpenGLVideo} (k : OpenGLFilterType)
    (h : pairsWFP st) : pairsWFP (st.nullEntry k) := by
  intro k' f hk'
  rw [liveGet_nullEntry] at hk'
  by_cases he : k' = k
  · rw [if_pos he] at hk'; cases hk'
  · rw [if_neg he] at hk'; exact h k' f hk'

theorem pairsWFP_eraseKey {st : OpenGLVideo} (k : OpenGLFilterType)
    (h : pairsWFP st) : pairsWFP (st.eraseKey k) := by
  intro k' f hk'
  rw [liveGet_eraseKey] at hk'
  by_cases he : k' = k
  · rw [if_pos he] at hk'; cases hk'
  · rw [if_neg he] at hk'; exact h k' f hk'

theorem sameVideoCore_nullEntry (st : OpenGLVideo) (k : OpenGLFilterType) :
    sameVideoCore st (st.nullEntry k) := by
  simp [sameVideoCore, nullEntry]

theorem sameVideoCore_eraseKey (st : OpenGLVideo) (k : OpenGLFilterType) :
    sameVideoCore st (st.eraseKey k) := by
  simp [sameVideoCore, eraseKey]

theorem sameVideoCore_removeFilter (st : OpenGLVideo) (f : OpenGLFilterType) :
    sameVideoCore st (st.removeFilter f) := by
  unfold removeFilter
  by_cases h1 : st.hasKey f = false
  · rw [if_pos h1]; exact sameVideoCore_refl st
  · rw [if_neg h1]
    cases hl : st.liveGet f with
    | none => exact sameVideoCore_refl st
    | some filt =>
      refine sameVideoCore_trans ?_ (sameVideoCore_nullEntry _ f)
      refine ⟨rfl, rfl, rfl, rfl, rfl, rfl, rfl, rfl, rfl, rfl, rfl, rfl, rfl, rfl, ?_⟩
      rw [texData_foldl_deleteTexture, texData_foldl_deleteFrameBuffer,
          texData_foldl_deleteFragmentProgram]

theorem pairsWFP_removeFilter {st : OpenGLVideo} (f : OpenGLFilterType)
    (h : pairsWFP st) : pairsWFP (st.removeFilter f) := by
  unfold removeFilter
  by_cases h1 : st.hasKey f = false
  · rw [if_pos h1]; exact h
  · rw [if_neg h1]
    cases hl : st.liveGet f with
    | none => exact h
    | some filt =>
      apply pairsWFP_nullEntry
      intro k' f' hk'
      exact h k' f' hk'

theorem filters_removeFilter_ne (st : OpenGLVideo) (f k' : OpenGLFilterType)
    (h : k' ≠ f) : (st.removeFilter f).filters k' = st.filters k' := by
  unfold removeFilter
  by_cases h1 : st.hasKey f = false
  · rw [if_pos h1]
  · rw [if_neg h1]
    cases hl : st.liveGet f with
    | none => rfl
    | some filt => simp [nullEntry, h]

theorem filters_removeFilterErase_ne (st : OpenGLVideo) (f k' : OpenGLFilterType)
    (h : k' ≠ f) : (st.removeFilterErase f).filters k' = st.filters k' := by
  unfold removeFilterErase eraseKey
  simp only [h, if_false]
  exact filters_removeFilter_ne st f k' h

theorem filters_removeFilterErase_self (st : OpenGLVideo) (f : OpenGLFilterType) :
    (st.removeFilterErase f).filters f = none := by
  unfold removeFilterErase eraseKey
  simp

theorem sameVideoCore_removeFilterErase (st : OpenGLVideo) (f : OpenGLFilterType) :
    sameVideoCore st (st.removeFilterErase f) :=
  sameVideoCore_trans (sameVideoCore_removeFilter st f) (sameVideoCore_eraseKey _ f)

theorem pairsWFP_removeFilterErase {st : OpenGLVideo} (f : OpenGLFilterType)
    (h : pairsWFP st) : pairsWFP (st.removeFilterErase f) :=
  pairsWFP_eraseKey f (pairsWFP_removeFilter f h)

theorem helperStep_filters (st : OpenGLVideo) (f : OpenGLFilterType) :
    (st.helperStep f).2.filters = st.filters := by
  unfold helperStep
  by_cases hb : f = kGLFilterBicubic
  · by_cases hh : st.helperTexture ≠ 0 <;> simp [hb, hh, GLContext.createTexture]
  · simp [hb]

theorem helperStep_core (st : OpenGLVideo) (f : OpenGLFilterType) :
    sameVideoCore st (st.helperStep f).2 := by
  unfold helperStep
  by_cases hb : f = kGLFilterBicubic
  · by_cases hh : st.helperTexture ≠ 0 <;>
      simp [hb, hh, sameVideoCore, GLContext.createTexture, GLContext.deleteTexture] <;>
      split <;> rfl
  · simp [hb, sameVideoCore_refl]

theorem helperStep_fst (st : OpenGLVideo) (f : OpenGLFilterType) :
    (st.helperStep f).1 = if f = kGLFilterBicubic then decide (st.ctx.nextId ≠ 0)
      else true := by
  unfold helperStep
  by_cases hb : f = kGLFilterBicubic
  · by_cases hh : st.helperTexture ≠ 0
    · simp [hb, hh, GLContext.createTexture, GLContext.deleteTexture]
      split <;> simp
    · simp [hb, hh, GLContext.createTexture, GLContext.deleteTexture]
  · simp [hb]

theorem helperStep_nextId (st : OpenGLVideo) (f : OpenGLFilterType) :
    (st.helperStep f).2.ctx.nextId =
      if f = kGLFilterBicubic then st.ctx.nextId + 1 else st.ctx.nextId := by
  unfold helperStep
  by_cases hb : f = kGLFilterBicubic
  · by_cases hh : st.helperTexture ≠ 0
    · simp [hb, hh, GLContext.createTexture, GLContext.deleteTexture]
      split <;> rfl
    · simp [hb, hh, GLContext.createTexture, GLContext.deleteTexture]
  · simp [hb]

theorem programStep_filters (st : OpenGLVideo) (f : OpenGLFilterType) (ok : Bool) :
    (st.programStep f ok).2.2.filters = st.filters := by
  unfold programStep addFragmentProgram
  by_cases hc : ok = true ∧ f ≠ kGLFilterNone ∧ f ≠ kGLFilterResize
  · by_cases hfp : st.hasFeature kGLExtFragProg = false <;>
      simp [hc, hfp, GLContext.createFragmentProgram]
  · simp [hc]

theorem programStep_core (st : OpenGLVideo) (f : OpenGLFilterType) (ok : Bool) :
    sameVideoCore st (st.programStep f ok).2.2 := by
  unfold programStep addFragmentProgram
  by_cases hc : ok = true ∧ f ≠ kGLFilterNone ∧ f ≠ kGLFilterResize
  · by_cases hfp : st.hasFeature kGLExtFragProg = false <;>
      simp [hc, hfp, GLContext.createFragmentProgram, sameVideoCore_refl] <;>
      simp [sameVideoCore]
  · simp [hc, sameVideoCore_refl]

theorem programStep_fst (st : OpenGLVideo) (f : OpenGLFilterType)
    (hfp : st.hasFeature kGLExtFragProg = true) (hnz : 0 < st.ctx.nextId) :
    (st.programStep f true).1 = true := by
  unfold programStep addFragmentProgram
  by_cases hc : True ∧ f ≠ kGLFilterNone ∧ f ≠ kGLFilterResize
  · have hc' : true = true ∧ f ≠ kGLFilterNone ∧ f ≠ kGLFilterResize :=
      ⟨rfl, hc.2⟩
    rw [if_pos hc']
    rw [hfp]
    simp [GLContext.createFragmentProgram]
    omega
  · have hc' : ¬(true = true ∧ f ≠ kGLFilterNone ∧ f ≠ kGLFilterResize) := by
      intro hx
      exact hc ⟨trivial, hx.2⟩
    rw [if_neg hc']

theorem isLive_congr_at {st st' : OpenGLVideo} {k : OpenGLFilterType}
    (h : st'.filters k = st.filters k) : st'.isLive k = st.isLive k := by
  unfold isLive
  rw [liveGet_congr h]

theorem isLive_setLive_self (st : OpenGLVideo) (k : OpenGLFilterType)
    (f : OpenGLFilter) : (st.setLive k f).isLive k = true := by
  rw [isLive_setLive, if_pos rfl]

/-- AddFilter under framebuffer-object support: resource pairing and the
video-core fields are preserved and other entries' liveness is untouched;
with fragment-program support, no null entry at f and a nonzero handle
counter, the call succeeds and leaves f live. -/
theorem addFilter_spec (st : OpenGLVideo) (f : OpenGLFilterType)
    (hFBO : st.hasFeature kGLExtFBufObj = true) (hpairs : pairsWFP st) :
    pairsWFP (st.addFilter f).2 ∧ sameVideoCore st (st.addFilter f).2 ∧
    (∀ k', k' ≠ f → ((st.addFilter f).2).isLive k' = st.isLive k') ∧
    (∀ k', k' ≠ f → ((st.addFilter f).2).hasKey k' = st.hasKey k') ∧
    (st.hasFeature kGLExtFragProg = true → st.filters f ≠ some none →
      0 < st.ctx.nextId →
      (st.addFilter f).1 = true ∧ ((st.addFilter f).2).isLive f = true) := by
  unfold addFilter
  by_cases h1 : st.hasKey f = true
  · rw [if_pos h1]
    refine ⟨hpairs, sameVideoCore_refl st, fun _ _ => rfl, fun _ _ => rfl, ?_⟩
    intro _ hnn _
    refine ⟨rfl, ?_⟩
    unfold hasKey at h1
    unfold isLive liveGet
    cases hx : st.filters f with
    | none => rw [hx] at h1; simp at h1
    | some v =>
      cases v with
      | none => exact absurd hx hnn
      | some g => simp
  · rw [if_neg h1]
    have h2 : ¬(st.hasFeature kGLExtFBufObj = false ∧ f = kGLFilterResize ∧
        0 < st.filtersSize) := by
      intro hx
      rw [hFBO] at hx
      simp at hx
    rw [if_neg h2]
    by_cases h3 : (st.hasFeature kGLExtFragProg = false ∨
        st.hasFeature kGLExtFBufObj = false) ∧ f = kGLFilterBicubic
    · rw [if_pos h3]
      refine ⟨hpairs, sameVideoCore_refl st, fun _ _ => rfl, fun _ _ => rfl, ?_⟩
      intro hfp _ _
      rcases h3.1 with hx | hx
      · rw [hfp] at hx; simp at hx
      · rw [hFBO] at hx; simp at hx
    · rw [if_neg h3]
      rcases hH : st.helperStep f with ⟨s1, st1⟩
      have hst1f : st1.filters = st.filters := by
        have := helperStep_filters st f
        rw [hH] at this
        exact this
      have hst1c : sameVideoCore st st1 := by
        have := helperStep_core st f
        rw [hH] at this
        exact this
      have hst1n : st.ctx.nextId ≤ st1.ctx.nextId := by
        have := helperStep_nextId st f
        rw [hH] at this
        simp only at this
        rw [this]
        split <;> omega
      rcases hP : st1.programStep f s1 with ⟨s2, progs, st2⟩
      have hst2f : st2.filters = st1.filters := by
        have := programStep_filters st1 f s1
        rw [hP] at this
        exact this
      have hst2c : sameVideoCore st st2 :=
        sameVideoCore_trans hst1c (by
          have := programStep_core st1 f s1
          rw [hP] at this
          exact this)
      have hpairs2 : pairsWFP st2 :=
        pairsWFP_congr (hst2f.trans hst1f) hpairs
      simp only [hH, hP]
      by_cases hs2 : s2 = true
      · rw [if_pos hs2]
        set temp0 : OpenGLFilter :=
          { fragmentPrograms := progs, numInputs := 1, frameBuffers := [],
            frameBufferTextures := [], outputBuffer := kDefaultBuffer } with htemp0
        set st3 := st2.setLive f temp0 with hst3
        have hpairs3 : pairsWFP st3 := by
          intro k' f' hk'
          rw [hst3, liveGet_setLive] at hk'
          by_cases he : k' = f
          · rw [if_pos he] at hk'
            cases hk'
            rfl
          · rw [if_neg he] at hk'
            exact hpairs2 k' f' hk'
        have hst3c : sameVideoCore st st3 :=
          sameVideoCore_trans hst2c (sameVideoCore_setLive st2 f temp0)
        have hFBO3 : st3.hasFeature kGLExtFBufObj = true :=
          (hasFeature_of_core hst3c kGLExtFBufObj).trans hFBO
        obtain ⟨st4, o1, o2, o3, o4, o5, o6, o7⟩ := optimiseFilters_spec st3 hFBO3 hpairs3
        rw [o1]
        refine ⟨o6, sameVideoCore_trans hst3c o5, ?_, ?_, ?_⟩
        · intro k' hk'
          rw [o3 k', hst3, isLive_setLive, if_neg hk']
          exact isLive_congr (hst2f.trans hst1f) k'
        · intro k' hk'
          rw [o4 k', hst3, hasKey_setLive, if_neg hk']
          unfold hasKey
          rw [congrFun (hst2f.trans hst1f) k']
        · intro _ _ _
          refine ⟨rfl, ?_⟩
          rw [o3 f, hst3]
          exact isLive_setLive_self st2 f temp0
      · rw [if_neg hs2]
        refine ⟨pairsWFP_removeFilterErase f hpairs2,
                sameVideoCore_trans hst2c (sameVideoCore_removeFilterErase st2 f), ?_, ?_, ?_⟩
        · intro k' hk'
          rw [isLive_congr_at (filters_removeFilterErase_ne st2 f k' hk')]
          exact isLive_congr (hst2f.trans hst1f) k'
        · intro k' hk'
          unfold hasKey
          rw [filters_removeFilterErase_ne st2 f k' hk', congrFun (hst2f.trans hst1f) k']
        · intro hfp hnn hnz
          exfalso
          apply hs2
          have hs1 : s1 = true := by
            have := helperStep_fst st f
            rw [hH] at this
            simp only at this
            rw [this]
            split
            · simp
              omega
            · rfl
          have hfp1 : st1.hasFeature kGLExtFragProg = true :=
            (hasFeature_of_core hst1c kGLExtFragProg).trans hfp
          have hnz1 : 0 < st1.ctx.nextId := lt_of_lt_of_le hnz hst1n
          have := programStep_fst st1 f hfp1 hnz1
          rw [hs1] at hP
          rw [hP] at this
          exact this

theorem applyGraphOp_preserves (st : OpenGLVideo) (op : GraphOp)
    (hFBO : st.hasFeature kGLExtFBufObj = true) (hpairs : pairsWFP st) :
    pairsWFP (applyGraphOp st op) ∧ sameVideoCore st (applyGraphOp st op) := by
  cases op with
  | add f =>
    obtain ⟨p, c, _, _, _⟩ := addFilter_spec st f hFBO hpairs
    exact ⟨p, c⟩
  | removeErase f =>
    exact ⟨pairsWFP_removeFilterErase f hpairs, sameVideoCore_removeFilterErase st f⟩

theorem applyGraphOps_preserves (ops : List GraphOp) :
    ∀ st : OpenGLVideo, st.hasFeature kGLExtFBufObj = true → pairsWFP st →
      pairsWFP (applyGraphOps st ops) ∧ sameVideoCore st (applyGraphOps st ops) := by
  induction ops with
  | nil => intro st _ hp; exact ⟨hp, sameVideoCore_refl st⟩
  | cons op ops ih =>
    intro st hFBO hp
    obtain ⟨p1, c1⟩ := applyGraphOp_preserves st op hFBO hp
    have hFBO1 : (applyGraphOp st op).hasFeature kGLExtFBufObj = true :=
      (hasFeature_of_core c1 kGLExtFBufObj).trans hFBO
    obtain ⟨p2, c2⟩ := ih (applyGraphOp st op) hFBO1 p1
    exact ⟨p2, sameVideoCore_trans c1 c2⟩

end OpenGLVideo


/-! ### C4: the negotiated feature mask is a subset of the hardware mask -/

/-- C4 (confirmed).  For every option string and every hardware-reported
feature bitmask, the feature mask negotiated during Init — the
ParseOptions result ANDed with the hardware mask — is a subset of the
hardware mask: negotiated AND hardware equals negotiated, whatever
disable flags appear in the option string. -/
theorem negotiated_mask_subset_of_hardware (options : String) (hardware : Nat) :
    negotiatedFeatures options hardware &&& hardware =
      negotiatedFeatures options hardware := by
  unfold negotiatedFeatures
  apply Nat.eq_of_testBit_eq
  intro i
  simp [Nat.testBit_land, Bool.and_assoc]

/-! ### C9: the hardware bob shift ignores the scan phase -/

/-- C9 (code bug).  At display height 200, video rect height 50 and
top-field-first set, the destination shift is -2 for the interlaced scan
phase and -2 again for the second-field scan phase, and in general the
shift never depends on the scan argument: the source line
float field = kScan_Interlaced ? -1.0f : 1.0f tests the (always-truthy)
enum constant instead of comparing the scan parameter against it, so the
sign of the shift depends on the field parity flag only, while the spec
requires it to depend on the scan phase as well. -/
theorem hardwareBobShift_ignores_scan_phase :
    hardwareBobShift 200 50 true .kScan_Interlaced = -2 ∧
    hardwareBobShift 200 50 true .kScan_Intr2ndField = -2 ∧
    ∀ (dh vh : ℚ) (tff : Bool) (s s' : FrameScanType),
      hardwareBobShift dh vh tff s = hardwareBobShift dh vh tff s' := by
  refine ⟨by norm_num [hardwareBobShift, FrameScanType.code], by
    norm_num [hardwareBobShift, FrameScanType.code], ?_⟩
  intro dh vh tff s s'
  rfl

/-! ### C10: texture-handle conservation under RotateTextures -/


/-- For a nonempty list, reattaching the default-valued last element after
dropLast restores the list. -/
theorem dropLast_append_getLastD :
    ∀ (a d : Nat) (l : List Nat),
      (a :: l).dropLast ++ [(a :: l).getLastD d] = a :: l := by
  intro a d l
  induction l generalizing a d with
  | nil => rfl
  | cons b u ih =>
    have h1 : (a :: b :: u).dropLast = a :: (b :: u).dropLast := rfl
    have h2 : (a :: b :: u).getLastD d = (b :: u).getLastD a := rfl
    rw [h1, h2, List.cons_append, ih b a]

/-- C10 (confirmed).  When the reference ring holds fewer than two
textures RotateTextures changes nothing at all (refsNeeded included);
when it holds at least two and an input texture exists, RotateTextures
cyclically permutes the combined collection of input texture and ring
textures — rotating the new collection by one returns the old one — so
the multiset of texture handles is exactly preserved. -/
theorem rotateTextures_conserves_handles (st : OpenGLVideo) :
    (st.referenceTextures.length < 2 → st.rotateTextures = st) ∧
    (2 ≤ st.referenceTextures.length → st.inputTextures ≠ [] →
      (combinedTextures st.rotateTextures).rotate 1 = combinedTextures st ∧
      ((combinedTextures st.rotateTextures : Multiset Nat) =
        (combinedTextures st : Multiset Nat))) := by
  constructor
  · intro hlt
    unfold OpenGLVideo.rotateTextures
    rw [if_pos hlt]
  · intro hle hne
    have hnotlt : ¬ st.referenceTextures.length < 2 := by omega
    obtain ⟨r, rs, hrefs⟩ : ∃ r rs, st.referenceTextures = r :: rs := by
      cases hx : st.referenceTextures with
      | nil => rw [hx] at hle; simp at hle
      | cons a l => exact ⟨a, l, rfl⟩
    obtain ⟨i, rest, hinput⟩ : ∃ i rest, st.inputTextures = i :: rest := by
      cases hx : st.inputTextures with
      | nil => exact absurd hx hne
      | cons a l => exact ⟨a, l, rfl⟩
    have hrot : st.rotateTextures =
        { st with
            refsNeeded := if st.refsNeeded > 0 then st.refsNeeded - 1 else st.refsNeeded,
            referenceTextures := i :: st.referenceTextures.dropLast,
            inputTextures := st.referenceTextures.getLastD 0 :: rest } := by
      unfold OpenGLVideo.rotateTextures
      rw [if_neg hnotlt, hinput]
    have hlast : st.referenceTextures.dropLast ++ [st.referenceTextures.getLastD 0] =
        st.referenceTextures := by
      rw [hrefs]; exact dropLast_append_getLastD r 0 rs
    have hmain : (combinedTextures st.rotateTextures).rotate 1 = combinedTextures st := by
      rw [hrot]
      unfold combinedTextures
      simp only [hinput, List.headD_cons]
      rw [List.rotate_cons_succ, List.rotate_zero]
      rw [List.cons_append, hlast]
    refine ⟨hmain, ?_⟩
    have hperm : List.Perm (combinedTextures st.rotateTextures) (combinedTextures st) := by
      rw [← hmain]
      exact (List.rotate_perm _ 1).symm
    exact Multiset.coe_eq_coe.mpr hperm


/-- Witness for C10: the rotation theorem applied at the concrete
two-slot state. -/
theorem rotateTextures_conserves_handles_witness :
    (combinedTextures rotateDemoState.rotateTextures).rotate 1 =
      combinedTextures rotateDemoState ∧
    (combinedTextures rotateDemoState.rotateTextures : Multiset Nat) =
      (combinedTextures rotateDemoState : Multiset Nat) :=
  (rotateTextures_conserves_handles rotateDemoState).2 (by decide) (by decide)

/-! ### C1: the buffer reconciliation invariant -/

namespace OpenGLVideo

/-- C1 (confirmed).  After any sequence of AddFilter / (RemoveFilter
followed by map erase) calls from a state with framebuffer-object support
and pairwise-allocated buffer lists, running reconciliation
(OptimiseFilters) succeeds, and afterwards every stage that is not the
last stage in pipeline order owns exactly as many (framebuffer, texture)
pairs as the numInputs of its immediate downstream neighbour, the last
stage's output target is the default display buffer, and all earlier
stages target an intermediate framebuffer. -/
theorem buffer_reconciliation_invariant (st0 : OpenGLVideo) (ops : List GraphOp)
    (hFBO : st0.hasFeature kGLExtFBufObj = true)
    (hpairs : pairsWF st0 = true) :
    ((applyGraphOps st0 ops).optimiseFilters).1 = true ∧
    reconInvariant ((applyGraphOps st0 ops).optimiseFilters).2 = true := by
  obtain ⟨hp, hc⟩ := applyGraphOps_preserves ops st0 hFBO (pairsWFP_of_pairsWF hpairs)
  have hFBO' : (applyGraphOps st0 ops).hasFeature kGLExtFBufObj = true :=
    (hasFeature_of_core hc kGLExtFBufObj).trans hFBO
  obtain ⟨st', e1, e2, _⟩ := optimiseFilters_spec _ hFBO' hp
  rw [e1]
  exact ⟨rfl, e2⟩

/-- Witness for C1: from the one-stage demo state, adding a resize stage
and reconciling succeeds and establishes the invariant. -/
theorem buffer_reconciliation_invariant_witness :
    graphDemoState.hasFeature kGLExtFBufObj = true ∧
    pairsWF graphDemoState = true ∧
    (((applyGraphOps graphDemoState [GraphOp.add kGLFilterResize]).optimiseFilters).1 = true ∧
     reconInvariant ((applyGraphOps graphDemoState
       [GraphOp.add kGLFilterResize]).optimiseFilters).2 = true) :=
  ⟨by decide, by decide,
   buffer_reconciliation_invariant graphDemoState [GraphOp.add kGLFilterResize]
     (by decide) (by decide)⟩

end OpenGLVideo

/-! ### C6: upload atomicity on input mismatch -/

namespace OpenGLVideo

/-- C6 (confirmed).  A frame whose width or height differs from the
configured actual video dimensions, or whose pixel format is not YV12,
leaves UpdateInputFrame entirely without effect: no reference-ring
rotation, no refsNeeded decrement, no texture update, and inputUpdated
unchanged — the state is returned untouched. -/
theorem updateInputFrame_mismatch_noop (st : OpenGLVideo) (frame : VideoFrame)
    (soft_bob : Bool)
    (h : frame.width ≠ st.actual_video_dim.w ∨
         frame.height ≠ st.actual_video_dim.h ∨
         frame.codec ≠ VideoCodec.FMT_YV12) :
    st.updateInputFrame frame soft_bob = st := by
  unfold updateInputFrame
  rw [if_pos]
  tauto

/-- Witness for C6: a 640-wide frame fed to the 720-wide demo state is
dropped without any state change. -/
theorem updateInputFrame_mismatch_noop_witness :
    ((⟨640, 480, VideoCodec.FMT_YV12, false, 7⟩ : VideoFrame).width ≠
       graphDemoState.actual_video_dim.w ∨
     (⟨640, 480, VideoCodec.FMT_YV12, false, 7⟩ : VideoFrame).height ≠
       graphDemoState.actual_video_dim.h ∨
     (⟨640, 480, VideoCodec.FMT_YV12, false, 7⟩ : VideoFrame).codec ≠
       VideoCodec.FMT_YV12) ∧
    graphDemoState.updateInputFrame ⟨640, 480, VideoCodec.FMT_YV12, false, 7⟩ false =
      graphDemoState :=
  ⟨by decide,
   updateInputFrame_mismatch_noop graphDemoState _ false (by decide)⟩

end OpenGLVideo

/-! ### C3: RemoveFilter destroys resources but keeps the map entry -/

namespace OpenGLVideo

theorem foldl_eraseIf_not_mem_mono :
    ∀ (ds l : List Nat) (x : Nat), x ∉ l →
      x ∉ ds.foldl (fun l h => if h ∈ l then l.erase h else l) l := by
  intro ds
  induction ds with
  | nil => intro l x hx; exact hx
  | cons d ds ih =>
    intro l x hx
    rw [List.foldl_cons]
    apply ih
    by_cases hd : d ∈ l
    · rw [if_pos hd]
      intro hmem
      exact hx (List.mem_of_mem_erase hmem)
    · rw [if_neg hd]
      exact hx

theorem foldl_eraseIf_not_mem :
    ∀ (ds l : List Nat) (x : Nat), l.Nodup → x ∈ ds →
      x ∉ ds.foldl (fun l h => if h ∈ l then l.erase h else l) l := by
  intro ds
  induction ds with
  | nil => intro l x _ hx; cases hx
  | cons d ds ih =>
    intro l x hnd hx
    rw [List.foldl_cons]
    rcases List.mem_cons.mp hx with he | hmem
    · subst he
      apply foldl_eraseIf_not_mem_mono
      by_cases hd : x ∈ l
      · rw [if_pos hd]
        exact hnd.not_mem_erase
      · rw [if_neg hd]
        exact hd
    · apply ih
      · by_cases hd : d ∈ l
        · rw [if_pos hd]
          exact hnd.erase d
        · rw [if_neg hd]
          exact hnd
      · exact hmem

theorem livePrograms_deleteFragmentProgram (c : GLContext) (h : Nat) :
    (c.deleteFragmentProgram h).livePrograms =
      if h ∈ c.livePrograms then c.livePrograms.erase h else c.livePrograms := by
  unfold GLContext.deleteFragmentProgram
  split <;> simp_all

theorem liveFrameBuffers_deleteFrameBuffer (c : GLContext) (h : Nat) :
    (c.deleteFrameBuffer h).liveFrameBuffers =
      if h ∈ c.liveFrameBuffers then c.liveFrameBuffers.erase h
      else c.liveFrameBuffers := by
  unfold GLContext.deleteFrameBuffer
  split <;> simp_all

theorem liveTextures_deleteTexture (c : GLContext) (h : Nat) :
    (c.deleteTexture h).liveTextures =
      if h ∈ c.liveTextures then c.liveTextures.erase h else c.liveTextures := by
  unfold GLContext.deleteTexture
  split <;> simp_all

theorem livePrograms_foldl_deleteFragmentProgram (ds : List Nat) :
    ∀ c : GLContext, (ds.foldl GLContext.deleteFragmentProgram c).livePrograms =
      ds.foldl (fun l h => if h ∈ l then l.erase h else l) c.livePrograms := by
  induction ds with
  | nil => intro c; rfl
  | cons d ds ih =>
    intro c
    rw [List.foldl_cons, List.foldl_cons, ih, livePrograms_deleteFragmentProgram]

theorem liveFrameBuffers_foldl_deleteFrameBuffer (ds : List Nat) :
    ∀ c : GLContext, (ds.foldl GLContext.deleteFrameBuffer c).liveFrameBuffers =
      ds.foldl (fun l h => if h ∈ l then l.erase h else l) c.liveFrameBuffers := by
  induction ds with
  | nil => intro c; rfl
  | cons d ds ih =>
    intro c
    rw [List.foldl_cons, List.foldl_cons, ih, liveFrameBuffers_deleteFrameBuffer]

theorem liveTextures_foldl_deleteTexture (ds : List Nat) :
    ∀ c : GLContext, (ds.foldl GLContext.deleteTexture c).liveTextures =
      ds.foldl (fun l h => if h ∈ l then l.erase h else l) c.liveTextures := by
  induction ds with
  | nil => intro c; rfl
  | cons d ds ih =>
    intro c
    rw [List.foldl_cons, List.foldl_cons, ih, liveTextures_deleteTexture]

theorem liveFrameBuffers_foldl_deleteFragmentProgram (ds : List Nat) :
    ∀ c : GLContext, (ds.foldl GLContext.deleteFragmentProgram c).liveFrameBuffers =
      c.liveFrameBuffers := by
  induction ds with
  | nil => intro c; rfl
  | cons d ds ih =>
    intro c
    rw [List.foldl_cons, ih]
    unfold GLContext.deleteFragmentProgram
    split <;> rfl

theorem liveTextures_foldl_deleteFragmentProgram (ds : List Nat) :
    ∀ c : GLContext, (ds.foldl GLContext.deleteFragmentProgram c).liveTextures =
      c.liveTextures := by
  induction ds with
  | nil => intro c; rfl
  | cons d ds ih =>
    intro c
    rw [List.foldl_cons, ih]
    unfold GLContext.deleteFragmentProgram
    split <;> rfl

theorem liveTextures_foldl_deleteFrameBuffer (ds : List Nat) :
    ∀ c : GLContext, (ds.foldl GLContext.deleteFrameBuffer c).liveTextures =
      c.liveTextures := by
  induction ds with
  | nil => intro c; rfl
  | cons d ds ih =>
    intro c
    rw [List.foldl_cons, ih]
    unfold GLContext.deleteFrameBuffer
    split <;> rfl

theorem livePrograms_foldl_deleteFrameBuffer (ds : List Nat) :
    ∀ c : GLContext, (ds.foldl GLContext.deleteFrameBuffer c).livePrograms =
      c.livePrograms := by
  induction ds with
  | nil => intro c; rfl
  | cons d ds ih =>
    intro c
    rw [List.foldl_cons, ih]
    unfold GLContext.deleteFrameBuffer
    split <;> rfl

theorem livePrograms_foldl_deleteTexture (ds : List Nat) :
    ∀ c : GLContext, (ds.foldl GLContext.deleteTexture c).livePrograms =
      c.livePrograms := by
  induction ds with
  | nil => intro c; rfl
  | cons d ds ih =>
    intro c
    rw [List.foldl_cons, ih]
    unfold GLContext.deleteTexture
    split <;> rfl

theorem liveFrameBuffers_foldl_deleteTexture (ds : List Nat) :
    ∀ c : GLContext, (ds.foldl GLContext.deleteTexture c).liveFrameBuffers =
      c.liveFrameBuffers := by
  induction ds with
  | nil => intro c; rfl
  | cons d ds ih =>
    intro c
    rw [List.foldl_cons, ih]
    unfold GLContext.deleteTexture
    split <;> rfl

/-- C3 counterexample: after RemoveFilter on the live YUV2RGB stage of
the demo state, the filter map still contains an entry for the stage
type — RemoveFilter nulls the stored pointer but does not erase the
entry, contrary to the claim. -/
theorem removeFilter_entry_remains :
    (graphDemoState.removeFilter kGLFilterYUV2RGB).hasKey kGLFilterYUV2RGB = true := by
  decide

/-- C3 (amended).  For a live stage of type T with duplicate-free live
handle lists, RemoveFilter(T) deletes every owned fragment program,
framebuffer and framebuffer texture from the live resource sets and
resets the map entry for T to a null stage; the entry itself remains in
the map until the caller's subsequent erase, after which the map no
longer contains T. -/
theorem removeFilter_destroys_and_nulls (st : OpenGLVideo) (T : OpenGLFilterType)
    (filt : OpenGLFilter) (hlive : st.liveGet T = some filt)
    (hnd1 : st.ctx.livePrograms.Nodup)
    (hnd2 : st.ctx.liveFrameBuffers.Nodup)
    (hnd3 : st.ctx.liveTextures.Nodup) :
    (∀ p ∈ filt.fragmentPrograms, p ∉ (st.removeFilter T).ctx.livePrograms) ∧
    (∀ b ∈ filt.frameBuffers, b ∉ (st.removeFilter T).ctx.liveFrameBuffers) ∧
    (∀ t ∈ filt.frameBufferTextures, t ∉ (st.removeFilter T).ctx.liveTextures) ∧
    (st.removeFilter T).filters T = some none ∧
    ((st.removeFilter T).eraseKey T).filters T = none := by
  have hkey : st.hasKey T = true := hasKey_of_isLive (isLive_of_liveGet hlive)
  have hred : st.removeFilter T =
      ({ st with ctx := (filt.frameBufferTextures.foldl GLContext.deleteTexture
          (filt.frameBuffers.foldl GLContext.deleteFrameBuffer
            (filt.fragmentPrograms.foldl GLContext.deleteFragmentProgram st.ctx))) }).nullEntry T := by
    unfold removeFilter
    rw [hkey]
    simp only [hlive]
    rfl
  rw [hred]
  refine ⟨?_, ?_, ?_, ?_, ?_⟩
  · intro p hp
    show p ∉ (filt.frameBufferTextures.foldl GLContext.deleteTexture
      (filt.frameBuffers.foldl GLContext.deleteFrameBuffer
        (filt.fragmentPrograms.foldl GLContext.deleteFragmentProgram st.ctx))).livePrograms
    rw [livePrograms_foldl_deleteTexture, livePrograms_foldl_deleteFrameBuffer,
        livePrograms_foldl_deleteFragmentProgram]
    exact foldl_eraseIf_not_mem _ _ p hnd1 hp
  · intro b hb
    show b ∉ (filt.frameBufferTextures.foldl GLContext.deleteTexture
      (filt.frameBuffers.foldl GLContext.deleteFrameBuffer
        (filt.fragmentPrograms.foldl GLContext.deleteFragmentProgram st.ctx))).liveFrameBuffers
    rw [liveFrameBuffers_foldl_deleteTexture, liveFrameBuffers_foldl_deleteFrameBuffer,
        liveFrameBuffers_foldl_deleteFragmentProgram]
    exact foldl_eraseIf_not_mem _ _ b hnd2 hb
  · intro t ht
    show t ∉ (filt.frameBufferTextures.foldl GLContext.deleteTexture
      (filt.frameBuffers.foldl GLContext.deleteFrameBuffer
        (filt.fragmentPrograms.foldl GLContext.deleteFragmentProgram st.ctx))).liveTextures
    rw [liveTextures_foldl_deleteTexture, liveTextures_foldl_deleteFrameBuffer,
        liveTextures_foldl_deleteFragmentProgram]
    exact foldl_eraseIf_not_mem _ _ t hnd3 ht
  · simp [nullEntry]
  · simp [eraseKey]

/-- Witness for C3 (amended): removing the live YUV2RGB stage of the demo
state destroys its program handle and nulls the entry; the erase then
drops it. -/
theorem removeFilter_destroys_and_nulls_witness :
    graphDemoState.liveGet kGLFilterYUV2RGB = some demoFilterYUV ∧
    ((∀ p ∈ demoFilterYUV.fragmentPrograms,
        p ∉ (graphDemoState.removeFilter kGLFilterYUV2RGB).ctx.livePrograms) ∧
     (∀ b ∈ demoFilterYUV.frameBuffers,
        b ∉ (graphDemoState.removeFilter kGLFilterYUV2RGB).ctx.liveFrameBuffers) ∧
     (∀ t ∈ demoFilterYUV.frameBufferTextures,
        t ∉ (graphDemoState.removeFilter kGLFilterYUV2RGB).ctx.liveTextures) ∧
     (graphDemoState.removeFilter kGLFilterYUV2RGB).filters kGLFilterYUV2RGB =
       some none ∧
     ((graphDemoState.removeFilter kGLFilterYUV2RGB).eraseKey
         kGLFilterYUV2RGB).filters kGLFilterYUV2RGB = none) :=
  ⟨by decide,
   removeFilter_destroys_and_nulls graphDemoState kGLFilterYUV2RGB demoFilterYUV
     (by decide) (by decide) (by decide) (by decide)⟩

end OpenGLVideo

/-! ### C5: the CheckResize decision rules -/

namespace OpenGLVideo

theorem hasKey_congr_at {st st' : OpenGLVideo} {k : OpenGLFilterType}
    (h : st'.filters k = st.filters k) : st'.hasKey k = st.hasKey k := by
  unfold hasKey
  rw [h]

theorem hasKey_removeFilterErase_self (st : OpenGLVideo) (f : OpenGLFilterType) :
    (st.removeFilterErase f).hasKey f = false := by
  unfold hasKey
  rw [filters_removeFilterErase_self]
  rfl

theorem nextId_foldl_deleteFragmentProgram (ds : List Nat) :
    ∀ c : GLContext, (ds.foldl GLContext.deleteFragmentProgram c).nextId = c.nextId := by
  induction ds with
  | nil => intro c; rfl
  | cons d ds ih =>
    intro c
    rw [List.foldl_cons, ih]
    unfold GLContext.deleteFragmentProgram
    split <;> rfl

theorem nextId_foldl_deleteFrameBuffer (ds : List Nat) :
    ∀ c : GLContext, (ds.foldl GLContext.deleteFrameBuffer c).nextId = c.nextId := by
  induction ds with
  | nil => intro c; rfl
  | cons d ds ih =>
    intro c
    rw [List.foldl_cons, ih]
    unfold GLContext.deleteFrameBuffer
    split <;> rfl

theorem nextId_foldl_deleteTexture (ds : List Nat) :
    ∀ c : GLContext, (ds.foldl GLContext.deleteTexture c).nextId = c.nextId := by
  induction ds with
  | nil => intro c; rfl
  | cons d ds ih =>
    intro c
    rw [List.foldl_cons, ih]
    unfold GLContext.deleteTexture
    split <;> rfl

theorem nextId_removeFilterErase (st : OpenGLVideo) (f : OpenGLFilterType) :
    (st.removeFilterErase f).ctx.nextId = st.ctx.nextId := by
  unfold removeFilterErase eraseKey removeFilter
  by_cases h1 : st.hasKey f = false
  · rw [if_pos h1]
  · rw [if_neg h1]
    cases hl : st.liveGet f with
    | none => rfl
    | some filt =>
      simp only [nullEntry]
      rw [nextId_foldl_deleteTexture, nextId_foldl_deleteFrameBuffer,
          nextId_foldl_deleteFragmentProgram]

theorem filters_ne_some_none_congr {st st' : OpenGLVideo} {k : OpenGLFilterType}
    (h : st'.filters k = st.filters k) (hn : st.filters k ≠ some none) :
    st'.filters k ≠ some none := by
  rw [h]; exact hn

/-- C5 counterexample: with an equal-sized source and display, no
deinterlacing and plain-resize configured as the upscaler — all four
decision booleans false — CheckResize leaves an existing plain-resize
stage in place, while the claimed decision table requires both scaling
stages to be absent. -/
theorem checkResize_keeps_resize_counterexample :
    (¬(resizeDemoState.video_dim.h < resizeDemoState.display_video_rect.h ∨
       resizeDemoState.video_dim.w < resizeDemoState.display_video_rect.w)) ∧
    (¬(resizeDemoState.video_dim.h > resizeDemoState.display_video_rect.h)) ∧
    resizeDemoState.defaultUpsize = kGLFilterResize ∧
    resizeDemoState.hasKey kGLFilterResize = true ∧
    (resizeDemoState.checkResize false true).hasKey kGLFilterResize = true := by
  decide

/-- C5 (amended).  Under full feature support, from a pairwise-allocated
state with no null map entries at the scaling keys: when resize_up holds
with bicubic configured, CheckResize installs bicubic and removes
plain-resize; when resize_up holds with plain-resize configured, or
resize_down holds, it installs plain-resize and removes bicubic;
otherwise it removes only bicubic and leaves any plain-resize stage
exactly as it was (the fall-through branch never removes plain-resize). -/
theorem checkResize_decision (st : OpenGLVideo) (deinterlacing allow : Bool)
    (hFBO : st.hasFeature kGLExtFBufObj = true)
    (hfrag : st.hasFeature kGLExtFragProg = true)
    (hpairs : pairsWF st = true)
    (hnnR : st.filters kGLFilterResize ≠ some none)
    (hnnB : st.filters kGLFilterBicubic ≠ some none)
    (hnz : 0 < st.ctx.nextId) :
    ((((st.video_dim.h < st.display_video_rect.h ∨
        st.video_dim.w < st.display_video_rect.w) ∧ allow = true) ∧
       st.defaultUpsize = kGLFilterBicubic) →
      (st.checkResize deinterlacing allow).isLive kGLFilterBicubic = true ∧
      (st.checkResize deinterlacing allow).hasKey kGLFilterResize = false) ∧
    (¬(((st.video_dim.h < st.display_video_rect.h ∨
         st.video_dim.w < st.display_video_rect.w) ∧ allow = true) ∧
        st.defaultUpsize = kGLFilterBicubic) →
     ((((st.video_dim.h < st.display_video_rect.h ∨
         st.video_dim.w < st.display_video_rect.w) ∧ allow = true) ∧
        st.defaultUpsize = kGLFilterResize) ∨
       (st.video_dim.h > st.display_video_rect.h ∧ deinterlacing = true ∧
        allow = true)) →
      (st.checkResize deinterlacing allow).isLive kGLFilterResize = true ∧
      (st.checkResize deinterlacing allow).hasKey kGLFilterBicubic = false) ∧
    (¬(((st.video_dim.h < st.display_video_rect.h ∨
         st.video_dim.w < st.display_video_rect.w) ∧ allow = true) ∧
        st.defaultUpsize = kGLFilterBicubic) →
     ¬((((st.video_dim.h < st.display_video_rect.h ∨
          st.video_dim.w < st.display_video_rect.w) ∧ allow = true) ∧
         st.defaultUpsize = kGLFilterResize) ∨
        (st.video_dim.h > st.display_video_rect.h ∧ deinterlacing = true ∧
         allow = true)) →
      (st.checkResize deinterlacing allow).hasKey kGLFilterBicubic = false ∧
      (st.checkResize deinterlacing allow).hasKey kGLFilterResize = st.hasKey kGLFilterResize ∧
      (st.checkResize deinterlacing allow).isLive kGLFilterResize = st.isLive kGLFilterResize) := by
  have hpairsP := pairsWFP_of_pairsWF hpairs
  refine ⟨?_, ?_, ?_⟩
  · intro hcond
    have hred : st.checkResize deinterlacing allow =
        ((st.removeFilterErase kGLFilterResize).addFilter kGLFilterBicubic).2 := by
      unfold checkResize
      rw [if_pos hcond]
    rw [hred]
    set st1 := st.removeFilterErase kGLFilterResize with hst1
    have hc1 : sameVideoCore st st1 := sameVideoCore_removeFilterErase st kGLFilterResize
    have hFBO1 : st1.hasFeature kGLExtFBufObj = true :=
      (hasFeature_of_core hc1 kGLExtFBufObj).trans hFBO
    have hfrag1 : st1.hasFeature kGLExtFragProg = true :=
      (hasFeature_of_core hc1 kGLExtFragProg).trans hfrag
    have hpairs1 : pairsWFP st1 := pairsWFP_removeFilterErase _ hpairsP
    have hnn1 : st1.filters kGLFilterBicubic ≠ some none :=
      filters_ne_some_none_congr
        (filters_removeFilterErase_ne st kGLFilterResize kGLFilterBicubic (by decide)) hnnB
    have hnz1 : 0 < st1.ctx.nextId := by
      rw [hst1, nextId_removeFilterErase]
      exact hnz
    obtain ⟨_, _, _, hkOff, hsucc⟩ := addFilter_spec st1 kGLFilterBicubic hFBO1 hpairs1
    refine ⟨(hsucc hfrag1 hnn1 hnz1).2, ?_⟩
    rw [hkOff kGLFilterResize (by decide)]
    exact hasKey_removeFilterErase_self st kGLFilterResize
  · intro hnc hcond
    have hred : st.checkResize deinterlacing allow =
        ((st.removeFilterErase kGLFilterBicubic).addFilter kGLFilterResize).2 := by
      unfold checkResize
      rw [if_neg hnc, if_pos hcond]
    rw [hred]
    set st1 := st.removeFilterErase kGLFilterBicubic with hst1
    have hc1 : sameVideoCore st st1 := sameVideoCore_removeFilterErase st kGLFilterBicubic
    have hFBO1 : st1.hasFeature kGLExtFBufObj = true :=
      (hasFeature_of_core hc1 kGLExtFBufObj).trans hFBO
    have hfrag1 : st1.hasFeature kGLExtFragProg = true :=
      (hasFeature_of_core hc1 kGLExtFragProg).trans hfrag
    have hpairs1 : pairsWFP st1 := pairsWFP_removeFilterErase _ hpairsP
    have hnn1 : st1.filters kGLFilterResize ≠ some none :=
      filters_ne_some_none_congr
        (filters_removeFilterErase_ne st kGLFilterBicubic kGLFilterResize (by decide)) hnnR
    have hnz1 : 0 < st1.ctx.nextId := by
      rw [hst1, nextId_removeFilterErase]
      exact hnz
    obtain ⟨_, _, _, hkOff, hsucc⟩ := addFilter_spec st1 kGLFilterResize hFBO1 hpairs1
    refine ⟨(hsucc hfrag1 hnn1 hnz1).2, ?_⟩
    rw [hkOff kGLFilterBicubic (by decide)]
    exact hasKey_removeFilterErase_self st kGLFilterBicubic
  · intro hnc1 hnc2
    have hred : st.checkResize deinterlacing allow =
        ((st.removeFilterErase kGLFilterBicubic).optimiseFilters).2 := by
      unfold checkResize
      rw [if_neg hnc1, if_neg hnc2]
    rw [hred]
    set st1 := st.removeFilterErase kGLFilterBicubic with hst1
    have hc1 : sameVideoCore st st1 := sameVideoCore_removeFilterErase st kGLFilterBicubic
    have hFBO1 : st1.hasFeature kGLExtFBufObj = true :=
      (hasFeature_of_core hc1 kGLExtFBufObj).trans hFBO
    have hpairs1 : pairsWFP st1 := pairsWFP_removeFilterErase _ hpairsP
    obtain ⟨st2, o1, o2, o3, o4, o5, o6, o7⟩ := optimiseFilters_spec st1 hFBO1 hpairs1
    rw [o1]
    refine ⟨?_, ?_, ?_⟩
    · rw [o4 kGLFilterBicubic]
      exact hasKey_removeFilterErase_self st kGLFilterBicubic
    · rw [o4 kGLFilterResize]
      exact hasKey_congr_at
        (filters_removeFilterErase_ne st kGLFilterBicubic kGLFilterResize (by decide))
    · rw [o3 kGLFilterResize]
      exact isLive_congr_at
        (filters_removeFilterErase_ne st kGLFilterBicubic kGLFilterResize (by decide))

/-- Witness for C5 (amended): on the demo fallback state the fall-through
branch of CheckResize removes bicubic only and keeps the resize stage. -/
theorem checkResize_decision_witness :
    resizeDemoState.hasFeature kGLExtFBufObj = true ∧
    pairsWF resizeDemoState = true ∧
    ((resizeDemoState.checkResize false true).hasKey kGLFilterBicubic = false ∧
     (resizeDemoState.checkResize false true).hasKey kGLFilterResize =
       resizeDemoState.hasKey kGLFilterResize ∧
     (resizeDemoState.checkResize false true).isLive kGLFilterResize =
       resizeDemoState.isLive kGLFilterResize) :=
  ⟨by decide, by decide,
   (checkResize_decision resizeDemoState false true (by decide) (by decide) (by decide)
      (by decide) (by decide) (by decide)).2.2 (by decide) (by decide)⟩


/-! ### Round-trip machinery for claim C2: identity passes of OptimiseFilters -/

theorem outputBuffer_update_self (f : OpenGLFilter) (b : DisplayBuffer)
    (h : f.outputBuffer = b) : ({ f with outputBuffer := b } : OpenGLFilter) = f := by
  cases f
  simp_all

theorem filters_of_liveGet {st : OpenGLVideo} {k : OpenGLFilterType}
    {f : OpenGLFilter} (h : st.liveGet k = some f) :
    st.filters k = some (some f) := by
  unfold liveGet at h
  cases hx : st.filters k with
  | none => rw [hx] at h; cases h
  | some v =>
    cases v with
    | none => rw [hx] at h; cases h
    | some g => rw [hx] at h; simp at h; rw [h]

theorem hasKey_eq_isLive_of_noNull {st : OpenGLVideo}
    (h : noNullEntries st = true) (k : OpenGLFilterType) :
    st.hasKey k = st.isLive k := by
  unfold noNullEntries at h
  rw [List.all_eq_true] at h
  have hk := h k (mem_keyOrder k)
  unfold hasKey isLive liveGet
  cases hx : st.filters k with
  | none => rfl
  | some v =>
    cases v with
    | none => rw [hx] at hk; simp at hk
    | some g => rfl

theorem inputsOne_spec {st : OpenGLVideo} (h : inputsOne st = true) :
    ∀ k f, st.liveGet k = some f → f.numInputs = 1 := by
  intro k f hk
  unfold inputsOne at h
  rw [List.all_eq_true] at h
  have hh := h k (mem_keyOrder k)
  rw [hk] at hh
  simpa using hh

theorem checkRevTail_congr {st st' : OpenGLVideo} :
    ∀ (ks : List OpenGLFilterType) (needed : Nat),
      (∀ k ∈ ks, st'.liveGet k = st.liveGet k) →
      checkRevTail st' ks needed = checkRevTail st ks needed := by
  intro ks
  induction ks with
  | nil => intro needed _; rfl
  | cons k ks ih =>
    intro needed hco
    have hk := hco k (List.mem_cons_self k ks)
    cases hsome : st.liveGet k with
    | none =>
      have hk' : st'.liveGet k = none := by rw [hk, hsome]
      simp only [checkRevTail, hk', hsome]
    | some f =>
      have hk' : st'.liveGet k = some f := by rw [hk, hsome]
      simp only [checkRevTail, hk', hsome]
      rw [ih f.numInputs (fun a ha => hco a (List.mem_cons_of_mem _ ha))]

theorem checkRev_congr {st st' : OpenGLVideo} (ks : List OpenGLFilterType)
    (hco : ∀ k ∈ ks, st'.liveGet k = st.liveGet k) :
    checkRev st' ks = checkRev st ks := by
  cases ks with
  | nil => rfl
  | cons k ks =>
    have hk := hco k (List.mem_cons_self k ks)
    cases hsome : st.liveGet k with
    | none =>
      have hk' : st'.liveGet k = none := by rw [hk, hsome]
      simp only [checkRev, hk', hsome]
    | some f =>
      have hk' : st'.liveGet k = some f := by rw [hk, hsome]
      simp only [checkRev, hk', hsome]
      rw [checkRevTail_congr ks f.numInputs
        (fun a ha => hco a (List.mem_cons_of_mem _ ha))]

theorem reconInvariant_congr {st st' : OpenGLVideo}
    (h : st'.filters = st.filters) :
    reconInvariant st' = reconInvariant st := by
  unfold reconInvariant
  have hl : liveKeysRev st' = liveKeysRev st := by
    unfold liveKeysRev
    congr 1
    apply List.filter_congr
    intro k _
    exact isLive_congr h k
  rw [hl]
  exact checkRev_congr (liveKeysRev st) (fun k _ => liveGet_congr (congrFun h k))

theorem checkRevTail_append_split {st : OpenGLVideo}
    (hin : ∀ k f, st.liveGet k = some f → f.numInputs = 1) :
    ∀ (xs ys : List OpenGLFilterType),
      checkRevTail st (xs ++ ys) 1 = true →
      checkRevTail st xs 1 = true ∧ checkRevTail st ys 1 = true := by
  intro xs
  induction xs with
  | nil => intro ys h; exact ⟨rfl, h⟩
  | cons x xs ih =>
    intro ys h
    cases hx : st.liveGet x with
    | none => simp only [List.cons_append, checkRevTail, hx] at h; cases h
    | some f =>
      simp only [List.cons_append, checkRevTail, hx, Bool.and_eq_true] at h
      obtain ⟨⟨⟨h1, h2⟩, h3⟩, h4⟩ := h
      rw [hin x f hx] at h4
      obtain ⟨h5, h6⟩ := ih ys h4
      refine ⟨?_, h6⟩
      simp only [checkRevTail, hx, Bool.and_eq_true]
      refine ⟨⟨⟨h1, h2⟩, h3⟩, ?_⟩
      rw [hin x f hx]
      exact h5

theorem checkRev_append_split {st : OpenGLVideo}
    (hin : ∀ k f, st.liveGet k = some f → f.numInputs = 1)
    (xs ys : List OpenGLFilterType) (hne : xs ≠ [])
    (h : checkRev st (xs ++ ys) = true) :
    checkRev st xs = true ∧ checkRevTail st ys 1 = true := by
  cases xs with
  | nil => exact absurd rfl hne
  | cons x xs =>
    cases hx : st.liveGet x with
    | none => simp only [List.cons_append, checkRev, hx] at h; cases h
    | some f =>
      simp only [List.cons_append, checkRev, hx, Bool.and_eq_true] at h
      obtain ⟨h1, h2⟩ := h
      rw [hin x f hx] at h2
      obtain ⟨h3, h4⟩ := checkRevTail_append_split hin xs ys h2
      refine ⟨?_, h4⟩
      simp only [checkRev, hx, Bool.and_eq_true]
      refine ⟨h1, ?_⟩
      rw [hin x f hx]
      exact h3

/-- A reverse-walk segment already satisfying the intermediate
reconciliation chain is traversed without any state change. -/
theorem optimiseLoop_id_tail {st : OpenGLVideo}
    (hin : ∀ k f, st.liveGet k = some f → f.numInputs = 1) :
    ∀ (B rest : List OpenGLFilterType) (st' : OpenGLVideo),
      checkRevTail st (B.filter fun k => st.isLive k) 1 = true →
      optimiseLoop st rest 1 false = (true, st') →
      optimiseLoop st (B ++ rest) 1 false = (true, st') := by
  intro B
  induction B with
  | nil => intro rest st' _ hcont; exact hcont
  | cons k B ih =>
    intro rest st' hchain hcont
    cases hlk : st.liveGet k with
    | none =>
      have hdead : st.isLive k = false := by simp [isLive, hlk]
      have hfl : (k :: B).filter (fun k' => st.isLive k') =
          B.filter (fun k' => st.isLive k') := by
        simp [List.filter_cons, hdead]
      rw [hfl] at hchain
      have hred : optimiseLoop st (k :: (B ++ rest)) 1 false =
          optimiseLoop st (B ++ rest) 1 false := by
        simp only [optimiseLoop, hlk]
      rw [List.cons_append, hred]
      exact ih rest st' hchain hcont
    | some f =>
      have honef := hin k f hlk
      have hlive : st.isLive k = true := isLive_of_liveGet hlk
      have hfl : (k :: B).filter (fun k' => st.isLive k') =
          k :: B.filter (fun k' => st.isLive k') := by
        simp [List.filter_cons, hlive]
      rw [hfl] at hchain
      simp only [checkRevTail, hlk, Bool.and_eq_true, beq_iff_eq] at hchain
      obtain ⟨⟨⟨h1, h2⟩, h3⟩, h4⟩ := hchain
      have hsetid : st.setLive k ({ f with outputBuffer := kFrameBufferObject }) = st := by
        rw [outputBuffer_update_self f kFrameBufferObject h1]
        exact setLive_self st k f (filters_of_liveGet hlk)
      have hadj : adjustStage st k f 1 = (true, st) := by
        simp only [adjustStage]
        rw [h2, if_neg (Nat.lt_irrefl 1), hsetid]
        rfl
      have hred : optimiseLoop st (k :: (B ++ rest)) 1 false =
          optimiseLoop st (B ++ rest) f.numInputs false := by
        simp only [optimiseLoop, hlk, hadj]
        rfl
      rw [List.cons_append, hred, honef]
      rw [honef] at h4
      exact ih rest st' h4 hcont

/-- The head segment of the reverse walk (lastf still true) is likewise an
identity pass when its first live stage already targets the default buffer
and the rest of the segment satisfies the chain. -/
theorem optimiseLoop_id_head {st : OpenGLVideo}
    (hin : ∀ k f, st.liveGet k = some f → f.numInputs = 1) :
    ∀ (A rest : List OpenGLFilterType) (st' : OpenGLVideo) (needed : Nat),
      (A.filter fun k => st.isLive k) ≠ [] →
      checkRev st (A.filter fun k => st.isLive k) = true →
      optimiseLoop st rest 1 false = (true, st') →
      optimiseLoop st (A ++ rest) needed true = (true, st') := by
  intro A
  induction A with
  | nil => intro rest st' needed hne _ _; exact absurd rfl hne
  | cons k A ih =>
    intro rest st' needed hne hchain hcont
    cases hlk : st.liveGet k with
    | none =>
      have hdead : st.isLive k = false := by simp [isLive, hlk]
      have hfl : (k :: A).filter (fun k' => st.isLive k') =
          A.filter (fun k' => st.isLive k') := by
        simp [List.filter_cons, hdead]
      rw [hfl] at hne hchain
      have hred : optimiseLoop st (k :: (A ++ rest)) needed true =
          optimiseLoop st (A ++ rest) needed true := by
        simp only [optimiseLoop, hlk]
      rw [List.cons_append, hred]
      exact ih rest st' needed hne hchain hcont
    | some f =>
      have honef := hin k f hlk
      have hlive : st.isLive k = true := isLive_of_liveGet hlk
      have hfl : (k :: A).filter (fun k' => st.isLive k') =
          k :: A.filter (fun k' => st.isLive k') := by
        simp [List.filter_cons, hlive]
      rw [hfl] at hchain
      simp only [checkRev, hlk, Bool.and_eq_true, beq_iff_eq] at hchain
      obtain ⟨h1, h2⟩ := hchain
      have hsetid : st.setLive k ({ f with outputBuffer := kDefaultBuffer }) = st := by
        rw [outputBuffer_update_self f kDefaultBuffer h1]
        exact setLive_self st k f (filters_of_liveGet hlk)
      have hred : optimiseLoop st (k :: (A ++ rest)) needed true =
          optimiseLoop st (A ++ rest) f.numInputs false := by
        simp only [optimiseLoop, hlk, hsetid]
        rfl
      rw [List.cons_append, hred, honef]
      rw [honef] at h2
      exact optimiseLoop_id_tail hin A rest st' h2 hcont


/-- Splitting the ordered key list at a key satisfying the predicate:
the filtered list decomposes into the keys below T, then T, then the keys
above T. -/
theorem keyOrder_filter_split (p : OpenGLFilterType → Bool) (T : OpenGLFilterType)
    (hT : p T = true) :
    keyOrder.filter p =
      (keyOrder.filter fun k => p k && decide (k.idx < T.idx)) ++
      T :: (keyOrder.filter fun k => p k && decide (T.idx < k.idx)) := by
  cases T <;>
    cases hp0 : p kGLFilterNone <;>
    cases hp1 : p kGLFilterYUV2RGB <;>
    cases hp2 : p kGLFilterResize <;>
    cases hp3 : p kGLFilterBicubic <;>
    simp_all [keyOrder, OpenGLFilterType.idx, List.filter]

/-- The same decomposition when T itself fails the predicate. -/
theorem keyOrder_filter_split_absent (p : OpenGLFilterType → Bool)
    (T : OpenGLFilterType) (hT : p T = false) :
    keyOrder.filter p =
      (keyOrder.filter fun k => p k && decide (k.idx < T.idx)) ++
      (keyOrder.filter fun k => p k && decide (T.idx < k.idx)) := by
  cases T <;>
    cases hp0 : p kGLFilterNone <;>
    cases hp1 : p kGLFilterYUV2RGB <;>
    cases hp2 : p kGLFilterResize <;>
    cases hp3 : p kGLFilterBicubic <;>
    simp_all [keyOrder, OpenGLFilterType.idx, List.filter]

/-- Adjusting a freshly inserted stage with no pairs to one needed pair:
exactly one (framebuffer, texture) pair is allocated from the handle
counter and only the entry at k changes. -/
theorem adjustStage_fresh_eq (st : OpenGLVideo) (k : OpenGLFilterType)
    (f0 : OpenGLFilter) (hFBO : st.hasFeature kGLExtFBufObj = true)
    (hfb : f0.frameBuffers = []) (hft : f0.frameBufferTextures = []) :
    adjustStage st k f0 1 = (true,
      { st with
          ctx := { st.ctx with
            nextId := st.ctx.nextId + 2,
            liveTextures := st.ctx.liveTextures ++ [st.ctx.nextId],
            liveFrameBuffers := st.ctx.liveFrameBuffers ++ [st.ctx.nextId + 1] },
          filters := fun k' => if k' = k then
              some (some { f0 with
                outputBuffer := kFrameBufferObject,
                frameBuffers := [st.ctx.nextId + 1],
                frameBufferTextures := [st.ctx.nextId] })
            else st.filters k' }) := by
  set filtF : OpenGLFilter := { f0 with outputBuffer := kFrameBufferObject } with hfiltF
  have hstep1 : adjustStage st k f0 1 = allocLoop (st.setLive k filtF) k 1 := by
    simp only [adjustStage, hfb, List.length_nil, hfiltF]
    rw [if_pos (by omega : (0:Nat) < 1)]
  set st1 := st.setLive k filtF with hst1
  have hFBO1 : st1.hasFeature kGLExtFBufObj = true := hFBO
  have haf := addFrameBuffer_eq st1 hFBO1
  have hlive1 : ({ st1 with ctx := { st1.ctx with
        nextId := st1.ctx.nextId + 2,
        liveTextures := st1.ctx.liveTextures ++ [st1.ctx.nextId],
        liveFrameBuffers := st1.ctx.liveFrameBuffers ++ [st1.ctx.nextId + 1] } }
      : OpenGLVideo).liveGet k = some filtF := by
    show st1.liveGet k = some filtF
    rw [hst1, liveGet_setLive, if_pos rfl]
  have hstep2 : allocLoop st1 k 1 = (true,
      ({ st1 with ctx := { st1.ctx with
            nextId := st1.ctx.nextId + 2,
            liveTextures := st1.ctx.liveTextures ++ [st1.ctx.nextId],
            liveFrameBuffers := st1.ctx.liveFrameBuffers ++ [st1.ctx.nextId + 1] } }
        : OpenGLVideo).setLive k
        { filtF with
            frameBuffers := filtF.frameBuffers ++ [st1.ctx.nextId + 1],
            frameBufferTextures := filtF.frameBufferTextures ++ [st1.ctx.nextId] }) := by
    show allocLoop st1 k (0 + 1) = _
    simp only [allocLoop, haf, hlive1]
  rw [hstep1, hstep2]
  apply congrArg (Prod.mk true)
  apply OpenGLVideo.ext <;> try rfl
  funext k'
  by_cases hk : k' = k
  · simp [setLive, hk, hfiltF, hfb, hft, hst1]
  · simp [setLive, hk, hst1]

theorem freeError_deleteFragmentProgram_of_mem (c : GLContext) (h : Nat)
    (hm : h ∈ c.livePrograms) :
    (c.deleteFragmentProgram h).freeError = c.freeError := by
  unfold GLContext.deleteFragmentProgram
  rw [if_pos hm]

theorem freeError_deleteFrameBuffer_of_mem (c : GLContext) (h : Nat)
    (hm : h ∈ c.liveFrameBuffers) :
    (c.deleteFrameBuffer h).freeError = c.freeError := by
  unfold GLContext.deleteFrameBuffer
  rw [if_pos hm]

theorem freeError_deleteTexture_of_mem (c : GLContext) (h : Nat)
    (hm : h ∈ c.liveTextures) :
    (c.deleteTexture h).freeError = c.freeError := by
  unfold GLContext.deleteTexture
  rw [if_pos hm]

theorem not_mem_of_lt_bound {l : List Nat} {n a : Nat}
    (hb : ∀ h ∈ l, h < n) (ha : n ≤ a) : a ∉ l := by
  intro hm
  have := hb a hm
  omega

theorem erase_append_singleton (l : List Nat) (a : Nat) (h : a ∉ l) :
    (l ++ [a]).erase a = l := by
  rw [List.erase_append_right _ h, List.erase_cons_head, List.append_nil]

/-- RemoveFilter + erase on a live stage: the three resource lists are
deleted in order (programs, framebuffers, textures) and the map entry is
gone. -/
theorem removeFilterErase_eq_of_live (st : OpenGLVideo) (f : OpenGLFilterType)
    (filt : OpenGLFilter) (hlive : st.liveGet f = some filt) :
    st.removeFilterErase f = { st with
      ctx := filt.frameBufferTextures.foldl GLContext.deleteTexture
        (filt.frameBuffers.foldl GLContext.deleteFrameBuffer
          (filt.fragmentPrograms.foldl GLContext.deleteFragmentProgram st.ctx)),
      filters := fun k' => if k' = f then none else st.filters k' } := by
  have hk : st.hasKey f = true := hasKey_of_isLive (isLive_of_liveGet hlive)
  unfold removeFilterErase removeFilter
  rw [hk]
  simp only [hlive]
  rw [if_neg (by intro hx; cases hx)]
  unfold nullEntry eraseKey
  apply OpenGLVideo.ext <;> try rfl
  funext k'
  by_cases hkf : k' = f
  · simp [hkf]
  · simp [hkf]


/-- OptimiseFilters on a state that satisfies the reconciliation invariant
except for one freshly inserted stage T with empty pair lists, where some
live stage lies downstream of T: the walk allocates exactly one
(framebuffer, texture) pair for T and leaves every other entry and the
rest of the ledger untouched. -/
theorem optimiseFilters_fresh_eq (st3 : OpenGLVideo) (T : OpenGLFilterType)
    (temp0 : OpenGLFilter)
    (hlive3 : st3.liveGet T = some temp0)
    (hfb0 : temp0.frameBuffers = []) (hft0 : temp0.frameBufferTextures = [])
    (hni : temp0.numInputs = 1)
    (hFBO3 : st3.hasFeature kGLExtFBufObj = true)
    (hin3 : ∀ k f, st3.liveGet k = some f → f.numInputs = 1)
    (hkeys3 : ∀ k, k ≠ T → st3.hasKey k = st3.isLive k)
    (hrecon3 : reconInvariant (st3.eraseKey T) = true)
    (hup : ∃ k, st3.isLive k = true ∧ T.idx < k.idx) :
    st3.optimiseFilters = (true,
      { st3 with
          ctx := { st3.ctx with
            nextId := st3.ctx.nextId + 2,
            liveTextures := st3.ctx.liveTextures ++ [st3.ctx.nextId],
            liveFrameBuffers := st3.ctx.liveFrameBuffers ++ [st3.ctx.nextId + 1] },
          filters := fun k' => if k' = T then
              some (some { temp0 with
                outputBuffer := kFrameBufferObject,
                frameBuffers := [st3.ctx.nextId + 1],
                frameBufferTextures := [st3.ctx.nextId] })
            else st3.filters k' }) := by
  obtain ⟨k0, hk0live, hk0idx⟩ := hup
  set A := (keyOrder.filter fun k => st3.hasKey k && decide (T.idx < k.idx)).reverse with hA
  set B := (keyOrder.filter fun k => st3.hasKey k && decide (k.idx < T.idx)).reverse with hB
  have hAmem : ∀ k ∈ A, st3.hasKey k = true ∧ T.idx < k.idx := by
    intro k hk
    rw [hA, List.mem_reverse] at hk
    have hx := List.of_mem_filter hk
    simpa using hx
  have hBmem : ∀ k ∈ B, st3.hasKey k = true ∧ k.idx < T.idx := by
    intro k hk
    rw [hB, List.mem_reverse] at hk
    have hx := List.of_mem_filter hk
    simpa using hx
  have hAT : ∀ k ∈ A, k ≠ T := by
    intro k hk he
    have h2 := (hAmem k hk).2
    rw [he] at h2
    exact Nat.lt_irrefl _ h2
  have hBT : ∀ k ∈ B, k ≠ T := by
    intro k hk he
    have h2 := (hBmem k hk).2
    rw [he] at h2
    exact Nat.lt_irrefl _ h2
  have hAlive : ∀ k ∈ A, st3.isLive k = true := fun k hk =>
    ((hkeys3 k (hAT k hk)).symm).trans (hAmem k hk).1
  have hBlive : ∀ k ∈ B, st3.isLive k = true := fun k hk =>
    ((hkeys3 k (hBT k hk)).symm).trans (hBmem k hk).1
  have hTkey : st3.hasKey T = true := hasKey_of_isLive (isLive_of_liveGet hlive3)
  have hpres : st3.presentKeysRev = A ++ T :: B := by
    unfold presentKeysRev
    rw [keyOrder_filter_split (fun k => st3.hasKey k) T hTkey]
    rw [List.reverse_append, List.reverse_cons, hA, hB]
    simp [List.append_assoc]
  -- the reconciliation chain of the erased state, transported to st3
  have hTdead : (st3.eraseKey T).isLive T = false := by
    simp [isLive, liveGet_eraseKey]
  have hlive_keys : liveKeysRev (st3.eraseKey T) = A ++ B := by
    unfold liveKeysRev
    rw [keyOrder_filter_split_absent (fun k => (st3.eraseKey T).isLive k) T hTdead]
    rw [List.reverse_append, hA, hB]
    congr 1 <;>
    · congr 1
      apply List.filter_congr
      intro k hkmem
      by_cases hk : k = T
      · subst hk
        simp [hTdead, Nat.lt_irrefl]
      · have hel : (st3.eraseKey T).isLive k = st3.isLive k := by
          simp [isLive, liveGet_eraseKey, hk]
        rw [hel, hkeys3 k hk]
  have hchain3 : checkRev st3 (A ++ B) = true := by
    have hco : ∀ k ∈ A ++ B, (st3.eraseKey T).liveGet k = st3.liveGet k := by
      intro k hk
      rcases List.mem_append.mp hk with h | h
      · rw [liveGet_eraseKey, if_neg (hAT k h)]
      · rw [liveGet_eraseKey, if_neg (hBT k h)]
    have hcgr := checkRev_congr (A ++ B) hco
    rw [← hcgr]
    have := hrecon3
    unfold reconInvariant at this
    rw [hlive_keys] at this
    exact this
  have hAne : A ≠ [] := by
    have hk0T : k0 ≠ T := by
      intro he
      rw [he] at hk0idx
      exact Nat.lt_irrefl _ hk0idx
    have hk0A : k0 ∈ A := by
      rw [hA, List.mem_reverse]
      apply List.mem_filter.mpr
      refine ⟨mem_keyOrder k0, ?_⟩
      simp only [Bool.and_eq_true, decide_eq_true_eq]
      exact ⟨(hkeys3 k0 hk0T).trans hk0live, hk0idx⟩
    exact List.ne_nil_of_mem hk0A
  obtain ⟨hcrA, hcrB⟩ := checkRev_append_split hin3 A B hAne hchain3
  -- the allocation step at T
  set stX : OpenGLVideo :=
    { st3 with
        ctx := { st3.ctx with
          nextId := st3.ctx.nextId + 2,
          liveTextures := st3.ctx.liveTextures ++ [st3.ctx.nextId],
          liveFrameBuffers := st3.ctx.liveFrameBuffers ++ [st3.ctx.nextId + 1] },
        filters := fun k' => if k' = T then
            some (some { temp0 with
              outputBuffer := kFrameBufferObject,
              frameBuffers := [st3.ctx.nextId + 1],
              frameBufferTextures := [st3.ctx.nextId] })
          else st3.filters k' } with hstX
  have hadj : adjustStage st3 T temp0 1 = (true, stX) := by
    rw [adjustStage_fresh_eq st3 T temp0 hFBO3 hfb0 hft0, hstX]
  have hXfilters : ∀ k, k ≠ T → stX.filters k = st3.filters k := by
    intro k hk
    rw [hstX]
    simp [hk]
  have hXlive : ∀ k, k ≠ T → stX.liveGet k = st3.liveGet k := fun k hk =>
    liveGet_congr (hXfilters k hk)
  have hXliveT : stX.liveGet T = some { temp0 with
      outputBuffer := kFrameBufferObject,
      frameBuffers := [st3.ctx.nextId + 1],
      frameBufferTextures := [st3.ctx.nextId] } := by
    rw [hstX]
    simp [liveGet]
  have hinX : ∀ k f, stX.liveGet k = some f → f.numInputs = 1 := by
    intro k f hk
    by_cases he : k = T
    · subst he
      rw [hXliveT] at hk
      cases hk
      exact hni
    · rw [hXlive k he] at hk
      exact hin3 k f hk
  have hcont : optimiseLoop st3 (T :: B) 1 false = (true, stX) := by
    have hred : optimiseLoop st3 (T :: B) 1 false =
        optimiseLoop stX B temp0.numInputs false := by
      simp only [optimiseLoop, hlive3, hadj]
      rfl
    rw [hred, hni]
    have hBfl : B.filter (fun k => stX.isLive k) = B := by
      apply List.filter_eq_self.mpr
      intro k hk
      rw [isLive_congr_at (hXfilters k (hBT k hk))]
      exact hBlive k hk
    have hchainX : checkRevTail stX (B.filter fun k => stX.isLive k) 1 = true := by
      rw [hBfl, checkRevTail_congr B 1 (fun k hk => hXlive k (hBT k hk))]
      exact hcrB
    have hid := optimiseLoop_id_tail hinX B [] stX hchainX rfl
    rw [List.append_nil] at hid
    exact hid
  unfold optimiseFilters
  rw [hpres]
  have hAfl : A.filter (fun k => st3.isLive k) = A :=
    List.filter_eq_self.mpr (fun k hk => hAlive k hk)
  apply optimiseLoop_id_head hin3 A (T :: B) stX 1 ?_ ?_ hcont
  · rw [hAfl]
    exact hAne
  · rw [hAfl]
    exact hcrA


/-- Core of the AddFilter/RemoveFilter round trip: from any helper/program
preparation state stP that differs from st only by freshly created program
handles, inserting the new stage, reconciling, and then removing the stage
with its map erase restores the filter map and every live-handle list of
the ledger, without raising the free-error flag. -/
theorem roundtrip_core (st stP : OpenGLVideo) (T : OpenGLFilterType)
    (progs : List Nat)
    (hPfil : stP.filters = st.filters)
    (hPtex : stP.ctx.liveTextures = st.ctx.liveTextures)
    (hPfb : stP.ctx.liveFrameBuffers = st.ctx.liveFrameBuffers)
    (hPpr : stP.ctx.livePrograms = st.ctx.livePrograms ++ progs)
    (hPerr : stP.ctx.freeError = st.ctx.freeError)
    (hFBOP : stP.hasFeature kGLExtFBufObj = true)
    (hPnext : st.ctx.nextId ≤ stP.ctx.nextId)
    (hps : progs = [] ∨ ∃ p, progs = [p] ∧ p ∉ st.ctx.livePrograms)
    (hrecon : reconInvariant st = true)
    (hone : inputsOne st = true)
    (hnn : noNullEntries st = true)
    (habsent : st.filters T = none)
    (hdown : ∃ k, st.isLive k = true ∧ T.idx < k.idx)
    (hwf : st.ctx.WF) :
    ∃ stX, (stP.setLive T
        { fragmentPrograms := progs, numInputs := 1, frameBuffers := [],
          frameBufferTextures := [], outputBuffer := kDefaultBuffer }).optimiseFilters
      = (true, stX) ∧
      (stX.removeFilterErase T).filters = st.filters ∧
      (stX.removeFilterErase T).ctx.liveTextures = st.ctx.liveTextures ∧
      (stX.removeFilterErase T).ctx.liveFrameBuffers = st.ctx.liveFrameBuffers ∧
      (stX.removeFilterErase T).ctx.livePrograms = st.ctx.livePrograms ∧
      (stX.removeFilterErase T).ctx.freeError = st.ctx.freeError := by
  set temp0 : OpenGLFilter :=
    { fragmentPrograms := progs, numInputs := 1, frameBuffers := [],
      frameBufferTextures := [], outputBuffer := kDefaultBuffer } with htemp0
  set st3 := stP.setLive T temp0 with hst3
  have hlive3 : st3.liveGet T = some temp0 := by
    rw [hst3, liveGet_setLive, if_pos rfl]
  have hlgcongr : ∀ k, k ≠ T → st3.liveGet k = st.liveGet k := by
    intro k hk
    rw [hst3, liveGet_setLive, if_neg hk]
    exact liveGet_congr (congrFun hPfil k)
  have hin3 : ∀ k f, st3.liveGet k = some f → f.numInputs = 1 := by
    intro k f hk
    by_cases he : k = T
    · subst he
      rw [hlive3] at hk
      cases hk
      rfl
    · rw [hlgcongr k he] at hk
      exact inputsOne_spec hone k f hk
  have hkeys3 : ∀ k, k ≠ T → st3.hasKey k = st3.isLive k := by
    intro k hk
    have h1 : st3.hasKey k = st.hasKey k := by
      rw [hst3, hasKey_setLive, if_neg hk]
      unfold hasKey
      rw [congrFun hPfil k]
    have h2 : st3.isLive k = st.isLive k := by
      unfold isLive
      rw [hlgcongr k hk]
    rw [h1, h2]
    exact hasKey_eq_isLive_of_noNull hnn k
  have hrecon3 : reconInvariant (st3.eraseKey T) = true := by
    have hfe : (st3.eraseKey T).filters = st.filters := by
      funext k
      show (if k = T then none else st3.filters k) = st.filters k
      by_cases hk : k = T
      · rw [if_pos hk, hk, habsent]
      · rw [if_neg hk, hst3]
        show (if k = T then some (some temp0) else stP.filters k) = st.filters k
        rw [if_neg hk, congrFun hPfil k]
    rw [reconInvariant_congr hfe]
    exact hrecon
  have hup3 : ∃ k, st3.isLive k = true ∧ T.idx < k.idx := by
    obtain ⟨k0, hk0live, hk0idx⟩ := hdown
    have hk0T : k0 ≠ T := by
      intro he
      rw [he] at hk0idx
      exact Nat.lt_irrefl _ hk0idx
    refine ⟨k0, ?_, hk0idx⟩
    unfold isLive
    rw [hlgcongr k0 hk0T]
    exact hk0live
  have hOPT := optimiseFilters_fresh_eq st3 T temp0 hlive3 rfl rfl rfl hFBOP hin3
    hkeys3 hrecon3 hup3
  set f1 : OpenGLFilter :=
    { temp0 with
        outputBuffer := kFrameBufferObject,
        frameBuffers := [st3.ctx.nextId + 1],
        frameBufferTextures := [st3.ctx.nextId] } with hf1
  set stX : OpenGLVideo :=
    { st3 with
        ctx := { st3.ctx with
          nextId := st3.ctx.nextId + 2,
          liveTextures := st3.ctx.liveTextures ++ [st3.ctx.nextId],
          liveFrameBuffers := st3.ctx.liveFrameBuffers ++ [st3.ctx.nextId + 1] },
        filters := fun k' => if k' = T then some (some f1)
          else st3.filters k' } with hstX
  have hXliveT : stX.liveGet T = some f1 := by
    rw [hstX]
    simp [liveGet]
  have hrm := removeFilterErase_eq_of_live stX T f1 hXliveT
  refine ⟨stX, hOPT, ?_, ?_, ?_, ?_, ?_⟩
  · -- filter map restored
    rw [hrm]
    funext k'
    show (if k' = T then none else stX.filters k') = st.filters k'
    by_cases hk : k' = T
    · rw [if_pos hk, hk, habsent]
    · rw [if_neg hk, hstX]
      show (if k' = T then some (some f1) else st3.filters k') = st.filters k'
      rw [if_neg hk, hst3]
      show (if k' = T then some (some temp0) else stP.filters k') = st.filters k'
      rw [if_neg hk, congrFun hPfil k']
  · -- texture handles restored
    rw [hrm]
    show (f1.frameBufferTextures.foldl GLContext.deleteTexture
        (f1.frameBuffers.foldl GLContext.deleteFrameBuffer
          (f1.fragmentPrograms.foldl GLContext.deleteFragmentProgram
            stX.ctx))).liveTextures = st.ctx.liveTextures
    rw [liveTextures_foldl_deleteTexture, liveTextures_foldl_deleteFrameBuffer,
        liveTextures_foldl_deleteFragmentProgram]
    show List.foldl (fun l h => if h ∈ l then l.erase h else l)
        (stP.ctx.liveTextures ++ [stP.ctx.nextId]) [stP.ctx.nextId] =
      st.ctx.liveTextures
    rw [hPtex, List.foldl_cons, List.foldl_nil,
        if_pos (List.mem_append_right _ (List.mem_singleton.mpr rfl))]
    exact erase_append_singleton _ _ (not_mem_of_lt_bound hwf.2.1 hPnext)
  · -- framebuffer handles restored
    rw [hrm]
    show (f1.frameBufferTextures.foldl GLContext.deleteTexture
        (f1.frameBuffers.foldl GLContext.deleteFrameBuffer
          (f1.fragmentPrograms.foldl GLContext.deleteFragmentProgram
            stX.ctx))).liveFrameBuffers = st.ctx.liveFrameBuffers
    rw [liveFrameBuffers_foldl_deleteTexture, liveFrameBuffers_foldl_deleteFrameBuffer,
        liveFrameBuffers_foldl_deleteFragmentProgram]
    show List.foldl (fun l h => if h ∈ l then l.erase h else l)
        (stP.ctx.liveFrameBuffers ++ [stP.ctx.nextId + 1]) [stP.ctx.nextId + 1] =
      st.ctx.liveFrameBuffers
    rw [hPfb, List.foldl_cons, List.foldl_nil,
        if_pos (List.mem_append_right _ (List.mem_singleton.mpr rfl))]
    exact erase_append_singleton _ _
      (not_mem_of_lt_bound hwf.2.2.1 (by omega))
  · -- program handles restored
    rw [hrm]
    show (f1.frameBufferTextures.foldl GLContext.deleteTexture
        (f1.frameBuffers.foldl GLContext.deleteFrameBuffer
          (f1.fragmentPrograms.foldl GLContext.deleteFragmentProgram
            stX.ctx))).livePrograms = st.ctx.livePrograms
    rw [livePrograms_foldl_deleteTexture, livePrograms_foldl_deleteFrameBuffer,
        livePrograms_foldl_deleteFragmentProgram]
    show List.foldl (fun l h => if h ∈ l then l.erase h else l)
        stP.ctx.livePrograms progs = st.ctx.livePrograms
    rw [hPpr]
    rcases hps with hnil | ⟨p, hp, hpnot⟩
    · subst hnil
      rw [List.foldl_nil, List.append_nil]
    · subst hp
      rw [List.foldl_cons, List.foldl_nil,
          if_pos (List.mem_append_right _ (List.mem_singleton.mpr rfl))]
      exact erase_append_singleton _ _ hpnot
  · -- no double free: the error flag is untouched
    rw [hrm]
    show ((((f1.fragmentPrograms.foldl GLContext.deleteFragmentProgram
          stX.ctx).deleteFrameBuffer (stP.ctx.nextId + 1)).deleteTexture
            stP.ctx.nextId)).freeError = st.ctx.freeError
    set c1 := f1.fragmentPrograms.foldl GLContext.deleteFragmentProgram stX.ctx with hc1
    have hc1fb : c1.liveFrameBuffers = stP.ctx.liveFrameBuffers ++ [stP.ctx.nextId + 1] := by
      rw [hc1, liveFrameBuffers_foldl_deleteFragmentProgram]
      rfl
    have hc1tex : c1.liveTextures = stP.ctx.liveTextures ++ [stP.ctx.nextId] := by
      rw [hc1, liveTextures_foldl_deleteFragmentProgram]
      rfl
    have hc1err : c1.freeError = st.ctx.freeError := by
      rw [hc1]
      show (progs.foldl GLContext.deleteFragmentProgram stX.ctx).freeError =
        st.ctx.freeError
      rcases hps with hnil | ⟨p, hp, hpnot⟩
      · subst hnil
        exact hPerr
      · subst hp
        rw [List.foldl_cons, List.foldl_nil]
        rw [freeError_deleteFragmentProgram_of_mem]
        · exact hPerr
        · show p ∈ stP.ctx.livePrograms
          rw [hPpr]
          exact List.mem_append_right _ (List.mem_singleton.mpr rfl)
    have hfbmem : stP.ctx.nextId + 1 ∈ c1.liveFrameBuffers := by
      rw [hc1fb]
      exact List.mem_append_right _ (List.mem_singleton.mpr rfl)
    have hc2tex : (c1.deleteFrameBuffer (stP.ctx.nextId + 1)).liveTextures =
        c1.liveTextures := by
      unfold GLContext.deleteFrameBuffer
      split <;> rfl
    have htexmem : stP.ctx.nextId ∈
        (c1.deleteFrameBuffer (stP.ctx.nextId + 1)).liveTextures := by
      rw [hc2tex, hc1tex]
      exact List.mem_append_right _ (List.mem_singleton.mpr rfl)
    rw [freeError_deleteTexture_of_mem _ _ htexmem,
        freeError_deleteFrameBuffer_of_mem _ _ hfbmem]
    exact hc1err


/-- C2 counterexample: on the demo state (one colourspace stage rendering
straight to the display, no intermediate buffers), AddFilter(resize)
followed by RemoveFilter(resize) + erase leaves the remaining YUV2RGB
stage with one (framebuffer, texture) pair instead of its pre-add zero,
and the allocated framebuffer handle stays live: the round trip does not
restore the remaining stages' buffer counts, because the new stage became
the last stage and reconciliation re-provisioned its upstream neighbour. -/
theorem addFilter_removeFilterErase_not_restored :
    ((((graphDemoState.addFilter kGLFilterResize).2.removeFilterErase
        kGLFilterResize).liveGet kGLFilterYUV2RGB).map
      fun f => f.frameBuffers.length) = some 1 ∧
    ((graphDemoState.liveGet kGLFilterYUV2RGB).map
      fun f => f.frameBuffers.length) = some 0 ∧
    ((graphDemoState.addFilter kGLFilterResize).2.removeFilterErase
        kGLFilterResize).ctx.liveFrameBuffers = [11] ∧
    graphDemoState.ctx.liveFrameBuffers = [] := by decide

/-- C2 (amended).  When the added stage type T does not become the last
stage in pipeline order — some live stage has a larger key — AddFilter(T)
followed immediately by RemoveFilter(T) with its map erase restores the
filter map exactly (hence every remaining stage's intermediate-buffer
count), restores all three live-handle lists of the ledger (no leak), and
leaves the free-error flag untouched (no double free), under full
framebuffer-object and fragment-program support from a reconciled,
null-free state with a well-formed ledger. -/
theorem addFilter_removeFilterErase_roundtrip (st : OpenGLVideo)
    (T : OpenGLFilterType)
    (hFBO : st.hasFeature kGLExtFBufObj = true)
    (hfp : st.hasFeature kGLExtFragProg = true)
    (hrecon : reconInvariant st = true)
    (hone : inputsOne st = true)
    (hnn : noNullEntries st = true)
    (habsent : st.filters T = none)
    (hdown : ∃ k, st.isLive k = true ∧ T.idx < k.idx)
    (hwf : st.ctx.WF) :
    (st.addFilter T).1 = true ∧
    ((st.addFilter T).2.removeFilterErase T).filters = st.filters ∧
    ((st.addFilter T).2.removeFilterErase T).ctx.liveTextures =
      st.ctx.liveTextures ∧
    ((st.addFilter T).2.removeFilterErase T).ctx.liveFrameBuffers =
      st.ctx.liveFrameBuffers ∧
    ((st.addFilter T).2.removeFilterErase T).ctx.livePrograms =
      st.ctx.livePrograms ∧
    ((st.addFilter T).2.removeFilterErase T).ctx.freeError =
      st.ctx.freeError := by
  have hTB : T ≠ kGLFilterBicubic := by
    obtain ⟨k0, hk0live, hk0idx⟩ := hdown
    intro he
    subst he
    cases k0 <;> simp [OpenGLFilterType.idx] at hk0idx
  have hkeyF : st.hasKey T = false := by simp [hasKey, habsent]
  have hH : st.helperStep T = (true, st) := by
    unfold helperStep
    rw [if_neg hTB]
  have hc1 : ¬ st.hasKey T = true := by
    rw [hkeyF]
    exact Bool.false_ne_true
  have hc2 : ¬(st.hasFeature kGLExtFBufObj = false ∧ T = kGLFilterResize ∧
      0 < st.filtersSize) := by
    intro hx
    rw [hFBO] at hx
    simp at hx
  have hc3 : ¬((st.hasFeature kGLExtFragProg = false ∨
      st.hasFeature kGLExtFBufObj = false) ∧ T = kGLFilterBicubic) :=
    fun hx => hTB hx.2
  by_cases hTP : T = kGLFilterNone ∨ T = kGLFilterResize
  · -- stage types that get no fragment program
    have hP : st.programStep T true = (true, [], st) := by
      unfold programStep
      rw [if_neg (by rintro ⟨-, h2, h3⟩; rcases hTP with h | h
                     exacts [h2 h, h3 h])]
    obtain ⟨stX, hOPT, e1, e2, e3, e4, e5⟩ :=
      roundtrip_core st st T [] rfl rfl rfl (List.append_nil _).symm rfl hFBO
        (Nat.le_refl _) (Or.inl rfl) hrecon hone hnn habsent hdown hwf
    have hAF : st.addFilter T = (true, stX) := by
      unfold addFilter
      rw [if_neg hc1, if_neg hc2, if_neg hc3]
      simp only [hH, hP, hOPT, if_true]
    rw [hAF]
    exact ⟨rfl, e1, e2, e3, e4, e5⟩
  · -- the remaining case: the colourspace-conversion stage
    have hTY : T = kGLFilterYUV2RGB := by
      push_neg at hTP
      cases T
      · exact absurd rfl hTP.1
      · rfl
      · exact absurd rfl hTP.2
      · exact absurd rfl hTB
    subst hTY
    have hnz : st.ctx.nextId ≠ 0 := by
      have h0 := hwf.1
      omega
    have hfp' : ¬(st.hasFeature kGLExtFragProg = false) := by
      simp [hfp]
    have hP : st.programStep kGLFilterYUV2RGB true =
        (true, [st.ctx.nextId],
          { st with ctx := { st.ctx with
              nextId := st.ctx.nextId + 1,
              livePrograms := st.ctx.livePrograms ++ [st.ctx.nextId] } }) := by
      unfold programStep addFragmentProgram
      rw [if_pos ⟨rfl, by decide, by decide⟩, if_neg hfp']
      simp only [GLContext.createFragmentProgram]
      simp [hnz]
    obtain ⟨stX, hOPT, e1, e2, e3, e4, e5⟩ :=
      roundtrip_core st
        { st with ctx := { st.ctx with
            nextId := st.ctx.nextId + 1,
            livePrograms := st.ctx.livePrograms ++ [st.ctx.nextId] } }
        kGLFilterYUV2RGB [st.ctx.nextId] rfl rfl rfl rfl rfl hFBO
        (show st.ctx.nextId ≤ st.ctx.nextId + 1 by omega)
        (Or.inr ⟨st.ctx.nextId, rfl,
          not_mem_of_lt_bound hwf.2.2.2.1 (Nat.le_refl _)⟩)
        hrecon hone hnn habsent hdown hwf
    have hAF : st.addFilter kGLFilterYUV2RGB = (true, stX) := by
      unfold addFilter
      rw [if_neg hc1, if_neg hc2, if_neg hc3]
      simp only [hH, hP, hOPT, if_true]
    rw [hAF]
    exact ⟨rfl, e1, e2, e3, e4, e5⟩

/-- Witness for C2 (amended): adding and at once removing the pass-through
stage type below the live colourspace stage of the demo state restores the
filter map and the program-handle list exactly. -/
theorem addFilter_removeFilterErase_roundtrip_witness :
    (graphDemoState.hasFeature kGLExtFBufObj = true ∧
     graphDemoState.hasFeature kGLExtFragProg = true ∧
     reconInvariant graphDemoState = true ∧
     inputsOne graphDemoState = true ∧
     noNullEntries graphDemoState = true ∧
     graphDemoState.filters kGLFilterNone = none ∧
     graphDemoState.ctx.WF) ∧
    ((graphDemoState.addFilter kGLFilterNone).2.removeFilterErase
        kGLFilterNone).filters = graphDemoState.filters ∧
    ((graphDemoState.addFilter kGLFilterNone).2.removeFilterErase
        kGLFilterNone).ctx.livePrograms = graphDemoState.ctx.livePrograms :=
  ⟨⟨by decide, by decide, by decide, by decide, by decide, by decide,
    ⟨by decide, by decide, by decide, by decide, by decide, by decide,
     by decide, fun h _ => rfl⟩⟩,
   (addFilter_removeFilterErase_roundtrip graphDemoState kGLFilterNone
      (by decide) (by decide) (by decide) (by decide) (by decide) (by decide)
      ⟨kGLFilterYUV2RGB, by decide, by decide⟩
      ⟨by decide, by decide, by decide, by decide, by decide, by decide,
       by decide, fun h _ => rfl⟩).2.1,
   (addFilter_removeFilterErase_roundtrip graphDemoState kGLFilterNone
      (by decide) (by decide) (by decide) (by decide) (by decide) (by decide)
      ⟨kGLFilterYUV2RGB, by decide, by decide⟩
      ⟨by decide, by decide, by decide, by decide, by decide, by decide,
       by decide, fun h _ => rfl⟩).2.2.2.2.1⟩


/-! ### refsNeeded tracking for claim C7 -/

theorem refsNeeded_addFrameBuffer (st : OpenGLVideo) :
    (st.addFrameBuffer).2.refsNeeded = st.refsNeeded := by
  unfold addFrameBuffer GLContext.createTexture GLContext.createFrameBuffer
  split <;> rfl

theorem refsNeeded_allocLoop :
    ∀ (n : Nat) (st : OpenGLVideo) (k : OpenGLFilterType),
      (allocLoop st k n).2.refsNeeded = st.refsNeeded := by
  intro n
  induction n with
  | zero => intro st k; rfl
  | succ m ih =>
    intro st k
    rcases haf : st.addFrameBuffer with ⟨o, st'⟩
    have hst' : st'.refsNeeded = st.refsNeeded := by
      have h0 := refsNeeded_addFrameBuffer st
      rw [haf] at h0
      exact h0
    cases o with
    | none => simp only [allocLoop, haf]; exact hst'
    | some pr =>
      rcases pr with ⟨fb, tex⟩
      cases hlg : st'.liveGet k with
      | none => simp only [allocLoop, haf, hlg]; exact hst'
      | some filt =>
        simp only [allocLoop, haf, hlg]
        rw [ih]
        exact hst'

theorem refsNeeded_freeLoop :
    ∀ (n : Nat) (st : OpenGLVideo) (k : OpenGLFilterType),
      (freeLoop st k n).refsNeeded = st.refsNeeded := by
  intro n
  induction n with
  | zero => intro st k; rfl
  | succ m ih =>
    intro st k
    cases hlg : st.liveGet k with
    | none => simp only [freeLoop, hlg]
    | some filt =>
      simp only [freeLoop, hlg]
      rw [ih]
      rfl

theorem refsNeeded_adjustStage (st : OpenGLVideo) (k : OpenGLFilterType)
    (filt : OpenGLFilter) (needed : Nat) :
    (adjustStage st k filt needed).2.refsNeeded = st.refsNeeded := by
  simp only [adjustStage]
  split
  · rw [refsNeeded_allocLoop]
    rfl
  · show (freeLoop (st.setLive k
        { filt with outputBuffer := kFrameBufferObject }) k
          (filt.frameBuffers.length - needed)).refsNeeded = st.refsNeeded
    rw [refsNeeded_freeLoop]
    rfl

theorem refsNeeded_optimiseLoop :
    ∀ (ks : List OpenGLFilterType) (st : OpenGLVideo) (needed : Nat) (lastf : Bool),
      (optimiseLoop st ks needed lastf).2.refsNeeded = st.refsNeeded := by
  intro ks
  induction ks with
  | nil => intro st needed lastf; rfl
  | cons k ks ih =>
    intro st needed lastf
    cases hlg : st.liveGet k with
    | none => simp only [optimiseLoop, hlg]; exact ih st needed lastf
    | some filt =>
      cases lastf with
      | true =>
        simp only [optimiseLoop, hlg]
        split
        · rw [ih]
          rfl
        · next h => exact absurd (by trivial) h
      | false =>
        simp only [optimiseLoop, hlg]
        split
        · next h => exact absurd h (by simp)
        · split
          · next st' hadj =>
            have h0 := refsNeeded_adjustStage st k filt needed
            rw [hadj] at h0
            exact h0
          · next st' hadj =>
            have h0 := refsNeeded_adjustStage st k filt needed
            rw [hadj] at h0
            rw [ih]
            exact h0

theorem refsNeeded_optimiseFilters (st : OpenGLVideo) :
    (st.optimiseFilters).2.refsNeeded = st.refsNeeded := by
  unfold optimiseFilters
  rw [refsNeeded_optimiseLoop]

theorem refsNeeded_removeFilter (st : OpenGLVideo) (f : OpenGLFilterType) :
    (st.removeFilter f).refsNeeded = st.refsNeeded := by
  unfold removeFilter
  split
  · rfl
  · cases hl : st.liveGet f with
    | none => rfl
    | some filt => rfl

theorem refsNeeded_removeFilterErase (st : OpenGLVideo) (f : OpenGLFilterType) :
    (st.removeFilterErase f).refsNeeded = st.refsNeeded := by
  unfold removeFilterErase eraseKey
  show (st.removeFilter f).refsNeeded = st.refsNeeded
  exact refsNeeded_removeFilter st f

theorem refsNeeded_addFilter (st : OpenGLVideo) (f : OpenGLFilterType) :
    ((st.addFilter f).2).refsNeeded = st.refsNeeded := by
  have hH := (helperStep_core st f).2.2.2.1
  rcases hHs : st.helperStep f with ⟨s1, st1⟩
  rw [hHs] at hH
  have hP := (programStep_core st1 f s1).2.2.2.1
  rcases hPs : st1.programStep f s1 with ⟨s2, progs, st2⟩
  rw [hPs] at hP
  unfold addFilter
  split
  · rfl
  · split
    · rfl
    · split
      · rfl
      · simp only [hHs, hPs]
        split
        · rcases hopt : (st2.setLive f
              { fragmentPrograms := progs, numInputs := 1, frameBuffers := [],
                frameBufferTextures := [], outputBuffer := kDefaultBuffer }).optimiseFilters
            with ⟨b, st4⟩
          have h4 : st4.refsNeeded = st2.refsNeeded := by
            have h0 := refsNeeded_optimiseFilters (st2.setLive f
              { fragmentPrograms := progs, numInputs := 1, frameBuffers := [],
                frameBufferTextures := [], outputBuffer := kDefaultBuffer })
            rw [hopt] at h0
            exact h0
          cases b with
          | true =>
            show st4.refsNeeded = st.refsNeeded
            rw [h4, hP, hH]
          | false =>
            show (st4.removeFilterErase f).refsNeeded = st.refsNeeded
            rw [refsNeeded_removeFilterErase, h4, hP, hH]
        · show ((st2.removeFilterErase f)).refsNeeded = st.refsNeeded
          rw [refsNeeded_removeFilterErase, hP, hH]

theorem refsNeeded_checkResize (st : OpenGLVideo) (d a : Bool) :
    (st.checkResize d a).refsNeeded = st.refsNeeded := by
  unfold checkResize
  split
  · rw [refsNeeded_addFilter, refsNeeded_removeFilterErase]
  · split
    · rw [refsNeeded_addFilter, refsNeeded_removeFilterErase]
    · rcases hopt : (st.removeFilterErase kGLFilterBicubic).optimiseFilters
        with ⟨b, st'⟩
      have h0 := refsNeeded_optimiseFilters (st.removeFilterErase kGLFilterBicubic)
      rw [hopt] at h0
      show st'.refsNeeded = st.refsNeeded
      rw [h0, refsNeeded_removeFilterErase]

theorem refsNeeded_setDeinterlacing (st : OpenGLVideo) (b : Bool) :
    (st.setDeinterlacing b).refsNeeded = st.refsNeeded := by
  unfold setDeinterlacing
  split
  · rfl
  · rw [refsNeeded_checkResize]


theorem refsNeeded_tearDownDeinterlacer (st : OpenGLVideo) :
    (st.tearDownDeinterlacer).refsNeeded = 0 ∨
    (st.tearDownDeinterlacer).refsNeeded = st.refsNeeded := by
  unfold tearDownDeinterlacer
  split
  · right; rfl
  · cases hl : st.liveGet kGLFilterYUV2RGB with
    | none => right; rfl
    | some tmp => left; rfl

theorem refsNeeded_createRefTextures :
    ∀ (n : Nat) (st : OpenGLVideo),
      (createRefTextures st n).refsNeeded = st.refsNeeded := by
  intro n
  induction n with
  | zero => intro st; rfl
  | succ m ih =>
    intro st
    show (createRefTextures _ m).refsNeeded = st.refsNeeded
    rw [ih]

theorem refsNeeded_addFragmentProgram (st : OpenGLVideo) :
    (st.addFragmentProgram).2.refsNeeded = st.refsNeeded := by
  unfold addFragmentProgram GLContext.createFragmentProgram
  split <;> rfl

theorem refsNeeded_addDeinterlacer_nonneg (st : OpenGLVideo) (d : String)
    (h0 : 0 ≤ st.refsNeeded) : 0 ≤ ((st.addDeinterlacer d).2).refsNeeded := by
  unfold addDeinterlacer
  split
  · exact h0
  · split
    · exact h0
    · split
      · exact h0
      · -- the body: tear down, set refsNeeded to the ring capacity,
        -- create textures and programs, then either record or roll back
        rcases hp1 : (createRefTextures
            { st.tearDownDeinterlacer with
                refsNeeded := ((if d = "openglbobdeint" ∨ d = "openglonefield" ∨
                    d = "opengldoubleratefieldorder" then 0 else 2 : Nat) : Int) }
            (if d = "openglbobdeint" ∨ d = "openglonefield" ∨
                d = "opengldoubleratefieldorder" then 0 else 2)).addFragmentProgram
          with ⟨prog1, st4⟩
        rcases hp2 : st4.addFragmentProgram with ⟨prog2, st5⟩
        have h4 : st4.refsNeeded =
            ((if d = "openglbobdeint" ∨ d = "openglonefield" ∨
                d = "opengldoubleratefieldorder" then 0 else 2 : Nat) : Int) := by
          have ha := refsNeeded_addFragmentProgram (createRefTextures
            { st.tearDownDeinterlacer with
                refsNeeded := ((if d = "openglbobdeint" ∨ d = "openglonefield" ∨
                    d = "opengldoubleratefieldorder" then 0 else 2 : Nat) : Int) }
            (if d = "openglbobdeint" ∨ d = "openglonefield" ∨
                d = "opengldoubleratefieldorder" then 0 else 2))
          rw [hp1] at ha
          rw [ha, refsNeeded_createRefTextures]
        have h5 : st5.refsNeeded = st4.refsNeeded := by
          have hb := refsNeeded_addFragmentProgram st4
          rw [hp2] at hb
          exact hb
        have h5nn : 0 ≤ st5.refsNeeded := by
          rw [h5, h4]
          split <;> omega
        simp only [hp1, hp2]
        split
        · cases hl5 : st5.liveGet kGLFilterYUV2RGB with
          | none => exact h5nn
          | some f =>
            show 0 ≤ ((st5.setLive kGLFilterYUV2RGB
                { f with fragmentPrograms := f.fragmentPrograms ++ [prog1, prog2] }).checkResize
                  _ true).refsNeeded
            rw [refsNeeded_checkResize]
            exact h5nn
        · rcases refsNeeded_tearDownDeinterlacer
              { st5 with hardwareDeinterlacer := "" } with hz | hz
          · rw [hz]
          · rw [hz]
            exact h5nn

theorem refsNeeded_rotateTextures_nonneg (st : OpenGLVideo)
    (h0 : 0 ≤ st.refsNeeded) : 0 ≤ (st.rotateTextures).refsNeeded := by
  unfold rotateTextures
  split
  · exact h0
  · split
    · next hgt =>
      split
      · show (0:Int) ≤ st.refsNeeded - 1
        omega
      · show (0:Int) ≤ st.refsNeeded - 1
        omega
    · next hgt =>
      split
      · exact h0
      · exact h0

theorem refsNeeded_updateInputFrame_nonneg (st : OpenGLVideo)
    (frame : VideoFrame) (soft_bob : Bool)
    (h0 : 0 ≤ st.refsNeeded) :
    0 ≤ (st.updateInputFrame frame soft_bob).refsNeeded := by
  unfold updateInputFrame
  split
  · exact h0
  · split
    · have h1 : 0 ≤ (st.rotateTextures).refsNeeded :=
        refsNeeded_rotateTextures_nonneg st h0
      dsimp only
      cases hit : (st.rotateTextures).inputTextures with
      | nil => simp only [hit]; exact h1
      | cons i tl => simp only [hit]; exact h1
    · dsimp only
      cases hit : st.inputTextures with
      | nil => simp only [hit]; exact h0
      | cons i tl => simp only [hit]; exact h0

theorem refsNeeded_applyVideoOp_nonneg (st : OpenGLVideo) (op : VideoOp)
    (h0 : 0 ≤ st.refsNeeded) : 0 ≤ (applyVideoOp st op).refsNeeded := by
  cases op with
  | upload frame soft_bob => exact refsNeeded_updateInputFrame_nonneg st frame soft_bob h0
  | addDeint d => exact refsNeeded_addDeinterlacer_nonneg st d h0
  | setDeint b => rw [show applyVideoOp st (VideoOp.setDeint b) = st.setDeinterlacing b from rfl, refsNeeded_setDeinterlacing]; exact h0
  | resizeCheck d a => rw [show applyVideoOp st (VideoOp.resizeCheck d a) = st.checkResize d a from rfl, refsNeeded_checkResize]; exact h0
  | addF f => rw [show applyVideoOp st (VideoOp.addF f) = (st.addFilter f).2 from rfl, refsNeeded_addFilter]; exact h0
  | removeEraseF f => rw [show applyVideoOp st (VideoOp.removeEraseF f) = st.removeFilterErase f from rfl, refsNeeded_removeFilterErase]; exact h0

theorem refsNeeded_applyVideoOps_nonneg :
    ∀ (ops : List VideoOp) (st : OpenGLVideo), 0 ≤ st.refsNeeded →
      0 ≤ (applyVideoOps st ops).refsNeeded := by
  intro ops
  induction ops with
  | nil => intro st h0; exact h0
  | cons op ops ih =>
    intro st h0
    exact ih (applyVideoOp st op) (refsNeeded_applyVideoOp_nonneg st op h0)


/-- The reference-ring invariant along a run of valid uploads with
hardware deinterlacing active: the input texture and the two ring slots
cyclically exchange roles, the input texture holds the latest frame, the
ring slots hold the two frames before it (filling up over the first
uploads), and refsNeeded counts down from 2 stopping at 0. -/
theorem uploadSeq_ring_inv (st0 : OpenGLVideo) (x y z : Nat)
    (hx : st0.inputTextures = [x]) (hyz : st0.referenceTextures = [y, z])
    (hxy : x ≠ y) (hxz : x ≠ z) (hyz2 : y ≠ z)
    (htx : st0.ctx.texData x = none) (hty : st0.ctx.texData y = none)
    (htz : st0.ctx.texData z = none)
    (hr : st0.refsNeeded = 2)
    (hhd : st0.hardwareDeinterlacing = true)
    (hw : 1 ≤ st0.actual_video_dim.w) (hh : 1 ≤ st0.actual_video_dim.h) :
    ∀ n : Nat, ∃ a b c : Nat,
      (uploadSeq st0 n).inputTextures = [a] ∧
      (uploadSeq st0 n).referenceTextures = [b, c] ∧
      a ≠ b ∧ a ≠ c ∧ b ≠ c ∧
      (uploadSeq st0 n).ctx.texData a = (if 1 ≤ n then some n else none) ∧
      (uploadSeq st0 n).ctx.texData b = (if 2 ≤ n then some (n - 1) else none) ∧
      (uploadSeq st0 n).ctx.texData c = (if 3 ≤ n then some (n - 2) else none) ∧
      (uploadSeq st0 n).refsNeeded = max (2 - (n : Int)) 0 ∧
      (uploadSeq st0 n).hardwareDeinterlacing = true ∧
      (uploadSeq st0 n).actual_video_dim = st0.actual_video_dim := by
  intro n
  induction n with
  | zero =>
    refine ⟨x, y, z, hx, hyz, hxy, hxz, hyz2, ?_, ?_, ?_, ?_, hhd, rfl⟩
    · rw [if_neg (by omega)]
      exact htx
    · rw [if_neg (by omega)]
      exact hty
    · rw [if_neg (by omega)]
      exact htz
    · show st0.refsNeeded = _
      rw [hr]
      decide
  | succ n ih =>
    obtain ⟨a, b, c, e1, e2, e3, e4, e5, e6, e7, e8, e9, e10, e11⟩ := ih
    have hvalid : ¬((matchingFrame (uploadSeq st0 n) (n + 1)).width ≠
          (uploadSeq st0 n).actual_video_dim.w ∨
        (matchingFrame (uploadSeq st0 n) (n + 1)).height ≠
          (uploadSeq st0 n).actual_video_dim.h ∨
        (matchingFrame (uploadSeq st0 n) (n + 1)).width < 1 ∨
        (matchingFrame (uploadSeq st0 n) (n + 1)).height < 1 ∨
        (matchingFrame (uploadSeq st0 n) (n + 1)).codec ≠ VideoCodec.FMT_YV12) := by
      intro hbad
      rcases hbad with hb | hb | hb | hb | hb
      · exact hb rfl
      · exact hb rfl
      · have hb' : (uploadSeq st0 n).actual_video_dim.w < 1 := hb
        rw [e11] at hb'
        omega
      · have hb' : (uploadSeq st0 n).actual_video_dim.h < 1 := hb
        rw [e11] at hb'
        omega
      · exact hb rfl
    have hrot : (uploadSeq st0 n).rotateTextures =
        { uploadSeq st0 n with
            refsNeeded := if (uploadSeq st0 n).refsNeeded > 0 then
                (uploadSeq st0 n).refsNeeded - 1
              else (uploadSeq st0 n).refsNeeded,
            referenceTextures := [a, b],
            inputTextures := [c] } := by
      unfold rotateTextures
      rw [e2, if_neg (by simp), e1]
      rfl
    have hupd : (uploadSeq st0 n).updateInputFrame
        (matchingFrame (uploadSeq st0 n) (n + 1)) false =
        { uploadSeq st0 n with
            refsNeeded := if (uploadSeq st0 n).refsNeeded > 0 then
                (uploadSeq st0 n).refsNeeded - 1
              else (uploadSeq st0 n).refsNeeded,
            referenceTextures := [a, b],
            inputTextures := [c],
            ctx := { (uploadSeq st0 n).ctx with
              texData := fun t => if t = c then some (n + 1)
                else (uploadSeq st0 n).ctx.texData t },
            inputUpdated := true } := by
      unfold updateInputFrame
      rw [if_neg hvalid, if_pos e10, hrot]
      simp only [ite_self]
      rfl
    have hstep : uploadSeq st0 (n + 1) = (uploadSeq st0 n).updateInputFrame
        (matchingFrame (uploadSeq st0 n) (n + 1)) false := rfl
    refine ⟨c, a, b, ?_, ?_, e4.symm, e5.symm, e3, ?_, ?_, ?_, ?_, ?_, ?_⟩
    · rw [hstep, hupd]
    · rw [hstep, hupd]
    · rw [hstep, hupd]
      show (if c = c then some (n + 1) else (uploadSeq st0 n).ctx.texData c) = _
      rw [if_pos rfl, if_pos (by omega)]
    · rw [hstep, hupd]
      show (if a = c then some (n + 1) else (uploadSeq st0 n).ctx.texData a) = _
      rw [if_neg e4, e6]
      by_cases h1n : 1 ≤ n
      · rw [if_pos h1n, if_pos (by omega)]
        exact congrArg some (by omega : n = n + 1 - 1)
      · rw [if_neg h1n, if_neg (by omega)]
    · rw [hstep, hupd]
      show (if b = c then some (n + 1) else (uploadSeq st0 n).ctx.texData b) = _
      rw [if_neg e5, e7]
      by_cases h2n : 2 ≤ n
      · rw [if_pos h2n, if_pos (by omega)]
        exact congrArg some (by omega : n - 1 = n + 1 - 2)
      · rw [if_neg h2n, if_neg (by omega)]
    · rw [hstep, hupd]
      show (if (uploadSeq st0 n).refsNeeded > 0 then
          (uploadSeq st0 n).refsNeeded - 1
        else (uploadSeq st0 n).refsNeeded) = _
      rw [e9]
      split <;> omega
    · rw [hstep, hupd]
      exact e10
    · rw [hstep, hupd]
      exact e11


/-- C7 counterexample: install the temporal kernel deinterlacer (ring
capacity K = 2) on the demo state, activate hardware deinterlacing and
upload valid frames.  After 1 upload the ring holds 0 historical frames
and after 2 uploads it holds 1 — not min(N, K) = 1 and 2: the rotation
happens before the upload writes the new frame, so the frame of upload N
is in the input texture, not yet in the ring. -/
theorem referenceRing_not_min_uploads :
    historicalFrames (uploadSeq ((graphDemoState.addDeinterlacer
        "openglkerneldeint").2.setDeinterlacing true) 1) = [] ∧
    historicalFrames (uploadSeq ((graphDemoState.addDeinterlacer
        "openglkerneldeint").2.setDeinterlacing true) 2) = [1] ∧
    min 1 2 = 1 ∧ min 2 2 = 2 := by decide

/-- C7 (amended).  From a freshly installed temporal deinterlacer (input
texture x, ring [y, z] all without frame data, refsNeeded = K = 2,
hardware deinterlacing active, valid input geometry), after N valid
uploads the ring holds exactly min(N - 1, K) historical frames; for
N ≥ 3 they are [N-1, N-2] (most recent first) and for N = 2 just [1];
refsNeeded reaches 0 exactly from the K-th upload on, and it stays
non-negative under every further sequence of modelled operations. -/
theorem referenceRing_history_spec (st0 : OpenGLVideo) (x y z : Nat)
    (hx : st0.inputTextures = [x]) (hyz : st0.referenceTextures = [y, z])
    (hxy : x ≠ y) (hxz : x ≠ z) (hyz2 : y ≠ z)
    (htx : st0.ctx.texData x = none) (hty : st0.ctx.texData y = none)
    (htz : st0.ctx.texData z = none)
    (hr : st0.refsNeeded = 2)
    (hhd : st0.hardwareDeinterlacing = true)
    (hw : 1 ≤ st0.actual_video_dim.w) (hh : 1 ≤ st0.actual_video_dim.h)
    (N : Nat) :
    (historicalFrames (uploadSeq st0 N)).length = min (N - 1) 2 ∧
    ((uploadSeq st0 N).refsNeeded = 0 ↔ 2 ≤ N) ∧
    (∀ ops : List VideoOp, 0 ≤ (applyVideoOps (uploadSeq st0 N) ops).refsNeeded) ∧
    (3 ≤ N → historicalFrames (uploadSeq st0 N) = [N - 1, N - 2]) ∧
    (N = 2 → historicalFrames (uploadSeq st0 N) = [1]) := by
  obtain ⟨a, b, c, e1, e2, e3, e4, e5, e6, e7, e8, e9, e10, e11⟩ :=
    uploadSeq_ring_inv st0 x y z hx hyz hxy hxz hyz2 htx hty htz hr hhd hw hh N
  have hhist : historicalFrames (uploadSeq st0 N) =
      if 3 ≤ N then [N - 1, N - 2] else if 2 ≤ N then [N - 1] else [] := by
    by_cases h3 : 3 ≤ N
    · have h2 : 2 ≤ N := by omega
      rw [if_pos h3]
      unfold historicalFrames
      rw [e2]
      simp [e7, e8, h2, h3]
    · rw [if_neg h3]
      by_cases h2 : 2 ≤ N
      · rw [if_pos h2]
        unfold historicalFrames
        rw [e2]
        simp [e7, e8, h2, h3]
      · rw [if_neg h2]
        unfold historicalFrames
        rw [e2]
        simp [e7, e8, h2, h3]
  refine ⟨?_, ?_, ?_, ?_, ?_⟩
  · rw [hhist]
    by_cases h3 : 3 ≤ N
    · rw [if_pos h3]
      show 2 = min (N - 1) 2
      omega
    · rw [if_neg h3]
      by_cases h2 : 2 ≤ N
      · rw [if_pos h2]
        show 1 = min (N - 1) 2
        omega
      · rw [if_neg h2]
        show 0 = min (N - 1) 2
        omega
  · rw [e9]
    omega
  · intro ops
    apply refsNeeded_applyVideoOps_nonneg
    rw [e9]
    exact le_max_right _ _
  · intro h3
    rw [hhist, if_pos h3]
  · intro hN2
    subst hN2
    rw [hhist, if_neg (by omega), if_pos (by omega)]

/-- Witness for C7 (amended): the kernel deinterlacer installed on the
demo state, three valid uploads; the ring then holds [2, 1] and the
counter is exhausted. -/
theorem referenceRing_history_spec_witness :
    (((graphDemoState.addDeinterlacer "openglkerneldeint").2.setDeinterlacing
        true).inputTextures = [1] ∧
     ((graphDemoState.addDeinterlacer "openglkerneldeint").2.setDeinterlacing
        true).referenceTextures = [10, 11] ∧
     ((graphDemoState.addDeinterlacer "openglkerneldeint").2.setDeinterlacing
        true).refsNeeded = 2) ∧
    historicalFrames (uploadSeq ((graphDemoState.addDeinterlacer
        "openglkerneldeint").2.setDeinterlacing true) 3) = [2, 1] ∧
    (historicalFrames (uploadSeq ((graphDemoState.addDeinterlacer
        "openglkerneldeint").2.setDeinterlacing true) 3)).length = min (3 - 1) 2 ∧
    ((uploadSeq ((graphDemoState.addDeinterlacer
        "openglkerneldeint").2.setDeinterlacing true) 3).refsNeeded = 0 ↔ 2 ≤ 3) :=
  ⟨⟨by decide, by decide, by decide⟩,
   (referenceRing_history_spec
      ((graphDemoState.addDeinterlacer "openglkerneldeint").2.setDeinterlacing true)
      1 10 11 (by decide) (by decide) (by decide) (by decide) (by decide)
      (by decide) (by decide) (by decide) (by decide) (by decide) (by decide)
      (by decide) 3).2.2.2.1 (by omega),
   (referenceRing_history_spec
      ((graphDemoState.addDeinterlacer "openglkerneldeint").2.setDeinterlacing true)
      1 10 11 (by decide) (by decide) (by decide) (by decide) (by decide)
      (by decide) (by decide) (by decide) (by decide) (by decide) (by decide)
      (by decide) 3).1,
   (referenceRing_history_spec
      ((graphDemoState.addDeinterlacer "openglkerneldeint").2.setDeinterlacing true)
      1 10 11 (by decide) (by decide) (by decide) (by decide) (by decide)
      (by decide) (by decide) (by decide) (by decide) (by decide) (by decide)
      (by decide) 3).2.1⟩


/-- GetProgramString's substitution tail always closes the program with
END: every produced string has at least those three characters, so the
call always returns a (non-empty) program string. -/
theorem substituteParams_length (st : OpenGLVideo) (ret1 : String) :
    3 ≤ (st.substituteParams ret1).length := by
  unfold substituteParams
  rw [String.length_append]
  rw [show ("END" : String).length = 3 from rfl]
  omega

/-- C8 counterexample: for the colourspace-convert stage, an algorithm
name outside the recognised set does not produce the same fragment-program
text as requesting no deinterlacer: the `deint != ""` test that prepends
the field-variable declaration fires for unknown names too. -/
theorem getProgramString_unknown_adds_deint_decl :
    getProgramString graphDemoState kGLFilterYUV2RGB "greedyhdeint"
        FrameScanType.kScan_Interlaced ≠
      getProgramString graphDemoState kGLFilterYUV2RGB ""
        FrameScanType.kScan_Interlaced := by decide

/-- C8 (amended).  For every algorithm name outside the recognised set,
GetProgramString for the colourspace-convert stage produces the
non-deinterlaced program body with the deinterlacer variable declaration
inserted after the attribute block — it differs from the no-deinterlacer
text exactly by that declaration — leaves the deinterlacer fragment empty
(warning only), and always returns a program string of at least the
closing END. -/
theorem getProgramString_unrecognised (st : OpenGLVideo) (deint : String)
    (field : FrameScanType)
    (hne : deint ≠ "")
    (hnr : deint ∉ recognisedDeinterlacers) :
    getProgramString st kGLFilterYUV2RGB deint field =
      st.substituteParams (programHeader ++ attrib_fast ++ var_deint ++
        var_fast ++ tex_fast ++ end_fast) ∧
    getProgramString st kGLFilterYUV2RGB "" field =
      st.substituteParams (programHeader ++ attrib_fast ++
        var_fast ++ tex_fast ++ end_fast) ∧
    3 ≤ (getProgramString st kGLFilterYUV2RGB deint field).length := by
  simp only [recognisedDeinterlacers, List.mem_cons, List.not_mem_nil, or_false,
    not_or] at hnr
  obtain ⟨n1, n2, n3, n4, n5, n6, n7, n8, n9⟩ := hnr
  have h1 : getProgramString st kGLFilterYUV2RGB deint field =
      st.substituteParams (programHeader ++ attrib_fast ++ var_deint ++
        var_fast ++ tex_fast ++ end_fast) := by
    simp only [getProgramString]
    refine congrArg st.substituteParams ?_
    simp [hne, n1, n2, n3, n4, n5, n6, n7, n8, n9, String.append_empty]
  have h2 : getProgramString st kGLFilterYUV2RGB "" field =
      st.substituteParams (programHeader ++ attrib_fast ++
        var_fast ++ tex_fast ++ end_fast) := by
    simp only [getProgramString]
    refine congrArg st.substituteParams ?_
    simp [String.append_empty]
  refine ⟨h1, h2, ?_⟩
  rw [h1]
  exact substituteParams_length st _

/-- Witness for C8 (amended): the software deinterlacer name
"greedyhdeint" is not a recognised OpenGL deinterlacer; on the demo state
the produced program is the non-deinterlaced body with the variable
declaration inserted, and it is a non-empty program string. -/
theorem getProgramString_unrecognised_witness :
    (("greedyhdeint" : String) ≠ "" ∧
     "greedyhdeint" ∉ recognisedDeinterlacers) ∧
    getProgramString graphDemoState kGLFilterYUV2RGB "greedyhdeint"
        FrameScanType.kScan_Interlaced =
      graphDemoState.substituteParams (programHeader ++ attrib_fast ++
        var_deint ++ var_fast ++ tex_fast ++ end_fast) ∧
    3 ≤ (getProgramString graphDemoState kGLFilterYUV2RGB "greedyhdeint"
        FrameScanType.kScan_Interlaced).length :=
  ⟨⟨by decide, by decide⟩,
   (getProgramString_unrecognised graphDemoState "greedyhdeint"
      FrameScanType.kScan_Interlaced (by decide) (by decide)).1,
   (getProgramString_unrecognised graphDemoState "greedyhdeint"
      FrameScanType.kScan_Interlaced (by decide) (by decide)).2.2⟩

end OpenGLVideo

end OpenGLVideoModel
